import Mathlib

/-!
# Corporate SOCKS5 proxy: authentication, request handling and policy gate

A shallow embedding of `src/Libraries` (ProxyServer.cpp, Handle_Authentication.cpp,
No_Authentication.cpp, GSSAPI.cpp, Username_Password.cpp, ProxyConfiguration.h)
and of `service_main` (main.cpp).

Conventions of the embedding.

* A byte is a natural number; wherever the source converts with
  `static_cast<unsigned char>` the model reduces modulo 256, and the one place
  where the source reads a plain `char` into an `int` (the domain length) it
  uses the signed value, as on the build target (Windows, x86/x64).
* A `std::string` is a `String` whose characters are the bytes (code points
  0..255).
* A load through `reinterpret_cast<unsigned T*>` is little-endian and
  `unsigned long` has 32 bits, as on the build target.
* A socket carries the segments its peer has sent and that were not read yet
  (`rx`), and the bytes written to the peer so far (`tx`). The end of `rx` is
  the end of the stream: a read that needs more fails with `eof`.
* Writes succeed, and `remote_endpoint()` succeeds on an open socket; console
  output (`std::cout`, `std::cerr`) is not modelled. On a socket that `close()`
  has closed `remote_endpoint()` throws (`Socket.remote_endpoint`). The
  handlers are written for the open client socket they are called with
  (`send_socks_reply`, `handle_connect`); the one handler the executor can call
  on a closed session with a reply to send, the connect completion, goes
  through the throwing forms (`send_socks_reply_or_throw`,
  `handle_connect_or_throw`, `complete_connect_or_throw`).
* An asynchronous operation is recorded in `pending` when it is initiated; an
  `async_write` hands its bytes to the socket at initiation.
* The acceptor keeps every session in `active_sessions_` (ProxyServer.cpp:423)
  and removes none, so a session object is not destroyed while the server
  runs and its sockets are closed by `close()` only.
* Handlers run one at a time, and `ProxyServer::stop` runs between two
  handlers: for a session this is the transition `close()` between two turns
  of the executor (`ProxySession.Reachable.stop`), after which its outstanding
  operations complete with `operation_aborted`. An accept operation completes
  with an error once the acceptor is closed.
* An exception that leaves a handler leaves `io_context.run()`; a member call
  through a null `shared_ptr` is a fault of its own, not an exception.
-/

/-- Size of each of the two per-session buffers (`BUFFER_SIZE`, ProxyServer.h). -/
def BUFFER_SIZE : Nat := 4096

/-- Protocol version constant (`SOCKS_VERSION`, ProxyServer.h). -/
def SOCKS_VERSION : Nat := 5

/-- Values of `boost::system::error_code` that the modelled reads produce. -/
inductive error_code where
  | success
  | eof
  | connection_refused
  | operation_aborted
  | bad_descriptor
  deriving DecidableEq, Repr

/-- Text of `error_code::message()` (wording of the POSIX system category and of
the asio misc category). -/
def error_code.message : error_code → String
  | .success => "Success"
  | .eof => "End of file"
  | .connection_refused => "Connection refused"
  | .operation_aborted => "Operation canceled"
  | .bad_descriptor => "Bad file descriptor"

/-- Abnormal ends of a C++ call: an exception leaving the function, an access
outside a container, or a member call through a null pointer. -/
inductive Fault where
  | system_error (ec : error_code)
  | length_error
  | out_of_range
  | null_pointer
  deriving DecidableEq, Repr

/-- TCP socket as the proxy sees it. -/
structure Socket where
  rx : List (List Nat)
  tx : List Nat
  is_open : Bool
  peer : String
  deriving DecidableEq, Repr

/-- Take exactly `n` bytes from the queued segments, across segment boundaries;
`none` when the stream ends before `n` bytes were delivered. -/
def recvExact : List (List Nat) → Nat → Option (List Nat × List (List Nat))
  | [], n => if n = 0 then some ([], []) else none
  | seg :: rest, n =>
      if n ≤ seg.length then some (seg.take n, seg.drop n :: rest)
      else (recvExact rest (n - seg.length)).map fun r => (seg ++ r.1, r.2)

/-- Take what the next non-empty segment holds, at most `cap` bytes; `none` at
the end of the stream. -/
def recvSome (cap : Nat) : List (List Nat) → Option (List Nat × List (List Nat))
  | [] => none
  | seg :: rest =>
      if seg = [] then recvSome cap rest
      else some (seg.take cap, if seg.length ≤ cap then rest else seg.drop cap :: rest)

/-- Model of `boost::asio::read(socket, buffer(p, n), error)`: the bytes read,
the error code and the socket afterwards. -/
def Socket.read (s : Socket) (n : Nat) : error_code × List Nat × Socket :=
  match recvExact s.rx n with
  | some (d, rx) => (error_code.success, d, { s with rx := rx })
  | none => (error_code.eof, s.rx.flatten, { s with rx := [] })

/-- Model of the throwing overload `boost::asio::read(socket, buffer(p, n))`. -/
def Socket.read_or_throw (s : Socket) (n : Nat) : Except Fault (List Nat × Socket) :=
  match recvExact s.rx n with
  | some (d, rx) => Except.ok (d, { s with rx := rx })
  | none => Except.error (Fault.system_error error_code.eof)

/-- Model of `boost::asio::write(socket, buffer(bytes))` and of the data
transfer of `boost::asio::async_write`. -/
def Socket.write (s : Socket) (bytes : List Nat) : Socket :=
  { s with tx := s.tx ++ bytes }

/-- Model of `socket.async_read_some(buffer(p, cap), handler)`: the arguments
the handler is called with (error code, bytes delivered) and the socket. -/
def Socket.read_some (s : Socket) (cap : Nat) : error_code × List Nat × Socket :=
  match recvSome cap s.rx with
  | some (d, rx) => (error_code.success, d, { s with rx := rx })
  | none => (error_code.eof, [], { s with rx := [] })

/-- Model of `socket.close()`. -/
def Socket.close (s : Socket) : Socket :=
  { s with is_open := false }

/-- Model of `socket.async_read_some(buffer(p, cap), handler)` on a socket that
may have been closed: on a closed socket the operation completes with
`operation_aborted`. -/
def Socket.async_read_some (s : Socket) (cap : Nat) : error_code × List Nat × Socket :=
  if s.is_open then s.read_some cap else (error_code.operation_aborted, [], s)

/-- Model of `socket.remote_endpoint().address().to_string()`, the throwing
overload: the peer address of an open socket; on a closed socket it throws
`system_error` with `bad_descriptor`. -/
def Socket.remote_endpoint (s : Socket) : Except Fault String :=
  if s.is_open then Except.ok s.peer
  else Except.error (Fault.system_error error_code.bad_descriptor)

/-- The `std::string` made of the given bytes. -/
def bytesToString (bytes : List Nat) : String :=
  String.mk (bytes.map fun b => Char.ofNat (b % 256))

/-- Struct `Authentication_Result` of Authentication_Method.h. -/
structure Authentication_Result where
  authenticated : Bool
  socket : Socket
  authentication_method : Int
  error : String
  deriving DecidableEq, Repr

/-- Fields of `ProxyConfiguration` that the session engine reads. -/
structure ProxyConfiguration where
  allowedIPs : List String
  blockedIPs : List String
  allowedPorts : List Int
  blockedPorts : List Int
  username : String
  password : String
  authenticationMethod : Int
  deriving DecidableEq, Repr

/-- Method `No_Authentication::authenticate` (No_Authentication.cpp:14-21). -/
def No_Authentication.authenticate (socket : Socket) : Except Fault Authentication_Result :=
  let socket := socket.write [5, 0x00]
  Except.ok { authenticated := true, socket := socket, authentication_method := 0, error := "" }

/-- Method `GSSAPI::authenticate` (GSSAPI.cpp:14-21). -/
def GSSAPI.authenticate (socket : Socket) : Except Fault Authentication_Result :=
  let socket := socket.write [5, 0x01]
  Except.ok { authenticated := false, socket := socket, authentication_method := 1, error := "" }

/-- Method `Username_Password::authenticate` (Username_Password.cpp:14-54); the
two strings are the members `username` and `password`. -/
def Username_Password.authenticate (username password : String) (socket : Socket) :
    Except Fault Authentication_Result := do
  let socket := socket.write [5, 0x02]
  let (header, socket) ← socket.read_or_throw 2
  if header.getD 0 0 % 256 ≠ 0x01 then
    return { authenticated := false, socket := socket, authentication_method := 2,
             error := "Invalid authentication request header." }
  let username_length := header.getD 1 0 % 256
  let (username_read, socket) ← socket.read_or_throw username_length
  let (password_length_buf, socket) ← socket.read_or_throw 1
  let password_length := password_length_buf.getD 0 0 % 256
  let (password_read, socket) ← socket.read_or_throw password_length
  let username_str := bytesToString username_read
  let password_str := bytesToString password_read
  if username_str = username ∧ password_str = password then
    let socket := socket.write [0x01, 0x00]
    return { authenticated := true, socket := socket, authentication_method := 2, error := "" }
  let socket := socket.write [0x01, 0x01]
  return { authenticated := false, socket := socket, authentication_method := 2, error := "" }

/-- Method `Handle_Authentication::handle_authentication`
(Handle_Authentication.cpp:23-73). `data[0]` holds NMETHODS and `data[1..]` the
offered methods. Every branch of the body of the `for` loop returns, so the
body runs for `i = 0` only, and only when `nmethods > 0`; with `nmethods = 0`
control reaches the statement after the loop. -/
def Handle_Authentication.handle_authentication (proxy_config : ProxyConfiguration)
    (socket : Socket) : Except Fault Authentication_Result :=
  match socket.read 1 with
  | (error_code.success, data0, socket) =>
    let nmethods := data0.getD 0 0 % 256
    match socket.read nmethods with
    | (error_code.success, data1, socket) =>
      if 0 < nmethods then
        let method := data1.getD 0 0 % 256
        if (method = 0x00 ∧ proxy_config.authenticationMethod = 0) ∨
            (method = 0x00 ∧ proxy_config.authenticationMethod = -1) then
          No_Authentication.authenticate socket
        else if (method = 0x01 ∧ proxy_config.authenticationMethod = 1) ∨
            (method = 0x01 ∧ proxy_config.authenticationMethod = -1) then
          GSSAPI.authenticate socket
        else if (method = 0x02 ∧ proxy_config.authenticationMethod = 2) ∨
            (method = 0x02 ∧ proxy_config.authenticationMethod = -1) then
          Username_Password.authenticate proxy_config.username proxy_config.password socket
        else
          Except.ok { authenticated := false, socket := socket, authentication_method := -1,
                      error := "Unsupported authentication method." }
      else
        Except.ok { authenticated := false, socket := socket, authentication_method := -1,
                    error := "Error while reading authentication methods: " ++
                      error_code.message error_code.success }
    | (error, _, socket) =>
      Except.ok { authenticated := false, socket := socket, authentication_method := -1,
                  error := "Error while reading authentication methods: " ++ error.message }
  | (error, _, socket) =>
    Except.ok { authenticated := false, socket := socket, authentication_method := -1,
                error := "Error while reading SOCKS request: " ++ error.message }

/-- Levels of `spdlog::level` that the session uses. -/
inductive Level where
  | info
  | err
  deriving DecidableEq, Repr

/-- Observable actions of a session on its collaborators, in program order:
a record handed to the database sink (`database_->add_to_queue`), a record
handed to the file sink (`logger_->add_to_queue`), and the name resolution
that opens a dial (`resolver.resolve(query(address, to_string(port)))`). -/
inductive Event where
  | db_enqueue (level : Level) (ip : String) (message : String)
  | file_enqueue (level : Level) (ip : String) (message : String)
  | resolve (address : String) (port : Nat)
  deriving DecidableEq, Repr

/-- Asynchronous operations a session initiates, named by their completion
handler: the request read (`handle_socks_request`), the outbound connect
(`handle_connect`), the reply write (`handle_write`), the two relay reads
(`handle_client_read`, `handle_server_read`) and the two relay writes, to the
server and to the client (the lambdas passed to `async_write` in
`handle_client_read` and in `handle_server_read`). -/
inductive AsyncOp where
  | request_read
  | connect (address : String) (port : Nat)
  | reply_write
  | client_read
  | server_read
  | server_write
  | client_write
  deriving DecidableEq, Repr

/-- What lies outside the process: the text form of an IPv6 address
(`boost::asio::ip::address_v6::to_string`), the outcome of a name resolution
(`Except.error what` when `resolver.resolve` throws, with the text of `what()`),
the error code an outbound connect completes with, and the segments a
connected target sends. -/
structure Env where
  v6_to_string : List Nat → String
  resolve : String → Nat → Except String Unit
  connect : String → Nat → error_code
  target_sends : String → Nat → List (List Nat)

/-- Byte `i` of a buffer; a buffer is kept as the list of the bytes stored from
its start, and every byte beyond the list is zero (the state `memset` leaves). -/
def bufGet (buf : List Nat) (i : Nat) : Nat :=
  buf.getD i 0

/-- Assignment `buf[i] = v`. -/
def bufSet (buf : List Nat) (i v : Nat) : List Nat :=
  (buf ++ List.replicate (i + 1 - buf.length) 0).set i v

/-- The `len` bytes of a buffer from offset `off`. -/
def bufSlice (buf : List Nat) (off len : Nat) : List Nat :=
  (List.range len).map fun k => bufGet buf (off + k)

/-- A read that delivers `data` at the start of a buffer. -/
def bufStore (buf data : List Nat) : List Nat :=
  data ++ buf.drop data.length

/-- Members of `ProxyServer::ProxySession` (ProxyServer.h:151-158), with the
actions performed so far (`trace`) and the asynchronous operations initiated
and not yet completed (`pending`). -/
structure ProxySession where
  client_socket_ : Socket
  server_socket_ : Socket
  client_data_ : List Nat
  server_data_ : List Nat
  proxyConfig_ : ProxyConfiguration
  logging_method_ : Int
  trace : List Event
  pending : List AsyncOp
  deriving DecidableEq, Repr

/-- The `switch (logging_method_)` of `ProxySession::log_to_file`
(ProxyServer.cpp:397-407): the sink calls made for one record; case 2 falls
through into the default case. -/
def log_to_file_calls (logging_method_ : Int) (log_level : Level) (IP message : String) :
    List Event :=
  if logging_method_ = 1 then
    [Event.db_enqueue log_level IP message]
  else if logging_method_ = 2 then
    [Event.db_enqueue log_level IP message, Event.file_enqueue log_level IP message]
  else
    [Event.file_enqueue log_level IP message]

/-- Method `ProxySession::log_to_file` (ProxyServer.cpp:395-408). -/
def ProxySession.log_to_file (s : ProxySession) (log_level : Level) (IP message : String) :
    ProxySession :=
  { s with trace := s.trace ++ log_to_file_calls s.logging_method_ log_level IP message }

/-- Method `ProxySession::send_socks_reply` (ProxyServer.cpp:293-308) on an
open client socket, where `remote_endpoint()` at line 296 returns the peer
address; on a closed one see `send_socks_reply_or_throw`. -/
def ProxySession.send_socks_reply (s : ProxySession) (status : Nat) : ProxySession :=
  let message := "Sending SOCKS reply with status: " ++ toString status
  let s := s.log_to_file Level.info s.client_socket_.peer message
  let s := { s with server_data_ := bufSet s.server_data_ 0 SOCKS_VERSION }
  let s := { s with server_data_ := bufSet s.server_data_ 1 (status % 256) }
  let s := { s with server_data_ := bufSet s.server_data_ 2 0 }
  let s := { s with server_data_ := bufSet s.server_data_ 3 1 }
  { s with client_socket_ := s.client_socket_.write (bufSlice s.server_data_ 0 10),
           pending := s.pending ++ [AsyncOp.reply_write] }

/-- Method `ProxySession::forward_data` (ProxyServer.cpp:318-330). -/
def ProxySession.forward_data (s : ProxySession) : ProxySession :=
  { s with pending := s.pending ++ [AsyncOp.client_read, AsyncOp.server_read] }

/-- Method `ProxySession::close` (ProxyServer.cpp:410-413). -/
def ProxySession.close (s : ProxySession) : ProxySession :=
  { s with client_socket_ := s.client_socket_.close, server_socket_ := s.server_socket_.close }

/-- Method `ProxySession::handle_connect` (ProxyServer.cpp:282-291) on an open
client socket; on a closed one see `handle_connect_or_throw`. -/
def ProxySession.handle_connect (s : ProxySession) (error : error_code) : ProxySession :=
  if error = error_code.success then
    (s.send_socks_reply 0).forward_data
  else
    s.send_socks_reply 5

/-- Method `ProxySession::read_socks_request` (ProxyServer.cpp:57-107). -/
def ProxySession.read_socks_request (s : ProxySession) : Except Fault ProxySession :=
  match s.client_socket_.read 1 with
  | (error_code.success, data, socket) =>
    let s := { s with client_socket_ := socket, client_data_ := bufStore s.client_data_ data }
    let version := bufGet s.client_data_ 0 % 256
    if version ≠ 5 then
      Except.ok (s.send_socks_reply 5)
    else do
      let result ← Handle_Authentication.handle_authentication s.proxyConfig_ s.client_socket_
      let authenticated := result.authenticated
      let s := { s with client_socket_ := result.socket }
      let authentication_method := result.authentication_method
      let error := result.error
      if error ≠ "" then
        return s.log_to_file Level.err s.client_socket_.peer
          ("Error while authenticating: " ++ error)
      if authenticated then
        let s := s.log_to_file Level.info s.client_socket_.peer
          ("Authenticated successfuly with method: " ++ toString authentication_method)
        let s := { s with client_data_ := [], server_data_ := [] }
        return { s with pending := s.pending ++ [AsyncOp.request_read] }
      else
        return s.log_to_file Level.err s.client_socket_.peer "Authentication failed."
  | (error, _, socket) =>
    let s := { s with client_socket_ := socket }
    Except.ok (s.log_to_file Level.err s.client_socket_.peer
      ("Error while reading initial SOCKS request: " ++ error.message))

/-- Method `ProxySession::start` (ProxyServer.cpp:51-55). -/
def ProxySession.start (s : ProxySession) : Except Fault ProxySession :=
  ProxySession.read_socks_request { s with client_data_ := [], server_data_ := [] }

/-- Value of a plain `char` holding the byte `b`, converted to `int`. -/
def charToInt (b : Nat) : Int :=
  if b % 256 < 128 then ((b % 256 : Nat) : Int) else ((b % 256 : Nat) : Int) - 256

/-- Conversion of an `int` to `std::size_t` (64 bits). -/
def toSizeT (i : Int) : Nat :=
  (i % (2 : Int) ^ 64).toNat

/-- Value that dereferencing `reinterpret_cast<unsigned T*>(buf + off)` reads
for a `width`-byte unsigned type on the little-endian build target: the byte
at the lowest address is the least significant. -/
def loadLE (buf : List Nat) (off : Nat) : Nat → Nat
  | 0 => 0
  | width + 1 => bufGet buf off % 256 + 256 * loadLE buf (off + 1) width

/-- Function `network_to_host_short` (`ntohs`) on the little-endian target: the
two bytes of a 16-bit value exchanged. -/
def network_to_host_short (v : Nat) : Nat :=
  (v % 256) * 256 + v / 256 % 256

/-- Function `network_to_host_long` (`ntohl`) on the little-endian target: the
four bytes of a 32-bit value reversed. -/
def network_to_host_long (v : Nat) : Nat :=
  (v % 256) * 2 ^ 24 + (v / 2 ^ 8 % 256) * 2 ^ 16 + (v / 2 ^ 16 % 256) * 2 ^ 8 +
    v / 2 ^ 24 % 256

/-- Text of `boost::asio::ip::address_v4(v).to_string()` for a 32-bit value in
host order: dotted decimal, most significant byte first. -/
def address_v4_to_string (v : Nat) : String :=
  toString (v / 2 ^ 24 % 256) ++ "." ++ toString (v / 2 ^ 16 % 256) ++ "." ++
    toString (v / 2 ^ 8 % 256) ++ "." ++ toString (v % 256)

/-- Port read at offset `off` of a buffer:
`network_to_host_short(*reinterpret_cast<unsigned short*>(buf + off))`. -/
def portAt (buf : List Nat) (off : Nat) : Nat :=
  network_to_host_short (loadLE buf off 2)

/-- Address text read at offset 4 of a buffer:
`address_v4(network_to_host_long(*reinterpret_cast<unsigned long*>(buf + 4))).to_string()`;
`unsigned long` has 32 bits on the build target. -/
def ipv4At (buf : List Nat) : String :=
  address_v4_to_string (network_to_host_long (loadLE buf 4 4))

/-- The `switch (address_type)` of `handle_socks_request`
(ProxyServer.cpp:133-202): `some (address, port, address_type_string)` when a
target was decoded, `none` on each of the exits `send_socks_reply(8); return;`. -/
def ProxySession.decode_target (env : Env) (client_data_ : List Nat) (address_type : Nat)
    (bytes_transferred : Nat) : Except Fault (Option (String × Nat × String)) :=
  if address_type = 1 then
    if bytes_transferred ≥ 10 then
      Except.ok (some (ipv4At client_data_, portAt client_data_ 8, "IPv4"))
    else
      Except.ok none
  else if address_type = 3 then
    if bytes_transferred ≥ 5 then
      let length : Int := charToInt (bufGet client_data_ 4)
      if bytes_transferred ≥ toSizeT (5 + length + 2) then
        if length < 0 then
          Except.error Fault.length_error
        else
          let address := bytesToString (bufSlice client_data_ 5 length.toNat)
          let port := portAt client_data_ (5 + length.toNat)
          Except.ok (some (address, port, "domain name"))
      else
        Except.ok none
    else
      Except.ok none
  else if address_type = 4 then
    if bytes_transferred ≥ 22 then
      let ipv6_bytes := (bufSlice client_data_ 4 16).map fun b => b % 256
      let port := portAt client_data_ 20
      Except.ok (some (env.v6_to_string ipv6_bytes, port, "IPv6"))
    else
      Except.ok none
  else
    Except.ok none

/-- The policy gate and the dial of `handle_socks_request`
(ProxyServer.cpp:211-269), entered with the decoded target. Indexing an empty
`std::vector` with `[0]` is recorded as `Fault.out_of_range`. -/
def ProxySession.gate_and_dial (env : Env) (s : ProxySession) (address : String) (port : Nat) :
    Except Fault ProxySession :=
  let blocked_sites := s.proxyConfig_.blockedIPs
  let blocked_ports := s.proxyConfig_.blockedPorts
  let allowed_sites := s.proxyConfig_.allowedIPs
  let allowed_ports := s.proxyConfig_.allowedPorts
  match allowed_sites, allowed_ports with
  | [], _ => Except.error Fault.out_of_range
  | _ :: _, [] => Except.error Fault.out_of_range
  | first_site :: _, first_port :: _ =>
    let isSiteBlocked : Bool :=
      if first_site = "all" then false else decide (address ∈ blocked_sites)
    let isSiteAllowed : Bool :=
      if first_site = "all" then true else decide (address ∈ allowed_sites)
    let isPortBlocked : Bool :=
      if first_port = -1 then false else decide ((port : Int) ∈ blocked_ports)
    let isPortAllowed : Bool :=
      if first_port = -1 then true else decide ((port : Int) ∈ allowed_ports)
    let s := s.log_to_file Level.info s.client_socket_.peer
      ("Resolved: " ++ address ++ ":" ++ toString port ++ ".")
    if isSiteBlocked || isPortBlocked then
      Except.ok (s.send_socks_reply 7)
    else if isSiteAllowed && isPortAllowed then
      let s := { s with trace := s.trace ++ [Event.resolve address port] }
      match env.resolve address port with
      | Except.ok _ =>
        Except.ok { s with pending := s.pending ++ [AsyncOp.connect address port] }
      | Except.error what =>
        Except.ok (s.log_to_file Level.err s.client_socket_.peer ("Exception: " ++ what))
    else
      Except.ok (s.send_socks_reply 5)

/-- Method `ProxySession::handle_socks_request` (ProxyServer.cpp:109-280). The
request bytes are in `client_data_`. The `if (command == 1)` has no `else`. -/
def ProxySession.handle_socks_request (env : Env) (s : ProxySession) (error : error_code)
    (bytes_transferred : Nat) : Except Fault ProxySession :=
  if error = error_code.success then
    let version := bufGet s.client_data_ 0 % 256
    let command := bufGet s.client_data_ 1 % 256
    let reserved := bufGet s.client_data_ 2 % 256
    let address_type := bufGet s.client_data_ 3 % 256
    if version = SOCKS_VERSION then
      if command = 1 then
        match ProxySession.decode_target env s.client_data_ address_type bytes_transferred with
        | Except.error f => Except.error f
        | Except.ok none => Except.ok (s.send_socks_reply 8)
        | Except.ok (some (address, port, address_type_string)) =>
          let message := "Handling SOCKS5 request (bytes transferred: " ++
            toString bytes_transferred ++ ", version: " ++ toString version ++
            ", command: " ++ toString command ++ ", reserved: " ++ toString reserved ++
            ", address type: " ++ address_type_string ++ ")."
          let s := s.log_to_file Level.info s.client_socket_.peer message
          ProxySession.gate_and_dial env s address port
      else
        Except.ok s
    else
      Except.ok (s.send_socks_reply 1)
  else
    Except.ok s.close

/-- Completion of the request read that `read_socks_request` initiated: the
executor stores what `async_read_some` delivered in `client_data_` and calls
`handle_socks_request` with the error code and the byte count; on a socket
closed meanwhile the read completes with `operation_aborted`. -/
def ProxySession.complete_request_read (env : Env) (s : ProxySession) :
    Except Fault ProxySession :=
  match s.client_socket_.async_read_some BUFFER_SIZE with
  | (error, data, socket) =>
    let s := { s with client_socket_ := socket,
                      client_data_ := bufStore s.client_data_ data,
                      pending := s.pending.erase AsyncOp.request_read }
    ProxySession.handle_socks_request env s error data.length

/-- Completion of the connect that `handle_socks_request` initiated, on a
session that was not closed meanwhile: a successful `async_connect` leaves
`server_socket_` open and connected to the target, and the executor calls
`handle_connect` with the outcome. -/
def ProxySession.complete_connect (env : Env) (s : ProxySession) (address : String)
    (port : Nat) : ProxySession :=
  let error := env.connect address port
  let server_socket_ :=
    if error = error_code.success then
      { s.server_socket_ with rx := env.target_sends address port, is_open := true,
                              peer := address }
    else s.server_socket_
  ProxySession.handle_connect
    { s with server_socket_ := server_socket_,
             pending := s.pending.erase (AsyncOp.connect address port) }
    error

/-- Method `ProxySession::send_socks_reply` (ProxyServer.cpp:293-308) on a
session whose sockets may have been closed: the argument of its `log_to_file`
call evaluates `client_socket_.remote_endpoint()` (line 296), which throws on a
closed socket, before `server_data_` is touched and before the write is
initiated. On an open socket it is `send_socks_reply`. -/
def ProxySession.send_socks_reply_or_throw (s : ProxySession) (status : Nat) :
    Except Fault ProxySession := do
  let _ ← s.client_socket_.remote_endpoint
  return s.send_socks_reply status

/-- Method `ProxySession::handle_connect` (ProxyServer.cpp:282-291) on a
session whose sockets may have been closed. -/
def ProxySession.handle_connect_or_throw (s : ProxySession) (error : error_code) :
    Except Fault ProxySession :=
  if error = error_code.success then do
    let s ← s.send_socks_reply_or_throw 0
    return s.forward_data
  else
    s.send_socks_reply_or_throw 5

/-- Completion of the connect on a session that may have been closed meanwhile.
`close()` closes both sockets and nothing else closes the client socket, so on
a session whose client socket is closed `close()` has run: it has closed
`server_socket_`, and the connect completes with `operation_aborted`. -/
def ProxySession.complete_connect_or_throw (env : Env) (s : ProxySession) (address : String)
    (port : Nat) : Except Fault ProxySession :=
  let error :=
    if s.client_socket_.is_open then env.connect address port
    else error_code.operation_aborted
  let server_socket_ :=
    if error = error_code.success then
      { s.server_socket_ with rx := env.target_sends address port, is_open := true,
                              peer := address }
    else s.server_socket_
  ProxySession.handle_connect_or_throw
    { s with server_socket_ := server_socket_,
             pending := s.pending.erase (AsyncOp.connect address port) }
    error

/-- Target of the connect a session has outstanding, if any. -/
def ProxySession.pending_connect (s : ProxySession) : Option (String × Nat) :=
  s.pending.findSome? fun op =>
    match op with
    | AsyncOp.connect address port => some (address, port)
    | _ => none

/-- A session from `start()` up to the completion of its connect: each stage
runs when the stage before it has initiated the operation that leads to it. -/
def ProxySession.run (env : Env) (s : ProxySession) : Except Fault ProxySession := do
  let s ← s.start
  if AsyncOp.request_read ∈ s.pending then
    let s ← s.complete_request_read env
    match s.pending_connect with
    | some (address, port) => return s.complete_connect env address port
    | none => return s
  else
    return s

/-- Target of the outbound connection an action opens, if it opens one. -/
def Event.dial_target : Event → Option (String × Nat)
  | Event.resolve address port => some (address, port)
  | _ => none

/-- Targets of the outbound connections a session has attempted, in order. -/
def ProxySession.dials (s : ProxySession) : List (String × Nat) :=
  s.trace.filterMap Event.dial_target

/-- A session as the acceptor creates it (ProxyServer.cpp:39-48) for a client
whose sent segments are `rx`; `server_socket_` is constructed from the executor
alone, so it is not open. -/
def ProxySession.accepted (config : ProxyConfiguration) (logging_method : Int)
    (peer : String) (rx : List (List Nat)) : ProxySession :=
  { client_socket_ := { rx := rx, tx := [], is_open := true, peer := peer },
    server_socket_ := { rx := [], tx := [], is_open := false, peer := "" },
    client_data_ := [], server_data_ := [],
    proxyConfig_ := config, logging_method_ := logging_method,
    trace := [], pending := [] }

/-- Environment used in the examples: IPv6 text left empty, every name
resolves, every connect succeeds, targets send nothing. -/
def Env.reachable : Env :=
  { v6_to_string := fun _ => "",
    resolve := fun _ _ => Except.ok (),
    connect := fun _ _ => error_code.success,
    target_sends := fun _ _ => [] }

/-- Selection rule of the dispatcher as the specification words it (section 4.3),
kept apart from the code for comparison: an offered method satisfies the server
preference when it equals the configured preference, or the preference is Any
(-1) and the method is one of 0, 1, 2. -/
def method_satisfies_spec (preference : Int) (m : Nat) : Bool :=
  decide ((m : Int) = preference) ||
    (decide (preference = -1) && decide (m = 0 ∨ m = 1 ∨ m = 2))

/-- Method the dispatcher delegates to according to the specification (section
4.3): the first offered method, in list order, that satisfies the preference. -/
def dispatcher_choice_spec (preference : Int) (methods : List Nat) : Option Nat :=
  methods.find? (method_satisfies_spec preference)

/-- Configuration with the given authentication preference and credentials that
admits every host and every port. -/
def ProxyConfiguration.allow_all (authenticationMethod : Int) (username password : String) :
    ProxyConfiguration :=
  { allowedIPs := ["all"], blockedIPs := [], allowedPorts := [-1], blockedPorts := [],
    username := username, password := password, authenticationMethod := authenticationMethod }

/-- Connected client socket on which the peer has sent the segments `rx` and
nothing was written yet. -/
def Socket.fresh (peer : String) (rx : List (List Nat)) : Socket :=
  { rx := rx, tx := [], is_open := true, peer := peer }

/-- The ten bytes a reply hands to the client write: the start of
`server_data_` after the four assignments of `send_socks_reply`. -/
def ProxySession.reply_frame (s : ProxySession) (status : Nat) : List Nat :=
  bufSlice (bufSet (bufSet (bufSet (bufSet s.server_data_ 0 SOCKS_VERSION) 1 (status % 256)) 2 0)
    3 1) 0 10

/-- A session after authentication whose request read has delivered `frame`
into `client_data_` (both buffers were zeroed before the read). -/
def ProxySession.awaiting_request (config : ProxyConfiguration) (logging_method : Int)
    (peer : String) (frame : List Nat) : ProxySession :=
  { ProxySession.accepted config logging_method peer [] with client_data_ := frame }

/-- The policy rule without wildcards, in the words of the claims: the host is
in the allowed hosts and not in the blocked hosts, and the port is in the
allowed ports and not in the blocked ports. -/
def target_permitted (config : ProxyConfiguration) (address : String) (port : Nat) : Prop :=
  address ∈ config.allowedIPs ∧ address ∉ config.blockedIPs ∧
    (port : Int) ∈ config.allowedPorts ∧ (port : Int) ∉ config.blockedPorts

/-- The port rule of the gate: the first allowed-port entry is the wildcard -1,
or the port is in the allowed ports and not in the blocked ports. -/
def port_rule_permits (config : ProxyConfiguration) (port : Nat) : Prop :=
  config.allowedPorts.head? = some (-1) ∨
    ((port : Int) ∈ config.allowedPorts ∧ (port : Int) ∉ config.blockedPorts)

/-- Model of the data transfer of `boost::asio::async_write` on a socket that
may have been closed: a closed socket takes no bytes. -/
def Socket.async_write (s : Socket) (bytes : List Nat) : Socket :=
  if s.is_open then s.write bytes else s

/-- Error code a write on the socket completes with: the code the transport
reports, or `operation_aborted` when the socket was closed meanwhile. -/
def Socket.write_result (s : Socket) (error : error_code) : error_code :=
  if s.is_open then error else error_code.operation_aborted

/-- Method `ProxySession::handle_write` (ProxyServer.cpp:309-316). -/
def ProxySession.handle_write (s : ProxySession) (error : error_code) : ProxySession :=
  if error = error_code.success then
    s
  else
    s.close

/-- Method `ProxySession::handle_client_read` (ProxyServer.cpp:332-353), up to
the initiation of the write to the server. -/
def ProxySession.handle_client_read (s : ProxySession) (error : error_code)
    (bytes_transferred : Nat) : ProxySession :=
  if error = error_code.success then
    { s with server_socket_ :=
               s.server_socket_.async_write (bufSlice s.client_data_ 0 bytes_transferred),
             pending := s.pending ++ [AsyncOp.server_write] }
  else
    s.close

/-- The lambda that `handle_client_read` passes to `async_write`
(ProxyServer.cpp:337-348): the next client read, or `close()`. -/
def ProxySession.handle_client_read_written (s : ProxySession) (write_error : error_code) :
    ProxySession :=
  if write_error = error_code.success then
    { s with pending := s.pending ++ [AsyncOp.client_read] }
  else
    s.close

/-- Method `ProxySession::handle_server_read` (ProxyServer.cpp:355-377), up to
the initiation of the write to the client. -/
def ProxySession.handle_server_read (s : ProxySession) (error : error_code)
    (bytes_transferred : Nat) : ProxySession :=
  if error = error_code.success then
    { s with client_socket_ :=
               s.client_socket_.async_write (bufSlice s.server_data_ 0 bytes_transferred),
             pending := s.pending ++ [AsyncOp.client_write] }
  else
    s.close

/-- The lambda that `handle_server_read` passes to `async_write`
(ProxyServer.cpp:360-372): the next server read, or `close()`. -/
def ProxySession.handle_server_read_written (s : ProxySession) (write_error : error_code) :
    ProxySession :=
  if write_error = error_code.success then
    { s with pending := s.pending ++ [AsyncOp.server_read] }
  else
    s.close

/-- Completion of the reply write that `send_socks_reply` initiated. -/
def ProxySession.complete_reply_write (s : ProxySession) (error : error_code) : ProxySession :=
  ProxySession.handle_write { s with pending := s.pending.erase AsyncOp.reply_write }
    (s.client_socket_.write_result error)

/-- Completion of a relay read on the client socket: the executor stores what
`async_read_some` delivered in `client_data_` and calls `handle_client_read`. -/
def ProxySession.complete_client_read (s : ProxySession) : ProxySession :=
  match s.client_socket_.async_read_some BUFFER_SIZE with
  | (error, data, socket) =>
    ProxySession.handle_client_read
      { s with client_socket_ := socket,
               client_data_ := bufStore s.client_data_ data,
               pending := s.pending.erase AsyncOp.client_read }
      error data.length

/-- Completion of a relay read on the server socket: the executor stores what
`async_read_some` delivered in `server_data_` and calls `handle_server_read`. -/
def ProxySession.complete_server_read (s : ProxySession) : ProxySession :=
  match s.server_socket_.async_read_some BUFFER_SIZE with
  | (error, data, socket) =>
    ProxySession.handle_server_read
      { s with server_socket_ := socket,
               server_data_ := bufStore s.server_data_ data,
               pending := s.pending.erase AsyncOp.server_read }
      error data.length

/-- Completion of a relay write to the server. -/
def ProxySession.complete_server_write (s : ProxySession) (error : error_code) :
    ProxySession :=
  ProxySession.handle_client_read_written
    { s with pending := s.pending.erase AsyncOp.server_write }
    (s.server_socket_.write_result error)

/-- Completion of a relay write to the client. -/
def ProxySession.complete_client_write (s : ProxySession) (error : error_code) :
    ProxySession :=
  ProxySession.handle_server_read_written
    { s with pending := s.pending.erase AsyncOp.client_write }
    (s.client_socket_.write_result error)

/-- One turn of the executor: an outstanding operation `op` completes and its
handler runs; `none` when `op` is not outstanding. `error` is what the
transport reports for a write; reads and the connect take their outcome from
the sockets and the environment. -/
def ProxySession.step (env : Env) (s : ProxySession) (op : AsyncOp) (error : error_code) :
    Option (Except Fault ProxySession) :=
  if op ∈ s.pending then
    match op with
    | AsyncOp.request_read => some (s.complete_request_read env)
    | AsyncOp.connect address port => some (s.complete_connect_or_throw env address port)
    | AsyncOp.reply_write => some (Except.ok (s.complete_reply_write error))
    | AsyncOp.client_read => some (Except.ok s.complete_client_read)
    | AsyncOp.server_read => some (Except.ok s.complete_server_read)
    | AsyncOp.server_write => some (Except.ok (s.complete_server_write error))
    | AsyncOp.client_write => some (Except.ok (s.complete_client_write error))
  else
    none

/-- A sequence of turns of the executor. -/
def ProxySession.exec (env : Env) :
    List (AsyncOp × error_code) → ProxySession → Option (Except Fault ProxySession)
  | [], s => some (Except.ok s)
  | (op, error) :: rest, s =>
    match s.step env op error with
    | some (Except.ok s1) => ProxySession.exec env rest s1
    | some (Except.error f) => some (Except.error f)
    | none => none

/-- States a session can be in: the state `start()` leaves an accepted session
in, every state a turn of the executor leads to from such a state, and every
state in which `ProxyServer::stop` leaves such a state when it calls `close()`
on the session between two turns (ProxyServer.cpp:33-36). -/
inductive ProxySession.Reachable (env : Env) : ProxySession → Prop where
  | start (config : ProxyConfiguration) (logging_method : Int) (peer : String)
      (rx : List (List Nat)) (s : ProxySession) :
      (ProxySession.accepted config logging_method peer rx).start = Except.ok s →
      ProxySession.Reachable env s
  | step (s : ProxySession) (op : AsyncOp) (error : error_code) (s1 : ProxySession) :
      ProxySession.Reachable env s → s.step env op error = some (Except.ok s1) →
      ProxySession.Reachable env s1
  | stop (s : ProxySession) :
      ProxySession.Reachable env s → ProxySession.Reachable env s.close

/-- Environment in which every name resolves and every connect is refused. -/
def Env.refusing : Env :=
  { v6_to_string := fun _ => "",
    resolve := fun _ _ => Except.ok (),
    connect := fun _ _ => error_code.connection_refused,
    target_sends := fun _ _ => [] }

/-- Environment in which no name resolves. -/
def Env.unresolvable : Env :=
  { v6_to_string := fun _ => "",
    resolve := fun _ _ => Except.error "resolve: Host not found (authoritative)",
    connect := fun _ _ => error_code.connection_refused,
    target_sends := fun _ _ => [] }

/-- A handler that calls `send_socks_reply` is still to run: the request read
or a connect is outstanding. -/
def ProxySession.reply_possible (s : ProxySession) : Prop :=
  AsyncOp.request_read ∈ s.pending ∨
    ∃ address port, AsyncOp.connect address port ∈ s.pending

/-- The stages of a session by its outstanding operations: the request read
alone with `server_data_` still zeroed, one connect alone with `server_data_`
still zeroed, or neither a request read nor a connect. -/
def ProxySession.staged (s : ProxySession) : Prop :=
  (s.pending = [AsyncOp.request_read] ∧ s.server_data_ = []) ∨
  (∃ address port, s.pending = [AsyncOp.connect address port] ∧ s.server_data_ = []) ∨
  ¬ s.reply_possible

/-- The relay stage of a session: no handler that replies is still to run, the
two sockets are both open or both closed, and in each direction at most one
operation is outstanding, the read or the write of what the read delivered. -/
def ProxySession.relaying (s : ProxySession) : Prop :=
  ¬ s.reply_possible ∧
  s.client_socket_.is_open = s.server_socket_.is_open ∧
  s.pending.count AsyncOp.client_read + s.pending.count AsyncOp.server_write ≤ 1 ∧
  s.pending.count AsyncOp.server_read + s.pending.count AsyncOp.client_write ≤ 1

/-- Bytes moved by the relay between two states of a session: what left the
receive queue of `source` was appended, in order, to what was handed to `sink`
for writing. -/
def relayed (source_before source_after sink_before sink_after : Socket) : Prop :=
  ∃ bytes, source_before.rx.flatten = bytes ++ source_after.rx.flatten ∧
    sink_after.tx = sink_before.tx ++ bytes

/-- A session in the relay stage: both relay reads outstanding, the client has
sent the segments 01 02 03 and 04 05, the target the segment 09 08. -/
def ProxySession.relay_example : ProxySession :=
  { client_socket_ := { rx := [[1, 2, 3], [4, 5]], tx := [], is_open := true,
                        peer := "192.0.2.7" },
    server_socket_ := { rx := [[9, 8]], tx := [], is_open := true, peer := "192.0.2.33" },
    client_data_ := [], server_data_ := [],
    proxyConfig_ := ProxyConfiguration.allow_all 0 "" "", logging_method_ := 0,
    trace := [], pending := [AsyncOp.client_read, AsyncOp.server_read] }

/-- A socket object that holds no connection: one constructed from an executor
alone, and one whose connection was moved out of it. -/
def Socket.unconnected : Socket :=
  { rx := [], tx := [], is_open := false, peer := "" }

/-- The session that `std::make_shared<ProxySession>(std::move(*socket), ...)`
builds (ProxyServer.cpp:39-48, 422). -/
def ProxySession.make_shared (socket : Socket) (config : ProxyConfiguration)
    (logging_method : Int) : ProxySession :=
  { client_socket_ := socket, server_socket_ := Socket.unconnected,
    client_data_ := [], server_data_ := [],
    proxyConfig_ := config, logging_method_ := logging_method,
    trace := [], pending := [] }

/-- The listening socket `boost::asio::ip::tcp::acceptor`. -/
structure Acceptor where
  is_open : Bool
  deriving DecidableEq, Repr

/-- Model of `acceptor.close()`. -/
def Acceptor.close (a : Acceptor) : Acceptor :=
  { a with is_open := false }

/-- Error code an accept operation completes with: the code the transport
reports, or an error when the acceptor is closed (`operation_aborted` for the
operation that was outstanding when it was closed; an operation initiated on a
closed acceptor fails as well, and the handler only tests for success). -/
def Acceptor.accept_result (a : Acceptor) (error : error_code) : error_code :=
  if a.is_open then error else error_code.operation_aborted

/-- Members of `ProxyServer` (ProxyServer.h:169-175), with the number of
`async_accept` operations initiated and not yet completed (`accepts`). The
sessions are held by pointer: `active_sessions_` lists them in their current
state. -/
structure ProxyServer where
  acceptor_ : Acceptor
  socket_ : Socket
  proxyConfig_ : ProxyConfiguration
  logging_method_ : Int
  active_sessions_ : List ProxySession
  accepts : Nat
  deriving DecidableEq, Repr

/-- Method `ProxyServer::stop` (ProxyServer.cpp:21-37). -/
def ProxyServer.stop (srv : ProxyServer) : ProxyServer :=
  let srv := if srv.acceptor_.is_open then { srv with acceptor_ := srv.acceptor_.close } else srv
  let srv := if srv.socket_.is_open then { srv with socket_ := srv.socket_.close } else srv
  { srv with active_sessions_ := srv.active_sessions_.map ProxySession.close }

/-- Method `ProxyServer::start_accept` (ProxyServer.cpp:417-428): one
`async_accept` is initiated. -/
def ProxyServer.start_accept (srv : ProxyServer) : ProxyServer :=
  { srv with accepts := srv.accepts + 1 }

/-- The completion handler that `start_accept` gives to `async_accept`
(ProxyServer.cpp:420-427). On success the connection is moved out of `*socket`
into a new session, the session is appended to `active_sessions_` and started;
the collection holds a pointer, so its element is the session as `start()`
leaves it. An exception from `start()` leaves the handler before
`start_accept` is called. `start_accept` is called on every other path, with or
without an error. -/
def ProxyServer.handle_accept (srv : ProxyServer) (error : error_code) :
    Except Fault ProxyServer :=
  if error = error_code.success then do
    let session := ProxySession.make_shared srv.socket_ srv.proxyConfig_ srv.logging_method_
    let srv := { srv with socket_ := Socket.unconnected }
    let session ← session.start
    let srv := { srv with active_sessions_ := srv.active_sessions_ ++ [session] }
    return srv.start_accept
  else
    return srv.start_accept

/-- Completion of an outstanding accept: on success the executor has stored the
new connection (peer address `peer`, segments `rx` sent by the client) in
`*socket`; the handler runs with the error code. `none` when no accept is
outstanding. -/
def ProxyServer.complete_accept (srv : ProxyServer) (error : error_code) (peer : String)
    (rx : List (List Nat)) : Option (Except Fault ProxyServer) :=
  if 0 < srv.accepts then
    let error := srv.acceptor_.accept_result error
    let srv := { srv with accepts := srv.accepts - 1 }
    let srv := if error = error_code.success then { srv with socket_ := Socket.fresh peer rx }
      else srv
    some (srv.handle_accept error)
  else
    none

/-- The server as its constructor leaves it (ProxyServer.cpp:3-19) when open,
bind and listen have succeeded: the acceptor is open, no session exists and the
first accept is outstanding. -/
def ProxyServer.listening (config : ProxyConfiguration) (logging_method : Int) : ProxyServer :=
  ProxyServer.start_accept
    { acceptor_ := { is_open := true }, socket_ := Socket.unconnected,
      proxyConfig_ := config, logging_method_ := logging_method,
      active_sessions_ := [], accepts := 0 }

/-- Completions the executor of the server dispatches: an accept, or an
operation of the session at position `i` of `active_sessions_`. -/
inductive ProxyServer.Action where
  | accept (error : error_code) (peer : String) (rx : List (List Nat))
  | session (i : Nat) (op : AsyncOp) (error : error_code)
  deriving DecidableEq, Repr

/-- One turn of the server's executor; `none` when the operation is not
outstanding. An exception from a handler leaves the executor. -/
def ProxyServer.step (env : Env) (srv : ProxyServer) :
    ProxyServer.Action → Option (Except Fault ProxyServer)
  | ProxyServer.Action.accept error peer rx => srv.complete_accept error peer rx
  | ProxyServer.Action.session i op error =>
    match srv.active_sessions_[i]? with
    | none => none
    | some s =>
      match s.step env op error with
      | none => none
      | some (Except.error f) => some (Except.error f)
      | some (Except.ok s1) =>
        some (Except.ok { srv with active_sessions_ := srv.active_sessions_.set i s1 })

/-- Model of `io_context.run()` on the server's executor: the given completions
are dispatched in order; an exception from a handler propagates to the caller
of `run()`. -/
def ProxyServer.run (env : Env) :
    List ProxyServer.Action → ProxyServer → Option (Except Fault ProxyServer)
  | [], srv => some (Except.ok srv)
  | action :: rest, srv =>
    match srv.step env action with
    | some (Except.ok srv1) => ProxyServer.run env rest srv1
    | some (Except.error f) => some (Except.error f)
    | none => none

/-- States the server can be in while it runs: the state its constructor
leaves, and every state a turn of the executor leads to from such a state. -/
inductive ProxyServer.Reachable (env : Env) : ProxyServer → Prop where
  | listening (config : ProxyConfiguration) (logging_method : Int) :
      ProxyServer.Reachable env (ProxyServer.listening config logging_method)
  | step (srv : ProxyServer) (action : ProxyServer.Action) (srv1 : ProxyServer) :
      ProxyServer.Reachable env srv → srv.step env action = some (Except.ok srv1) →
      ProxyServer.Reachable env srv1

/-- Service states reported to the service control manager (`SERVICE_RUNNING`,
`SERVICE_STOP_PENDING`, `SERVICE_STOPPED`). -/
inductive ServiceState where
  | running
  | stop_pending
  | stopped
  deriving DecidableEq, Repr

/-- Globals of main.cpp: the server handle `server` (a null `shared_ptr` until
it is assigned), the lines written to `log_file` and whether it is open, the
handle `handle_status`, and the calls of `SetServiceStatus` so far (state, exit
code, wait hint). -/
structure Service where
  server : Option ProxyServer
  log_file : List String
  log_file_is_open : Bool
  handle_status : Option Nat
  reports : List (ServiceState × Nat × Nat)
  deriving DecidableEq, Repr

/-- What the calls made by `service_main` (main.cpp:106-141) do in one run of
the process. An `Except.error what` is an exception whose `what()` is `what`.
`loadConfigFromIni` gives the configuration and its `loggingMethod`; `listen`
is the open, bind and listen of the `ProxyServer` constructor; `run` gives the
server as `io_context.run()` leaves it and the exception that left it, if
any. -/
structure Startup where
  RegisterServiceCtrlHandler : Option Nat
  GetLastError : Nat
  loadConfigFromIni : Except String (ProxyConfiguration × Int)
  logger : Except String Unit
  database : Except String Unit
  listen : Except String Unit
  run : ProxyServer → ProxyServer × Option String

/-- Win32 constant `ERROR` (wingdi.h). -/
def ERROR : Nat := 0

/-- Win32 constant `NO_ERROR` (winerror.h). -/
def NO_ERROR : Nat := 0

/-- Function `report_service_status` (main.cpp:184-191). -/
def report_service_status (svc : Service) (currentState : ServiceState)
    (win32ExitCode waitHint : Nat) : Service :=
  { svc with reports := svc.reports ++ [(currentState, win32ExitCode, waitHint)] }

/-- Output of one line to `log_file`; a closed stream takes nothing. -/
def Service.log (svc : Service) (line : String) : Service :=
  if svc.log_file_is_open then { svc with log_file := svc.log_file ++ [line] } else svc

/-- The `try` block of `service_main` (main.cpp:126-142): the globals when the
block is left, and the exception that left it, if any. The handle `server` is
assigned only after the constructor of `ProxyServer` has returned. -/
def service_main_try (env : Startup) (svc : Service) : Service × Option String :=
  match env.loadConfigFromIni with
  | Except.error what => (svc, some what)
  | Except.ok (proxyConfig, loggingMethod) =>
    match env.logger with
    | Except.error what => (svc, some what)
    | Except.ok _ =>
      match env.database with
      | Except.error what => (svc, some what)
      | Except.ok _ =>
        match env.listen with
        | Except.error what => (svc, some what)
        | Except.ok _ =>
          let svc := { svc with server := some (ProxyServer.listening proxyConfig loggingMethod) }
          match env.run (ProxyServer.listening proxyConfig loggingMethod) with
          | (srv, some what) => ({ svc with server := some srv }, some what)
          | (srv, none) => ({ svc with server := some srv }, none)

/-- Function `service_main` (main.cpp:96-158). The handler of the `try` block
calls `server->stop()` first; through a null handle that call is recorded as
`Fault.null_pointer`. -/
def service_main (env : Startup) (svc : Service) : Except Fault Service :=
  if svc.log_file_is_open = false then
    Except.ok (report_service_status svc ServiceState.stopped ERROR 0)
  else
    let svc := { svc with handle_status := env.RegisterServiceCtrlHandler }
    match svc.handle_status with
    | none =>
      let svc := report_service_status svc ServiceState.stopped ERROR 0
      Except.ok (svc.log ("Unable to RegisterServiceCtrlHandler." ++ toString env.GetLastError))
    | some _ => do
      let svc := report_service_status svc ServiceState.running NO_ERROR 0
      let svc := svc.log "Service started."
      let svc ← match service_main_try env svc with
        | (svc, none) => Except.ok svc
        | (svc, some what) =>
          match svc.server with
          | none => Except.error Fault.null_pointer
          | some srv =>
            let svc := { svc with server := some srv.stop }
            Except.ok (svc.log ("Exception: " ++ what))
      let svc := report_service_status svc ServiceState.stopped NO_ERROR 0
      let svc := svc.log "Service stoped."
      return (if svc.log_file_is_open then { svc with log_file_is_open := false } else svc)

/-- The globals of main.cpp when `service_main` is entered. -/
def Service.initial (log_file_is_open : Bool) : Service :=
  { server := none, log_file := [], log_file_is_open := log_file_is_open,
    handle_status := none, reports := [] }

/-- Environment in which every name resolves, every connect succeeds and the
target sends the four bytes "SSH-" as soon as it is connected. -/
def Env.greeting_target : Env :=
  { v6_to_string := fun _ => "",
    resolve := fun _ _ => Except.ok (),
    connect := fun _ _ => error_code.success,
    target_sends := fun _ _ => [[0x53, 0x53, 0x48, 0x2D]] }

@[simp] theorem log_to_file_calls_no_dial (lm : Int) (l : Level) (ip m : String) :
    (log_to_file_calls lm l ip m).filterMap Event.dial_target = [] := by
  unfold log_to_file_calls
  split_ifs <;> rfl

@[simp] theorem log_to_file_client_socket (s : ProxySession) (l : Level) (ip m : String) :
    (s.log_to_file l ip m).client_socket_ = s.client_socket_ := rfl

@[simp] theorem log_to_file_server_socket (s : ProxySession) (l : Level) (ip m : String) :
    (s.log_to_file l ip m).server_socket_ = s.server_socket_ := rfl

@[simp] theorem log_to_file_client_data (s : ProxySession) (l : Level) (ip m : String) :
    (s.log_to_file l ip m).client_data_ = s.client_data_ := rfl

@[simp] theorem log_to_file_server_data (s : ProxySession) (l : Level) (ip m : String) :
    (s.log_to_file l ip m).server_data_ = s.server_data_ := rfl

@[simp] theorem log_to_file_proxyConfig (s : ProxySession) (l : Level) (ip m : String) :
    (s.log_to_file l ip m).proxyConfig_ = s.proxyConfig_ := rfl

@[simp] theorem log_to_file_logging_method (s : ProxySession) (l : Level) (ip m : String) :
    (s.log_to_file l ip m).logging_method_ = s.logging_method_ := rfl

@[simp] theorem log_to_file_trace (s : ProxySession) (l : Level) (ip m : String) :
    (s.log_to_file l ip m).trace = s.trace ++ log_to_file_calls s.logging_method_ l ip m := rfl

@[simp] theorem log_to_file_pending (s : ProxySession) (l : Level) (ip m : String) :
    (s.log_to_file l ip m).pending = s.pending := rfl

@[simp] theorem log_to_file_dials (s : ProxySession) (l : Level) (ip m : String) :
    (s.log_to_file l ip m).dials = s.dials := by
  simp [ProxySession.dials, List.filterMap_append]

@[simp] theorem send_socks_reply_dials (s : ProxySession) (status : Nat) :
    (s.send_socks_reply status).dials = s.dials := by
  simp [ProxySession.send_socks_reply, ProxySession.dials, List.filterMap_append]

@[simp] theorem send_socks_reply_pending (s : ProxySession) (status : Nat) :
    (s.send_socks_reply status).pending = s.pending ++ [AsyncOp.reply_write] := rfl

@[simp] theorem send_socks_reply_proxyConfig (s : ProxySession) (status : Nat) :
    (s.send_socks_reply status).proxyConfig_ = s.proxyConfig_ := rfl

@[simp] theorem send_socks_reply_client_data (s : ProxySession) (status : Nat) :
    (s.send_socks_reply status).client_data_ = s.client_data_ := rfl

@[simp] theorem send_socks_reply_server_socket (s : ProxySession) (status : Nat) :
    (s.send_socks_reply status).server_socket_ = s.server_socket_ := rfl

theorem send_socks_reply_tx (s : ProxySession) (status : Nat) :
    (s.send_socks_reply status).client_socket_.tx =
      s.client_socket_.tx ++ s.reply_frame status := rfl

/-! ## Byte order -/

/-- The port load and byte swap give the big-endian value of the two bytes. -/
theorem portAt_eq (buf : List Nat) (off : Nat) :
    portAt buf off = (bufGet buf off % 256) * 256 + bufGet buf (off + 1) % 256 := by
  simp only [portAt, network_to_host_short, loadLE]
  omega

/-- Reversing the four bytes of a little-endian load gives the big-endian
value. -/
theorem network_to_host_long_loadLE (a b c d : Nat) (ha : a < 256) (hb : b < 256)
    (hc : c < 256) (hd : d < 256) :
    network_to_host_long (a + 256 * (b + 256 * (c + 256 * (d + 256 * 0)))) =
      a * 16777216 + b * 65536 + c * 256 + d := by
  have e0 : (a + 256 * (b + 256 * (c + 256 * (d + 256 * 0)))) % 256 = a := by omega
  have e1 : (a + 256 * (b + 256 * (c + 256 * (d + 256 * 0)))) / 256 % 256 = b := by omega
  have e2 : (a + 256 * (b + 256 * (c + 256 * (d + 256 * 0)))) / 65536 % 256 = c := by omega
  have e3 : (a + 256 * (b + 256 * (c + 256 * (d + 256 * 0)))) / 16777216 % 256 = d := by omega
  simp only [network_to_host_long, Nat.reducePow, e0, e1, e2, e3]

/-- The address load, byte swap and formatting give the four bytes in wire
order. -/
theorem ipv4At_eq (buf : List Nat) :
    ipv4At buf = toString (bufGet buf 4 % 256) ++ "." ++ toString (bufGet buf 5 % 256) ++ "." ++
      toString (bufGet buf 6 % 256) ++ "." ++ toString (bufGet buf 7 % 256) := by
  have ha : bufGet buf 4 % 256 < 256 := Nat.mod_lt _ (by decide)
  have hb : bufGet buf 5 % 256 < 256 := Nat.mod_lt _ (by decide)
  have hc : bufGet buf 6 % 256 < 256 := Nat.mod_lt _ (by decide)
  have hd : bufGet buf 7 % 256 < 256 := Nat.mod_lt _ (by decide)
  have hv := network_to_host_long_loadLE _ _ _ _ ha hb hc hd
  have hload : loadLE buf 4 4 = bufGet buf 4 % 256 + 256 * (bufGet buf 5 % 256 +
      256 * (bufGet buf 6 % 256 + 256 * (bufGet buf 7 % 256 + 256 * 0))) := rfl
  rw [ipv4At, hload, hv]
  generalize bufGet buf 4 % 256 = a at ha
  generalize bufGet buf 5 % 256 = b at hb
  generalize bufGet buf 6 % 256 = c at hc
  generalize bufGet buf 7 % 256 = d at hd
  have h0 : (a * 16777216 + b * 65536 + c * 256 + d) / 16777216 % 256 = a := by omega
  have h1 : (a * 16777216 + b * 65536 + c * 256 + d) / 65536 % 256 = b := by omega
  have h2 : (a * 16777216 + b * 65536 + c * 256 + d) / 256 % 256 = c := by omega
  have h3 : (a * 16777216 + b * 65536 + c * 256 + d) % 256 = d := by omega
  simp only [address_v4_to_string, Nat.reducePow, h0, h1, h2, h3]

/-! ## Reads -/

theorem recvSome_skip (cap : Nat) (pre : List (List Nat)) (hpre : ∀ seg ∈ pre, seg = [])
    (rx : List (List Nat)) : recvSome cap (pre ++ rx) = recvSome cap rx := by
  induction pre with
  | nil => rfl
  | cons p ps ih =>
    have hp : p = [] := hpre p (List.mem_cons_self _ _)
    subst hp
    simpa [recvSome] using ih (fun seg hseg => hpre seg (List.mem_cons_of_mem _ hseg))

/-- Exact reads on a stream whose segments `pre` and the start `last` of the
next segment hold the bytes `d ++ g`, with `tail` behind them in that segment:
reading `d` leaves a stream of the same shape that holds `g` before `tail`. -/
theorem recvExact_segmented (pre : List (List Nat)) (last tail : List Nat)
    (post : List (List Nat)) (d g : List Nat) (h : pre.flatten ++ last = d ++ g) :
    ∃ pre1 last1, recvExact (pre ++ (last ++ tail) :: post) d.length =
        some (d, pre1 ++ (last1 ++ tail) :: post) ∧ pre1.flatten ++ last1 = g := by
  induction pre generalizing d with
  | nil =>
    simp only [List.flatten_nil, List.nil_append] at h
    subst h
    refine ⟨[], g, ?_, rfl⟩
    simp [recvExact, List.append_assoc]
  | cons seg pre ih =>
    simp only [List.flatten_cons, List.append_assoc] at h
    by_cases hle : d.length ≤ seg.length
    · refine ⟨seg.drop d.length :: pre, last, ?_, ?_⟩
      · have hd : seg.take d.length = d := by
          have := congrArg (List.take d.length) h
          simpa [List.take_append_of_le_length hle] using this
        simp [recvExact, hle, hd]
      · have := congrArg (List.drop d.length) h
        simpa [List.drop_append_of_le_length hle, List.append_assoc] using this
    · have hlt : seg.length < d.length := Nat.lt_of_not_le hle
      have htake : d.take seg.length = seg := by
        have := congrArg (List.take seg.length) h
        simpa [List.take_append_of_le_length (Nat.le_of_lt hlt)] using this.symm
      have hseg : seg ++ d.drop seg.length = d := by
        conv_rhs => rw [← List.take_append_drop seg.length d, htake]
      have hrest : pre.flatten ++ last = d.drop seg.length ++ g := by
        have := congrArg (List.drop seg.length) h
        simpa [List.drop_append_of_le_length (Nat.le_of_lt hlt)] using this
      obtain ⟨pre1, last1, h1, h2⟩ := ih (d.drop seg.length) hrest
      refine ⟨pre1, last1, ?_, h2⟩
      have hlen : d.length - seg.length = (d.drop seg.length).length := by simp
      have h1a : recvExact (pre.append ((last ++ tail) :: post)) (d.drop seg.length).length =
          some (d.drop seg.length, pre1 ++ (last1 ++ tail) :: post) := h1
      simp only [List.cons_append, recvExact, hle, if_false, hlen, h1a, Option.map_some', hseg]

theorem complete_request_read_eq (env : Env) (s : ProxySession) (pre : List (List Nat))
    (hpre : ∀ seg ∈ pre, seg = []) (seg : List Nat) (rest : List (List Nat))
    (hseg : seg ≠ []) (hlen : seg.length ≤ BUFFER_SIZE)
    (hopen : s.client_socket_.is_open = true)
    (hrx : s.client_socket_.rx = pre ++ seg :: rest) :
    s.complete_request_read env =
      ProxySession.handle_socks_request env
        { s with client_socket_ := { s.client_socket_ with rx := rest },
                 client_data_ := bufStore s.client_data_ seg,
                 pending := s.pending.erase AsyncOp.request_read }
        error_code.success seg.length := by
  unfold ProxySession.complete_request_read Socket.async_read_some Socket.read_some
  rw [hrx, recvSome_skip BUFFER_SIZE pre hpre]
  simp [hopen, recvSome, hseg, hlen, List.take_of_length_le hlen]

theorem recvExact_flatten (rx : List (List Nat)) :
    ∀ n, n ≤ rx.flatten.length →
      ∃ rx1, recvExact rx n = some (rx.flatten.take n, rx1) ∧ rx1.flatten = rx.flatten.drop n := by
  induction rx with
  | nil =>
    intro n hn
    have h0 : n = 0 := by simpa using hn
    subst h0
    exact ⟨[], by simp [recvExact], by simp⟩
  | cons seg rest ih =>
    intro n hn
    by_cases hle : n ≤ seg.length
    · refine ⟨seg.drop n :: rest, ?_, ?_⟩
      · simp [recvExact, hle, List.take_append_of_le_length hle]
      · simp [List.drop_append_of_le_length hle]
    · have hlt : seg.length < n := Nat.lt_of_not_le hle
      have hn1 : n - seg.length ≤ rest.flatten.length := by
        simp [List.flatten, List.length_append] at hn ⊢
        omega
      obtain ⟨rx1, h1, h2⟩ := ih (n - seg.length) hn1
      refine ⟨rx1, ?_, ?_⟩
      · simp [recvExact, hle, h1, List.take_append_eq_append_take,
          List.take_of_length_le (Nat.le_of_lt hlt)]
      · simp [h2, List.drop_append_eq_append_drop, List.drop_of_length_le (Nat.le_of_lt hlt)]

/-- A blocking read of the first `d.length` bytes of the stream succeeds and
delivers `d`. -/
theorem Socket.read_of_flatten (s : Socket) (d more : List Nat)
    (h : s.rx.flatten = d ++ more) :
    ∃ s1, s.read d.length = (error_code.success, d, s1) ∧ s1.rx.flatten = more ∧
      s1.tx = s.tx ∧ s1.peer = s.peer ∧ s1.is_open = s.is_open := by
  obtain ⟨rx1, h1, h2⟩ := recvExact_flatten s.rx d.length (by simp [h])
  refine ⟨{ s with rx := rx1 }, ?_, ?_, rfl, rfl, rfl⟩
  · simp [Socket.read, h1, h]
  · simpa [h] using h2

theorem Socket.read_or_throw_of_flatten (s : Socket) (d more : List Nat)
    (h : s.rx.flatten = d ++ more) :
    ∃ s1, s.read_or_throw d.length = Except.ok (d, s1) ∧ s1.rx.flatten = more ∧
      s1.tx = s.tx ∧ s1.peer = s.peer ∧ s1.is_open = s.is_open := by
  obtain ⟨rx1, h1, h2⟩ := recvExact_flatten s.rx d.length (by simp [h])
  refine ⟨{ s with rx := rx1 }, ?_, ?_, rfl, rfl, rfl⟩
  · simp [Socket.read_or_throw, h1, h]
  · simpa [h] using h2

theorem Char.toNat_ofNat_byte (n : Nat) (h : n < 256) : (Char.ofNat n).toNat = n := by
  have hv : n.isValidChar := Or.inl (by omega)
  simp [Char.ofNat, hv, Char.toNat, Char.ofNatAux, UInt32.toNat, BitVec.toNat_ofNatLt]

theorem bytesToString_injective (xs ys : List Nat) (hx : ∀ b ∈ xs, b < 256)
    (hy : ∀ b ∈ ys, b < 256) (h : bytesToString xs = bytesToString ys) : xs = ys := by
  have hdata : xs.map (fun b => Char.ofNat (b % 256)) = ys.map (fun b => Char.ofNat (b % 256)) :=
    congrArg String.data h
  have hback : ∀ zs : List Nat, (∀ b ∈ zs, b < 256) →
      (zs.map (fun b => Char.ofNat (b % 256))).map Char.toNat = zs := by
    intro zs hz
    induction zs with
    | nil => rfl
    | cons z zs ih =>
      have hz0 : z < 256 := hz z (List.mem_cons_self _ _)
      simp only [List.map_cons]
      rw [Nat.mod_eq_of_lt hz0, Char.toNat_ofNat_byte z hz0,
        ih (fun b hb => hz b (List.mem_cons_of_mem _ hb))]
  rw [← hback xs hx, ← hback ys hy, hdata]

/-! ## Authentication dispatcher -/

/-- When the first offered method does not satisfy the preference, the
dispatcher writes nothing and reports an unsupported method. -/
theorem handle_authentication_unsupported (cfg : ProxyConfiguration) (socket : Socket)
    (m : Nat) (ms more : List Nat) (hlen : (m :: ms).length < 256) (hm : m < 256)
    (hno : method_satisfies_spec cfg.authenticationMethod m = false)
    (hrx : socket.rx.flatten = (m :: ms).length :: ((m :: ms) ++ more)) :
    ∃ r, Handle_Authentication.handle_authentication cfg socket = Except.ok r ∧
      r.authenticated = false ∧ r.authentication_method = -1 ∧
      r.error = "Unsupported authentication method." ∧ r.socket.tx = socket.tx ∧
      r.socket.peer = socket.peer ∧ r.socket.rx.flatten = more := by
  obtain ⟨s1, h1, hrx1, htx1, hp1, -⟩ :=
    Socket.read_of_flatten socket [(m :: ms).length] ((m :: ms) ++ more) hrx
  obtain ⟨s2, h2, hrx2, htx2, hp2, -⟩ := Socket.read_of_flatten s1 (m :: ms) more hrx1
  have h1a : socket.read 1 = (error_code.success, [(m :: ms).length], s1) := h1
  have hmod : (ms.length + 1) % 256 = ms.length + 1 := Nat.mod_eq_of_lt (by simpa using hlen)
  have h2a : s1.read (ms.length + 1) = (error_code.success, m :: ms, s2) := h2
  simp only [method_satisfies_spec, Bool.or_eq_false_iff, Bool.and_eq_false_iff,
    decide_eq_false_iff_not] at hno
  obtain ⟨hne, hany⟩ := hno
  have c0 : ¬ ((m = 0 ∧ cfg.authenticationMethod = 0) ∨ (m = 0 ∧ cfg.authenticationMethod = -1)) := by
    rintro (⟨rfl, h⟩ | ⟨rfl, h⟩)
    · exact hne (by simp [h])
    · rcases hany with h3 | h3
      · exact h3 h
      · exact h3 (Or.inl rfl)
  have c1 : ¬ ((m = 1 ∧ cfg.authenticationMethod = 1) ∨ (m = 1 ∧ cfg.authenticationMethod = -1)) := by
    rintro (⟨rfl, h⟩ | ⟨rfl, h⟩)
    · exact hne (by simp [h])
    · rcases hany with h3 | h3
      · exact h3 h
      · exact h3 (Or.inr (Or.inl rfl))
  have c2 : ¬ ((m = 2 ∧ cfg.authenticationMethod = 2) ∨ (m = 2 ∧ cfg.authenticationMethod = -1)) := by
    rintro (⟨rfl, h⟩ | ⟨rfl, h⟩)
    · exact hne (by simp [h])
    · rcases hany with h3 | h3
      · exact h3 h
      · exact h3 (Or.inr (Or.inr rfl))
  refine ⟨{ authenticated := false, socket := s2, authentication_method := -1,
            error := "Unsupported authentication method." }, ?_, rfl, rfl, rfl, ?_, ?_, hrx2⟩
  · unfold Handle_Authentication.handle_authentication
    simp [h1a, hmod, h2a, Nat.mod_eq_of_lt hm, c0, c1, c2]
  · simp [htx2, htx1]
  · simp [hp2, hp1]

/-! ## Replies -/

theorem bufGet_bufSet (buf : List Nat) (i v j : Nat) :
    bufGet (bufSet buf i v) j = if j = i then v else bufGet buf j := by
  unfold bufGet bufSet
  simp only [List.getD_eq_getElem?_getD, List.getElem?_set, List.length_append,
    List.length_replicate]
  by_cases hji : j = i
  · subst hji
    have hlt : j < buf.length + (j + 1 - buf.length) := by omega
    simp [hlt]
  · have hij : ¬ i = j := fun h => hji h.symm
    simp only [hij, hji, if_false]
    by_cases hj : j < buf.length
    · simp [List.getElem?_append_left hj]
    · have hj1 : buf.length ≤ j := Nat.le_of_not_lt hj
      rw [List.getElem?_append_right hj1, List.getElem?_eq_none hj1]
      by_cases hk : j - buf.length < i + 1 - buf.length
      · simp [List.getElem?_replicate, hk]
      · simp [List.getElem?_replicate, hk]

/-- The frame of a reply: version 5, the status byte, reserved 0, ATYP 1, then
bytes 4..9 of `server_data_` as they are. -/
theorem reply_frame_eq (s : ProxySession) (status : Nat) :
    s.reply_frame status = [5, status % 256, 0, 1] ++ bufSlice s.server_data_ 4 6 := by
  simp [ProxySession.reply_frame, bufSlice, List.range, List.range.loop, bufGet_bufSet,
    SOCKS_VERSION]

/-! ## The policy gate -/

theorem reply_frame_log (s : ProxySession) (l : Level) (ip m : String) (status : Nat) :
    (s.log_to_file l ip m).reply_frame status = s.reply_frame status := rfl

/-- What the gate does with a decoded target, by the four flags of the code. -/
theorem gate_and_dial_outcome (env : Env) (s : ProxySession) (address : String) (port : Nat)
    (fs : String) (sites : List String) (fp : Int) (ports : List Int)
    (hs : s.proxyConfig_.allowedIPs = fs :: sites) (hp : s.proxyConfig_.allowedPorts = fp :: ports) :
    ∃ s1, ProxySession.gate_and_dial env s address port = Except.ok s1 ∧
      (((fs ≠ "all" ∧ address ∈ s.proxyConfig_.blockedIPs) ∨
          (fp ≠ -1 ∧ (port : Int) ∈ s.proxyConfig_.blockedPorts)) →
        s1.client_socket_.tx = s.client_socket_.tx ++ s.reply_frame 7 ∧ s1.dials = s.dials ∧
          s1.pending = s.pending ++ [AsyncOp.reply_write]) ∧
      (¬ ((fs ≠ "all" ∧ address ∈ s.proxyConfig_.blockedIPs) ∨
          (fp ≠ -1 ∧ (port : Int) ∈ s.proxyConfig_.blockedPorts)) →
        ((fs = "all" ∨ address ∈ fs :: sites) ∧ (fp = -1 ∨ (port : Int) ∈ fp :: ports)) →
        s1.client_socket_.tx = s.client_socket_.tx ∧ s1.dials = s.dials ++ [(address, port)] ∧
          (∀ u, env.resolve address port = Except.ok u →
            s1.pending = s.pending ++ [AsyncOp.connect address port])) ∧
      (¬ ((fs ≠ "all" ∧ address ∈ s.proxyConfig_.blockedIPs) ∨
          (fp ≠ -1 ∧ (port : Int) ∈ s.proxyConfig_.blockedPorts)) →
        ¬ ((fs = "all" ∨ address ∈ fs :: sites) ∧ (fp = -1 ∨ (port : Int) ∈ fp :: ports)) →
        s1.client_socket_.tx = s.client_socket_.tx ++ s.reply_frame 5 ∧ s1.dials = s.dials ∧
          s1.pending = s.pending ++ [AsyncOp.reply_write]) := by
  unfold ProxySession.gate_and_dial
  simp only [hs, hp]
  by_cases hb : (fs ≠ "all" ∧ address ∈ s.proxyConfig_.blockedIPs) ∨
      (fp ≠ -1 ∧ (port : Int) ∈ s.proxyConfig_.blockedPorts)
  · have hcond : ((if fs = "all" then false else decide (address ∈ s.proxyConfig_.blockedIPs)) ||
        (if fp = -1 then false else decide ((port : Int) ∈ s.proxyConfig_.blockedPorts))) = true := by
      rcases hb with ⟨h1, h2⟩ | ⟨h1, h2⟩
      · simp [h1, h2]
      · simp [h1, h2]
    simp only [hcond, if_true]
    refine ⟨_, rfl, fun _ => ⟨?_, ?_, ?_⟩, fun h => absurd hb h, fun h => absurd hb h⟩
    · simp [send_socks_reply_tx, reply_frame_log]
    · simp
    · simp
  · have hcond : ((if fs = "all" then false else decide (address ∈ s.proxyConfig_.blockedIPs)) ||
        (if fp = -1 then false else decide ((port : Int) ∈ s.proxyConfig_.blockedPorts))) = false := by
      by_cases h1 : fs = "all" <;> by_cases h2 : fp = -1 <;> simp_all
    by_cases ha : (fs = "all" ∨ address ∈ fs :: sites) ∧ (fp = -1 ∨ (port : Int) ∈ fp :: ports)
    · have hcond2 : ((if fs = "all" then true else decide (address ∈ fs :: sites)) &&
          (if fp = -1 then true else decide ((port : Int) ∈ fp :: ports))) = true := by
        by_cases h1 : fs = "all" <;> by_cases h2 : fp = -1 <;> simp_all
      simp only [hcond, hcond2, if_true, Bool.false_eq_true, if_false]
      cases hres : env.resolve address port with
      | error what =>
        refine ⟨_, rfl, fun h => absurd h hb, fun _ _ => ⟨?_, ?_, ?_⟩, fun _ h => absurd ha h⟩
        · simp
        · simp [ProxySession.dials, List.filterMap_append, Event.dial_target]
        · intro u hu
          cases hu
      | ok v =>
        refine ⟨_, rfl, fun h => absurd h hb, fun _ _ => ⟨?_, ?_, ?_⟩, fun _ h => absurd ha h⟩
        · simp
        · simp [ProxySession.dials, List.filterMap_append, Event.dial_target]
        · intro u _
          simp
    · have hcond2 : ((if fs = "all" then true else decide (address ∈ fs :: sites)) &&
          (if fp = -1 then true else decide ((port : Int) ∈ fp :: ports))) = false := by
        by_cases h1 : fs = "all" <;> by_cases h2 : fp = -1 <;> simp_all
      simp only [hcond, hcond2, Bool.false_eq_true, if_false]
      refine ⟨_, rfl, fun h => absurd h hb, fun _ h => absurd h ha, fun _ _ => ⟨?_, ?_, ?_⟩⟩
      · simp [send_socks_reply_tx, reply_frame_log]
      · simp
      · simp

/-- A CONNECT request whose target was decoded goes to the gate. -/
theorem handle_socks_request_decoded (env : Env) (s : ProxySession) (n : Nat)
    (address : String) (port : Nat) (ats : String)
    (hver : bufGet s.client_data_ 0 % 256 = 5) (hcmd : bufGet s.client_data_ 1 % 256 = 1)
    (hdec : ProxySession.decode_target env s.client_data_ (bufGet s.client_data_ 3 % 256) n =
      Except.ok (some (address, port, ats))) :
    ∃ message, ProxySession.handle_socks_request env s error_code.success n =
      ProxySession.gate_and_dial env (s.log_to_file Level.info s.client_socket_.peer message)
        address port := by
  unfold ProxySession.handle_socks_request
  simp only [hver, hcmd, hdec, SOCKS_VERSION, if_true]
  exact ⟨_, rfl⟩

/-- A CONNECT request on which the address switch leaves by one of its
`send_socks_reply(8)` exits gets reply 8 and nothing else. -/
theorem handle_socks_request_undecoded (env : Env) (s : ProxySession) (n : Nat)
    (hver : bufGet s.client_data_ 0 % 256 = 5) (hcmd : bufGet s.client_data_ 1 % 256 = 1)
    (hdec : ProxySession.decode_target env s.client_data_ (bufGet s.client_data_ 3 % 256) n =
      Except.ok none) :
    ProxySession.handle_socks_request env s error_code.success n =
      Except.ok (s.send_socks_reply 8) := by
  unfold ProxySession.handle_socks_request
  simp only [hver, hcmd, hdec, SOCKS_VERSION, if_true]

/-- The outcome of a decoded CONNECT request, by the four flags of the gate. -/
theorem handle_socks_request_gate (env : Env) (s : ProxySession) (n : Nat)
    (address : String) (port : Nat) (ats : String)
    (fs : String) (sites : List String) (fp : Int) (ports : List Int)
    (hver : bufGet s.client_data_ 0 % 256 = 5) (hcmd : bufGet s.client_data_ 1 % 256 = 1)
    (hdec : ProxySession.decode_target env s.client_data_ (bufGet s.client_data_ 3 % 256) n =
      Except.ok (some (address, port, ats)))
    (hs : s.proxyConfig_.allowedIPs = fs :: sites) (hp : s.proxyConfig_.allowedPorts = fp :: ports) :
    ∃ s1, ProxySession.handle_socks_request env s error_code.success n = Except.ok s1 ∧
      (((fs ≠ "all" ∧ address ∈ s.proxyConfig_.blockedIPs) ∨
          (fp ≠ -1 ∧ (port : Int) ∈ s.proxyConfig_.blockedPorts)) →
        s1.client_socket_.tx = s.client_socket_.tx ++ ([5, 7, 0, 1] ++ bufSlice s.server_data_ 4 6) ∧
          s1.dials = s.dials ∧ s1.pending = s.pending ++ [AsyncOp.reply_write]) ∧
      (¬ ((fs ≠ "all" ∧ address ∈ s.proxyConfig_.blockedIPs) ∨
          (fp ≠ -1 ∧ (port : Int) ∈ s.proxyConfig_.blockedPorts)) →
        ((fs = "all" ∨ address ∈ fs :: sites) ∧ (fp = -1 ∨ (port : Int) ∈ fp :: ports)) →
        s1.client_socket_.tx = s.client_socket_.tx ∧ s1.dials = s.dials ++ [(address, port)] ∧
          (∀ u, env.resolve address port = Except.ok u →
            s1.pending = s.pending ++ [AsyncOp.connect address port])) ∧
      (¬ ((fs ≠ "all" ∧ address ∈ s.proxyConfig_.blockedIPs) ∨
          (fp ≠ -1 ∧ (port : Int) ∈ s.proxyConfig_.blockedPorts)) →
        ¬ ((fs = "all" ∨ address ∈ fs :: sites) ∧ (fp = -1 ∨ (port : Int) ∈ fp :: ports)) →
        s1.client_socket_.tx = s.client_socket_.tx ++ ([5, 5, 0, 1] ++ bufSlice s.server_data_ 4 6) ∧
          s1.dials = s.dials ∧ s1.pending = s.pending ++ [AsyncOp.reply_write]) := by
  obtain ⟨message, hm⟩ := handle_socks_request_decoded env s n address port ats hver hcmd hdec
  obtain ⟨s1, h1, hblocked, hdial, hunlisted⟩ := gate_and_dial_outcome env
    (s.log_to_file Level.info s.client_socket_.peer message) address port fs sites fp ports hs hp
  have h7 := reply_frame_eq s 7
  have h5 := reply_frame_eq s 5
  simp only [log_to_file_client_socket, log_to_file_proxyConfig, log_to_file_dials,
    log_to_file_pending, reply_frame_log] at hblocked hdial hunlisted
  rw [h7] at hblocked
  rw [h5] at hunlisted
  exact ⟨s1, hm.trans h1, hblocked, hdial, hunlisted⟩

/-- With "all" as first allowed host, the gate entered with any host and a
port that the port rule permits dials that host and sends no reply. -/
theorem wildcard_first_gate (env : Env) (s : ProxySession) (address : String) (port : Nat)
    (sites : List String) (hs : s.proxyConfig_.allowedIPs = "all" :: sites)
    (hport : port_rule_permits s.proxyConfig_ port) :
    ∃ s1, ProxySession.gate_and_dial env s address port = Except.ok s1 ∧
      s1.dials = s.dials ++ [(address, port)] ∧
      s1.client_socket_.tx = s.client_socket_.tx := by
  have hne : s.proxyConfig_.allowedPorts ≠ [] := by
    rcases hport with h | ⟨h, -⟩
    · intro h0
      rw [h0] at h
      cases h
    · exact List.ne_nil_of_mem h
  obtain ⟨fp, ports, hp⟩ := List.exists_cons_of_ne_nil hne
  obtain ⟨s1, h1, -, hdial, -⟩ :=
    gate_and_dial_outcome env s address port "all" sites fp ports hs hp
  have hb : ¬ (("all" ≠ "all" ∧ address ∈ s.proxyConfig_.blockedIPs) ∨
      (fp ≠ -1 ∧ (port : Int) ∈ s.proxyConfig_.blockedPorts)) := by
    rintro (⟨h, -⟩ | ⟨h, hmem⟩)
    · exact h rfl
    · rcases hport with h2 | ⟨-, h2⟩
      · rw [hp] at h2
        simp at h2
        exact h h2
      · exact h2 hmem
  have ha : ("all" = "all" ∨ address ∈ "all" :: sites) ∧ (fp = -1 ∨ (port : Int) ∈ fp :: ports) := by
    refine ⟨Or.inl rfl, ?_⟩
    rcases hport with h2 | ⟨h2, -⟩
    · rw [hp] at h2
      simp at h2
      exact Or.inl h2
    · rw [hp] at h2
      exact Or.inr h2
  obtain ⟨htx, hd, -⟩ := hdial hb ha
  exact ⟨s1, h1, hd, htx⟩

/-- With "all" as first allowed host, a decoded target whose port the port rule
permits is dialled and no reply is sent. -/
theorem wildcard_first_dials (env : Env) (s : ProxySession) (n : Nat)
    (address : String) (port : Nat) (ats : String) (sites : List String)
    (hver : bufGet s.client_data_ 0 % 256 = 5) (hcmd : bufGet s.client_data_ 1 % 256 = 1)
    (hdec : ProxySession.decode_target env s.client_data_ (bufGet s.client_data_ 3 % 256) n =
      Except.ok (some (address, port, ats)))
    (hs : s.proxyConfig_.allowedIPs = "all" :: sites)
    (hport : port_rule_permits s.proxyConfig_ port) :
    ∃ s1, ProxySession.handle_socks_request env s error_code.success n = Except.ok s1 ∧
      s1.dials = s.dials ++ [(address, port)] ∧
      s1.client_socket_.tx = s.client_socket_.tx := by
  have hne : s.proxyConfig_.allowedPorts ≠ [] := by
    rcases hport with h | ⟨h, -⟩
    · intro h0
      rw [h0] at h
      cases h
    · exact List.ne_nil_of_mem h
  obtain ⟨fp, ports, hp⟩ := List.exists_cons_of_ne_nil hne
  obtain ⟨s1, h1, -, hdial, -⟩ :=
    handle_socks_request_gate env s n address port ats "all" sites fp ports hver hcmd hdec hs hp
  have hb : ¬ (("all" ≠ "all" ∧ address ∈ s.proxyConfig_.blockedIPs) ∨
      (fp ≠ -1 ∧ (port : Int) ∈ s.proxyConfig_.blockedPorts)) := by
    rintro (⟨h, -⟩ | ⟨h, hmem⟩)
    · exact h rfl
    · rcases hport with h2 | ⟨-, h2⟩
      · rw [hp] at h2
        simp at h2
        exact h h2
      · exact h2 hmem
  have ha : ("all" = "all" ∨ address ∈ "all" :: sites) ∧ (fp = -1 ∨ (port : Int) ∈ fp :: ports) := by
    refine ⟨Or.inl rfl, ?_⟩
    rcases hport with h2 | ⟨h2, -⟩
    · rw [hp] at h2
      simp at h2
      exact Or.inl h2
    · rw [hp] at h2
      exact Or.inr h2
  obtain ⟨htx, hd, -⟩ := hdial hb ha
  exact ⟨s1, h1, hd, htx⟩

/-! ## Claims -/

/-- Claim C1 as stated fails: with the request split over two segments
(05 01 00 | 05 01 00 01 | 7F 00 00 01 00 50) the one `async_read_some` of the
request delivers four bytes, and the handler answers with reply code 8 and
opens no connection. -/
theorem C1_split_request_gets_reply_8 :
    ∃ s1 s2, (ProxySession.accepted (ProxyConfiguration.allow_all 0 "" "") 0 "192.0.2.7"
        [[5, 1, 0], [5, 1, 0, 1], [0x7F, 0, 0, 1, 0, 0x50]]).start = Except.ok s1 ∧
      s1.client_socket_.tx = [5, 0] ∧ s1.pending = [AsyncOp.request_read] ∧
      s1.complete_request_read Env.reachable = Except.ok s2 ∧
      s2.dials = [] ∧ s2.client_socket_.tx = [5, 0] ++ [5, 8, 0, 1, 0, 0, 0, 0, 0, 0] ∧
      s2.pending = [AsyncOp.reply_write] := by
  refine ⟨_, _, rfl, ?_, ?_, rfl, ?_, ?_, ?_⟩ <;> decide

/-- Claim C1, amended. With authenticationMethod = 0, allowed hosts ["all"] and
allowed ports [-1], for every client byte stream made of the greeting 05 01 00
followed by the IPv4 CONNECT request 05 01 00 01 a b c d p1 p2, in every
segmentation in which the ten request bytes arrive in one segment (`pre` and
`last` are any segmentation of the greeting, the request follows `last` in the
same segment, whatever comes after it), the session writes the method reply
05 00 from `start`; the request handler then opens exactly one outbound
connection, to host "a.b.c.d" and port 256*p1+p2, having written nothing more;
and when the name resolves and the connection succeeds the session writes the
ten bytes 05 00 00 01 00 00 00 00 00 00 and starts both relay reads. -/
theorem C1_no_auth_happy_path (env : Env) (cfg : ProxyConfiguration) (lm : Int) (peer : String)
    (a b c d p1 p2 : Nat)
    (ha : a < 256) (hb : b < 256) (hc : c < 256) (hd : d < 256) (h1 : p1 < 256) (h2 : p2 < 256)
    (hauth : cfg.authenticationMethod = 0) (hhosts : cfg.allowedIPs = ["all"])
    (hports : cfg.allowedPorts = [-1])
    (pre : List (List Nat)) (last : List Nat) (post : List (List Nat))
    (hgreeting : pre.flatten ++ last = [5, 1, 0]) :
    ∃ s1 s2, (ProxySession.accepted cfg lm peer
        (pre ++ (last ++ [5, 1, 0, 1, a, b, c, d, p1, p2]) :: post)).start = Except.ok s1 ∧
      s1.client_socket_.tx = [5, 0] ∧ s1.dials = [] ∧ s1.pending = [AsyncOp.request_read] ∧
      s1.complete_request_read env = Except.ok s2 ∧
      s2.client_socket_.tx = [5, 0] ∧
      s2.dials = [(toString a ++ "." ++ toString b ++ "." ++ toString c ++ "." ++ toString d,
        256 * p1 + p2)] ∧
      (env.resolve (toString a ++ "." ++ toString b ++ "." ++ toString c ++ "." ++ toString d)
          (256 * p1 + p2) = Except.ok () →
        env.connect (toString a ++ "." ++ toString b ++ "." ++ toString c ++ "." ++ toString d)
          (256 * p1 + p2) = error_code.success →
        ∃ s3, (ProxySession.accepted cfg lm peer
            (pre ++ (last ++ [5, 1, 0, 1, a, b, c, d, p1, p2]) :: post)).run env =
            Except.ok s3 ∧
          s3.client_socket_.tx = [5, 0] ++ [5, 0, 0, 1, 0, 0, 0, 0, 0, 0] ∧
          s3.dials = [(toString a ++ "." ++ toString b ++ "." ++ toString c ++ "." ++
            toString d, 256 * p1 + p2)] ∧
          s3.pending = [AsyncOp.reply_write, AsyncOp.client_read, AsyncOp.server_read]) := by
  have hport : p1 * 256 + p2 = 256 * p1 + p2 := by omega
  obtain ⟨pre1, last1, r1, g1⟩ := recvExact_segmented pre last
    [5, 1, 0, 1, a, b, c, d, p1, p2] post [5] [1, 0] hgreeting
  obtain ⟨pre2, last2, r2, g2⟩ := recvExact_segmented pre1 last1
    [5, 1, 0, 1, a, b, c, d, p1, p2] post [1] [0] g1
  obtain ⟨pre3, last3, r3, g3⟩ := recvExact_segmented pre2 last2
    [5, 1, 0, 1, a, b, c, d, p1, p2] post [0] [] g2
  have hlast3 : last3 = [] := (List.append_eq_nil.mp g3).2
  have hpre3 : ∀ seg ∈ pre3, seg = [] :=
    List.flatten_eq_nil_iff.mp (List.append_eq_nil.mp g3).1
  have hsome : recvSome 4096 (pre3 ++ (last3 ++ [5, 1, 0, 1, a, b, c, d, p1, p2]) :: post) =
      some ([5, 1, 0, 1, a, b, c, d, p1, p2], post) := by
    rw [hlast3, recvSome_skip 4096 pre3 hpre3]
    simp [recvSome]
  simp only [List.length_singleton] at r1 r2 r3
  simp [ProxySession.start, ProxySession.read_socks_request, ProxySession.accepted,
    Socket.read, r1, r2, r3, bufStore, bufGet, Handle_Authentication.handle_authentication, hauth,
    No_Authentication.authenticate, Socket.write, bind, Except.bind, pure, Except.pure,
    ProxySession.run, ProxySession.complete_request_read, Socket.async_read_some,
    Socket.read_some, hsome, BUFFER_SIZE, ProxySession.handle_socks_request, SOCKS_VERSION,
    ProxySession.decode_target, ProxySession.gate_and_dial, hhosts, hports, ipv4At_eq,
    portAt_eq, Nat.mod_eq_of_lt ha, Nat.mod_eq_of_lt hb, Nat.mod_eq_of_lt hc,
    Nat.mod_eq_of_lt hd, Nat.mod_eq_of_lt h1, Nat.mod_eq_of_lt h2, hport]
  generalize toString a ++ "." ++ toString b ++ "." ++ toString c ++ "." ++ toString d = host
  cases hres : env.resolve host (256 * p1 + p2) with
  | error what => simp [ProxySession.dials, List.filterMap_append, Event.dial_target]
  | ok u =>
    simp [ProxySession.dials, List.filterMap_append, Event.dial_target]
    intro hconn
    simp [ProxySession.pending_connect, ProxySession.complete_connect, hconn,
      ProxySession.handle_connect, ProxySession.forward_data, ProxySession.send_socks_reply,
      ProxySession.log_to_file, Socket.write, bufSet, bufSlice, bufGet, SOCKS_VERSION,
      List.filterMap_append, List.range, List.range.loop]
    simp [List.filterMap_cons, Event.dial_target]

/-- Witness for C1: the request 05 01 00 01 7F 00 00 01 00 50 dials 127.0.0.1:80,
with the greeting sent as 05 | 01 00 and the request behind it in the second
segment. -/
theorem C1_no_auth_happy_path_witness :
    ∃ s3, (ProxySession.accepted (ProxyConfiguration.allow_all 0 "" "") 0 "192.0.2.7"
        [[5], [1, 0, 5, 1, 0, 1, 0x7F, 0, 0, 1, 0, 0x50]]).run Env.reachable = Except.ok s3 ∧
      s3.client_socket_.tx = [5, 0] ++ [5, 0, 0, 1, 0, 0, 0, 0, 0, 0] ∧
      s3.dials = [("127.0.0.1", 80)] ∧
      s3.pending = [AsyncOp.reply_write, AsyncOp.client_read, AsyncOp.server_read] := by
  obtain ⟨s1, s2, -, -, -, -, -, -, -, h⟩ := C1_no_auth_happy_path Env.reachable
    (ProxyConfiguration.allow_all 0 "" "") 0 "192.0.2.7" 0x7F 0 0 1 0 0x50
    (by decide) (by decide) (by decide) (by decide) (by decide) (by decide) rfl rfl rfl
    [[5]] [1, 0] [] rfl
  exact h rfl rfl

/-- Claim C2, evaluated where the code departs from it. Greeting 05 02 01 00
with preference 0: the rule of the specification selects the second offered
method, 0 (None), but the dispatcher examines the first offered method only,
writes nothing and reports an unsupported method, and the session that
received this greeting ends with nothing written and no request read
initiated. -/
theorem C2_second_offered_method_not_examined :
    dispatcher_choice_spec 0 [1, 0] = some 0 ∧
    (Handle_Authentication.handle_authentication (ProxyConfiguration.allow_all 0 "" "")
        (Socket.fresh "192.0.2.7" [[2, 1, 0]])).map
      (fun r => (r.authenticated, r.authentication_method, r.error, r.socket.tx)) =
      Except.ok (false, -1, "Unsupported authentication method.", []) ∧
    ∃ s, (ProxySession.accepted (ProxyConfiguration.allow_all 0 "" "") 0 "192.0.2.7"
        [[5, 2, 1, 0]]).start = Except.ok s ∧
      s.client_socket_.tx = [] ∧ s.pending = [] := by
  refine ⟨by decide, rfl, _, rfl, ?_, ?_⟩ <;> decide

/-- Claim C3 as stated fails: with preference 2 and greeting 05 01 00 the session
ends with no byte written to the client, so the two bytes 05 FF are not sent. -/
theorem C3_no_acceptable_method_reply_not_written :
    ∃ s, (ProxySession.accepted (ProxyConfiguration.allow_all 2 "u" "p") 0 "192.0.2.7"
        [[5, 1, 0]]).start = Except.ok s ∧
      s.client_socket_.tx = [] ∧ s.client_socket_.tx ≠ [5, 0xFF] := by
  refine ⟨_, rfl, ?_, ?_⟩ <;> decide

/-- Claim C3, amended. For every greeting with at least one offered method in
which no offered method satisfies the configured preference, the dispatcher
writes nothing to the client and returns accepted = false with the diagnostic
"Unsupported authentication method."; the session then reads no request, sends
no reply and attempts no outbound connection. -/
theorem C3_unsupported_method_ends_session (s : ProxySession) (methods more : List Nat)
    (hne : methods ≠ []) (hlen : methods.length < 256) (hbytes : ∀ m ∈ methods, m < 256)
    (hnone : ∀ m ∈ methods, method_satisfies_spec s.proxyConfig_.authenticationMethod m = false)
    (hrx : s.client_socket_.rx.flatten = 5 :: methods.length :: (methods ++ more)) :
    (∀ socket : Socket, socket.rx.flatten = methods.length :: (methods ++ more) →
      ∃ r, Handle_Authentication.handle_authentication s.proxyConfig_ socket = Except.ok r ∧
        r.authenticated = false ∧ r.error = "Unsupported authentication method." ∧
        r.socket.tx = socket.tx) ∧
    ∃ s1, s.read_socks_request = Except.ok s1 ∧
      s1.client_socket_.tx = s.client_socket_.tx ∧ s1.pending = s.pending ∧
      s1.dials = s.dials := by
  obtain ⟨m, ms, rfl⟩ := List.exists_cons_of_ne_nil hne
  have hm : m < 256 := hbytes m (List.mem_cons_self _ _)
  have hno := hnone m (List.mem_cons_self _ _)
  constructor
  · intro socket hsock
    obtain ⟨r, hr, ha, -, he, htx, -, -⟩ :=
      handle_authentication_unsupported s.proxyConfig_ socket m ms more hlen hm hno hsock
    exact ⟨r, hr, ha, he, htx⟩
  · obtain ⟨c1, h1, hrx1, htx1, hp1, -⟩ :=
      Socket.read_of_flatten s.client_socket_ [5] ((m :: ms).length :: ((m :: ms) ++ more)) hrx
    have h1a : s.client_socket_.read 1 = (error_code.success, [5], c1) := h1
    obtain ⟨r, hr, ha, -, he, htx, -, -⟩ :=
      handle_authentication_unsupported s.proxyConfig_ c1 m ms more hlen hm hno hrx1
    unfold ProxySession.read_socks_request
    simp [h1a, bufStore, bufGet, hr, he, bind, Except.bind, pure, Except.pure, htx, htx1]
    simp [ProxySession.dials, List.filterMap_append]

/-- Witness for C3: preference 2 and greeting 05 01 00. -/
theorem C3_unsupported_method_ends_session_witness :
    ∃ s1, (ProxySession.accepted (ProxyConfiguration.allow_all 2 "u" "p") 0 "192.0.2.7"
        [[5, 1, 0]]).read_socks_request = Except.ok s1 ∧
      s1.client_socket_.tx = [] ∧ s1.pending = [] ∧ s1.dials = [] :=
  (C3_unsupported_method_ends_session
    (ProxySession.accepted (ProxyConfiguration.allow_all 2 "u" "p") 0 "192.0.2.7" [[5, 1, 0]])
    [0] [] (by decide) (by decide) (by decide) (by decide) rfl).2

/-- Claim C4. For all configured credentials (given by their bytes) and every
sub-negotiation request [1, ULEN, UNAME, PLEN, PASSWD], however it is segmented,
`Username_Password::authenticate` first writes [5,2], returns method 2, accepts
if and only if UNAME and PASSWD equal the configured username and password byte
for byte, and then writes [1,0] when it accepts and [1,1] in every other case. -/
theorem C4_username_password_outcome (socket : Socket) (cu cp uname passwd more : List Nat)
    (hcu : ∀ b ∈ cu, b < 256) (hcp : ∀ b ∈ cp, b < 256)
    (hu : ∀ b ∈ uname, b < 256) (hp : ∀ b ∈ passwd, b < 256)
    (hul : uname.length < 256) (hpl : passwd.length < 256)
    (hrx : socket.rx.flatten =
      [1, uname.length] ++ (uname ++ ([passwd.length] ++ (passwd ++ more)))) :
    ∃ r, Username_Password.authenticate (bytesToString cu) (bytesToString cp) socket =
        Except.ok r ∧
      r.authentication_method = 2 ∧
      (r.authenticated = true ↔ (uname = cu ∧ passwd = cp)) ∧
      r.socket.tx = socket.tx ++ [5, 2] ++ (if uname = cu ∧ passwd = cp then [1, 0] else [1, 1]) := by
  obtain ⟨s1, h1, r1, t1, -, -⟩ := Socket.read_or_throw_of_flatten (socket.write [5, 2])
    [1, uname.length] (uname ++ ([passwd.length] ++ (passwd ++ more))) hrx
  obtain ⟨s2, h2, r2, t2, -, -⟩ := Socket.read_or_throw_of_flatten s1 uname
    ([passwd.length] ++ (passwd ++ more)) r1
  obtain ⟨s3, h3, r3, t3, -, -⟩ := Socket.read_or_throw_of_flatten s2 [passwd.length]
    (passwd ++ more) r2
  obtain ⟨s4, h4, -, t4, -, -⟩ := Socket.read_or_throw_of_flatten s3 passwd more r3
  have h1a : (socket.write [5, 2]).read_or_throw 2 = Except.ok ([1, uname.length], s1) := h1
  have h3a : s2.read_or_throw 1 = Except.ok ([passwd.length], s3) := h3
  have htx : s4.tx = socket.tx ++ [5, 2] := by
    rw [t4, t3, t2, t1]
    rfl
  have hiff : (bytesToString uname = bytesToString cu ∧ bytesToString passwd = bytesToString cp) ↔
      (uname = cu ∧ passwd = cp) := by
    constructor
    · rintro ⟨ha, hb⟩
      exact ⟨bytesToString_injective uname cu hu hcu ha, bytesToString_injective passwd cp hp hcp hb⟩
    · rintro ⟨rfl, rfl⟩
      exact ⟨rfl, rfl⟩
  unfold Username_Password.authenticate
  by_cases hc : uname = cu ∧ passwd = cp
  · obtain ⟨rfl, rfl⟩ := hc
    simp [h1a, h2, h3a, h4, Nat.mod_eq_of_lt hul, Nat.mod_eq_of_lt hpl, bind, Except.bind, pure,
      Except.pure]
    simp [Socket.write, htx]
  · have hc1 : ¬ (bytesToString uname = bytesToString cu ∧ bytesToString passwd = bytesToString cp) :=
      fun h => hc (hiff.mp h)
    simp [h1a, h2, h3a, h4, Nat.mod_eq_of_lt hul, Nat.mod_eq_of_lt hpl, bind, Except.bind, pure,
      Except.pure, hc, hc1]
    simp [Socket.write, htx]

/-- Witness for C4: credentials ("u","p") with request 01 01 75 01 70 are accepted
and answered 01 00; with password q they are refused and answered 01 01. -/
theorem C4_username_password_outcome_witness :
    (∃ r, Username_Password.authenticate "u" "p" (Socket.fresh "192.0.2.7"
        [[0x01, 0x01, 0x75, 0x01, 0x70]]) = Except.ok r ∧
      r.authenticated = true ∧ r.authentication_method = 2 ∧ r.socket.tx = [5, 2, 1, 0]) ∧
    (∃ r, Username_Password.authenticate "u" "p" (Socket.fresh "192.0.2.7"
        [[0x01, 0x01, 0x75, 0x01, 0x71]]) = Except.ok r ∧
      r.authenticated = false ∧ r.authentication_method = 2 ∧ r.socket.tx = [5, 2, 1, 1]) := by
  constructor
  · obtain ⟨r, h, hm, ha, htx⟩ := C4_username_password_outcome
      (Socket.fresh "192.0.2.7" [[0x01, 0x01, 0x75, 0x01, 0x70]]) [0x75] [0x70] [0x75] [0x70] []
      (by decide) (by decide) (by decide) (by decide) (by decide) (by decide) rfl
    exact ⟨r, h, ha.mpr ⟨rfl, rfl⟩, hm, by simpa [Socket.fresh] using htx⟩
  · obtain ⟨r, h, hm, ha, htx⟩ := C4_username_password_outcome
      (Socket.fresh "192.0.2.7" [[0x01, 0x01, 0x75, 0x01, 0x71]]) [0x75] [0x70] [0x75] [0x71] []
      (by decide) (by decide) (by decide) (by decide) (by decide) (by decide) rfl
    have hne : ¬ (([0x75] : List Nat) = [0x75] ∧ ([0x71] : List Nat) = [0x70]) := by decide
    refine ⟨r, h, ?_, hm, by simpa [Socket.fresh] using htx⟩
    cases hr : r.authenticated
    · rfl
    · exact absurd (ha.mp hr) hne

/-- The gate without wildcards. For every CONNECT request read without error
whose target the address switch decoded, and every configuration whose
allowed-host and allowed-port lists are non-empty and hold no wildcard
sentinel, `handle_socks_request` opens an outbound connection to the decoded
target if and only if the host is in the allowed hosts and not in the blocked
hosts and the port is in the allowed ports and not in the blocked ports
(membership of the decoded string itself, tested before any name resolution);
it then sends no reply. Otherwise it opens no connection and sends a failure
reply (code 7 or 5). -/
theorem gate_without_wildcards (env : Env) (s : ProxySession) (n : Nat)
    (address : String) (port : Nat) (ats : String)
    (hver : bufGet s.client_data_ 0 % 256 = 5) (hcmd : bufGet s.client_data_ 1 % 256 = 1)
    (hdec : ProxySession.decode_target env s.client_data_ (bufGet s.client_data_ 3 % 256) n =
      Except.ok (some (address, port, ats)))
    (hhosts : s.proxyConfig_.allowedIPs ≠ []) (hports : s.proxyConfig_.allowedPorts ≠ [])
    (hnoall : "all" ∉ s.proxyConfig_.allowedIPs)
    (hnoany : (-1 : Int) ∉ s.proxyConfig_.allowedPorts) :
    ∃ s1, ProxySession.handle_socks_request env s error_code.success n = Except.ok s1 ∧
      (s1.dials = s.dials ++ [(address, port)] ↔ target_permitted s.proxyConfig_ address port) ∧
      (target_permitted s.proxyConfig_ address port →
        s1.client_socket_.tx = s.client_socket_.tx) ∧
      (¬ target_permitted s.proxyConfig_ address port →
        s1.dials = s.dials ∧
          ∃ code, (code = 7 ∨ code = 5) ∧ s1.client_socket_.tx =
            s.client_socket_.tx ++ ([5, code, 0, 1] ++ bufSlice s.server_data_ 4 6)) := by
  obtain ⟨fs, sites, hs⟩ := List.exists_cons_of_ne_nil hhosts
  obtain ⟨fp, ports, hp⟩ := List.exists_cons_of_ne_nil hports
  have hfs : fs ≠ "all" := by
    intro h
    apply hnoall
    rw [hs, h]
    exact List.mem_cons_self _ _
  have hfp : fp ≠ -1 := by
    intro h
    apply hnoany
    rw [hp, h]
    exact List.mem_cons_self _ _
  obtain ⟨s1, h1, hblocked, hdial, hunlisted⟩ :=
    handle_socks_request_gate env s n address port ats fs sites fp ports hver hcmd hdec hs hp
  have hgrow : ∀ l : List (String × Nat), l ≠ l ++ [(address, port)] := by
    intro l h
    have := congrArg List.length h
    simp at this
  refine ⟨s1, h1, ?_⟩
  unfold target_permitted
  by_cases hb : (fs ≠ "all" ∧ address ∈ s.proxyConfig_.blockedIPs) ∨
      (fp ≠ -1 ∧ (port : Int) ∈ s.proxyConfig_.blockedPorts)
  · obtain ⟨htx, hd, -⟩ := hblocked hb
    have hnp : ¬ (address ∈ s.proxyConfig_.allowedIPs ∧ address ∉ s.proxyConfig_.blockedIPs ∧
        (port : Int) ∈ s.proxyConfig_.allowedPorts ∧ (port : Int) ∉ s.proxyConfig_.blockedPorts) := by
      rintro ⟨-, h2, -, h4⟩
      rcases hb with ⟨-, h⟩ | ⟨-, h⟩
      · exact h2 h
      · exact h4 h
    refine ⟨⟨fun h => absurd (hd.symm.trans h) (hgrow _), fun h => absurd h hnp⟩,
      fun h => absurd h hnp, fun _ => ⟨hd, 7, Or.inl rfl, htx⟩⟩
  · have hnb1 : address ∉ s.proxyConfig_.blockedIPs := fun h => hb (Or.inl ⟨hfs, h⟩)
    have hnb2 : (port : Int) ∉ s.proxyConfig_.blockedPorts := fun h => hb (Or.inr ⟨hfp, h⟩)
    by_cases ha : (fs = "all" ∨ address ∈ fs :: sites) ∧ (fp = -1 ∨ (port : Int) ∈ fp :: ports)
    · obtain ⟨htx, hd, -⟩ := hdial hb ha
      have hperm : address ∈ s.proxyConfig_.allowedIPs ∧ address ∉ s.proxyConfig_.blockedIPs ∧
          (port : Int) ∈ s.proxyConfig_.allowedPorts ∧ (port : Int) ∉ s.proxyConfig_.blockedPorts := by
        rw [hs, hp]
        rcases ha with ⟨h1 | h1, h2 | h2⟩
        · exact absurd h1 hfs
        · exact absurd h1 hfs
        · exact absurd h2 hfp
        · exact ⟨h1, hnb1, h2, hnb2⟩
      exact ⟨⟨fun _ => hperm, fun _ => hd⟩, fun _ => htx, fun h => absurd hperm h⟩
    · obtain ⟨htx, hd, -⟩ := hunlisted hb ha
      have hnp : ¬ (address ∈ s.proxyConfig_.allowedIPs ∧ address ∉ s.proxyConfig_.blockedIPs ∧
          (port : Int) ∈ s.proxyConfig_.allowedPorts ∧ (port : Int) ∉ s.proxyConfig_.blockedPorts) := by
        rintro ⟨h1, -, h3, -⟩
        rw [hs] at h1
        rw [hp] at h3
        exact ha ⟨Or.inr h1, Or.inr h3⟩
      refine ⟨⟨fun h => absurd (hd.symm.trans h) (hgrow _), fun h => absurd h hnp⟩,
        fun h => absurd h hnp, fun _ => ⟨hd, 5, Or.inr rfl, htx⟩⟩

/-- The gate without wildcards on an example: allowed hosts 10.0.0.1 and
10.0.0.2, blocked host 10.0.0.2, allowed ports 80 and 443, blocked port 8080;
the request for 10.0.0.1:80 is dialled. -/
theorem gate_without_wildcards_example :
    ∃ s1, ProxySession.handle_socks_request Env.reachable
        (ProxySession.awaiting_request
          { allowedIPs := ["10.0.0.1", "10.0.0.2"], blockedIPs := ["10.0.0.2"],
            allowedPorts := [80, 443], blockedPorts := [8080],
            username := "", password := "", authenticationMethod := 0 }
          0 "192.0.2.7" [5, 1, 0, 1, 10, 0, 0, 1, 0, 80])
        error_code.success 10 = Except.ok s1 ∧
      s1.dials = [("10.0.0.1", 80)] ∧ s1.client_socket_.tx = [] := by
  obtain ⟨s1, h1, hiff, htx, -⟩ := gate_without_wildcards Env.reachable
    (ProxySession.awaiting_request
      { allowedIPs := ["10.0.0.1", "10.0.0.2"], blockedIPs := ["10.0.0.2"],
        allowedPorts := [80, 443], blockedPorts := [8080],
        username := "", password := "", authenticationMethod := 0 }
      0 "192.0.2.7" [5, 1, 0, 1, 10, 0, 0, 1, 0, 80])
    10 "10.0.0.1" 80 "IPv4" (by decide) (by decide) rfl (by decide) (by decide) (by decide)
    (by decide)
  have hperm : target_permitted
      { allowedIPs := ["10.0.0.1", "10.0.0.2"], blockedIPs := ["10.0.0.2"],
        allowedPorts := [80, 443], blockedPorts := [8080],
        username := "", password := "", authenticationMethod := 0 } "10.0.0.1" 80 := by
    unfold target_permitted
    decide
  exact ⟨s1, h1, hiff.mpr hperm, htx hperm⟩

/-- Claim C5, evaluated where the code departs from it. Under a configuration
without wildcards (allowed hosts ["10.0.0.1"], allowed ports [80]) the CONNECT
request 05 01 00 03 FF 41, read without error with 6 bytes delivered, has no
decoded target: the length octet FF is read as a signed `char`, the length
test passes and building the host string throws `std::length_error` out of
the handler. No connection is opened, and no failure reply is sent either.
A request whose target is decoded and not permitted (10.0.0.2:80) does get a
failure reply and no connection, and the permitted target 10.0.0.1:80 is
dialled. -/
theorem C5_undecoded_request_throws_before_gate :
    ("all" ∉ ["10.0.0.1"] ∧ (-1 : Int) ∉ [80]) ∧
    ProxySession.handle_socks_request Env.reachable
        (ProxySession.awaiting_request
          { allowedIPs := ["10.0.0.1"], blockedIPs := [],
            allowedPorts := [80], blockedPorts := [],
            username := "", password := "", authenticationMethod := 0 }
          0 "192.0.2.7" [5, 1, 0, 3, 0xFF, 0x41])
        error_code.success 6 = Except.error Fault.length_error ∧
    (∃ s1, ProxySession.handle_socks_request Env.reachable
        (ProxySession.awaiting_request
          { allowedIPs := ["10.0.0.1"], blockedIPs := [],
            allowedPorts := [80], blockedPorts := [],
            username := "", password := "", authenticationMethod := 0 }
          0 "192.0.2.7" [5, 1, 0, 1, 10, 0, 0, 2, 0, 80])
        error_code.success 10 = Except.ok s1 ∧
      s1.dials = [] ∧ s1.client_socket_.tx = [5, 5, 0, 1, 0, 0, 0, 0, 0, 0]) ∧
    (∃ s1, ProxySession.handle_socks_request Env.reachable
        (ProxySession.awaiting_request
          { allowedIPs := ["10.0.0.1"], blockedIPs := [],
            allowedPorts := [80], blockedPorts := [],
            username := "", password := "", authenticationMethod := 0 }
          0 "192.0.2.7" [5, 1, 0, 1, 10, 0, 0, 1, 0, 80])
        error_code.success 10 = Except.ok s1 ∧
      s1.dials = [("10.0.0.1", 80)] ∧ s1.client_socket_.tx = []) := by
  refine ⟨by decide, rfl, ⟨_, rfl, ?_, ?_⟩, ⟨_, rfl, ?_, ?_⟩⟩ <;> decide

/-- Claim C6 as stated fails on its own witness: with allowed hosts
["10.0.0.1", "all"] and every port allowed, the request for example.org:80 is
rejected with reply code 5 and no connection is opened. -/
theorem C6_all_after_first_entry_is_no_wildcard :
    "all" ∈ ["10.0.0.1", "all"] ∧
    ∃ s1, ProxySession.handle_socks_request Env.reachable
        (ProxySession.awaiting_request
          { allowedIPs := ["10.0.0.1", "all"], blockedIPs := [],
            allowedPorts := [-1], blockedPorts := [],
            username := "", password := "", authenticationMethod := 0 }
          0 "192.0.2.7"
          [5, 1, 0, 3, 11, 101, 120, 97, 109, 112, 108, 101, 46, 111, 114, 103, 0, 80])
        error_code.success 18 = Except.ok s1 ∧
      s1.dials = [] ∧ s1.client_socket_.tx = [5, 5, 0, 1, 0, 0, 0, 0, 0, 0] := by
  refine ⟨by decide, _, rfl, ?_, ?_⟩ <;> decide

/-- Claim C6, amended. For every configuration whose allowed-host list has the
string "all" as its first entry, every requested host is allowed: for every
host and every port that the port rule permits, the policy check of
`handle_socks_request`, entered with that host and port as the decoded target,
proceeds to dial the host and sends no failure reply; and so does
`handle_socks_request` for every CONNECT request, read without error, whose
target the address switch decodes to that host and port. -/
theorem C6_wildcard_first_allows_every_host (env : Env) (s : ProxySession)
    (address : String) (port : Nat) (sites : List String)
    (hs : s.proxyConfig_.allowedIPs = "all" :: sites)
    (hport : port_rule_permits s.proxyConfig_ port) :
    (∃ s1, ProxySession.gate_and_dial env s address port = Except.ok s1 ∧
      s1.dials = s.dials ++ [(address, port)] ∧
      s1.client_socket_.tx = s.client_socket_.tx) ∧
    ∀ n ats, bufGet s.client_data_ 0 % 256 = 5 → bufGet s.client_data_ 1 % 256 = 1 →
      ProxySession.decode_target env s.client_data_ (bufGet s.client_data_ 3 % 256) n =
        Except.ok (some (address, port, ats)) →
      ∃ s1, ProxySession.handle_socks_request env s error_code.success n = Except.ok s1 ∧
        s1.dials = s.dials ++ [(address, port)] ∧
        s1.client_socket_.tx = s.client_socket_.tx :=
  ⟨wildcard_first_gate env s address port sites hs hport,
    fun n ats hver hcmd hdec =>
      wildcard_first_dials env s n address port ats sites hver hcmd hdec hs hport⟩

/-- Witness for C6: allowed hosts ["all", "10.0.0.1"] and host example.org. -/
theorem C6_wildcard_first_allows_every_host_witness :
    ∃ s1, ProxySession.handle_socks_request Env.reachable
        (ProxySession.awaiting_request
          { allowedIPs := ["all", "10.0.0.1"], blockedIPs := [],
            allowedPorts := [-1], blockedPorts := [],
            username := "", password := "", authenticationMethod := 0 }
          0 "192.0.2.7"
          [5, 1, 0, 3, 11, 101, 120, 97, 109, 112, 108, 101, 46, 111, 114, 103, 0, 80])
        error_code.success 18 = Except.ok s1 ∧
      s1.dials = [("example.org", 80)] ∧ s1.client_socket_.tx = [] :=
  (C6_wildcard_first_allows_every_host Env.reachable
    (ProxySession.awaiting_request
      { allowedIPs := ["all", "10.0.0.1"], blockedIPs := [],
        allowedPorts := [-1], blockedPorts := [],
        username := "", password := "", authenticationMethod := 0 }
      0 "192.0.2.7"
      [5, 1, 0, 3, 11, 101, 120, 97, 109, 112, 108, 101, 46, 111, 114, 103, 0, 80])
    "example.org" 80 ["10.0.0.1"] rfl (Or.inl rfl)).2
    18 "domain name" (by decide) (by decide) rfl

/-- Claim C7 as stated fails on its own witness: with allowed hosts ["all"],
blocked hosts ["example.com"] and every port allowed, the CONNECT request for
the domain example.com, port 443, is dialled and no reply is sent. -/
theorem C7_blocked_host_dialled_under_wildcard :
    "example.com" ∈ ["example.com"] ∧
    ∃ s1, ProxySession.handle_socks_request Env.reachable
        (ProxySession.awaiting_request
          { allowedIPs := ["all"], blockedIPs := ["example.com"],
            allowedPorts := [-1], blockedPorts := [],
            username := "", password := "", authenticationMethod := 0 }
          0 "192.0.2.7"
          [5, 1, 0, 3, 11, 101, 120, 97, 109, 112, 108, 101, 46, 99, 111, 109, 1, 187])
        error_code.success 18 = Except.ok s1 ∧
      s1.dials = [("example.com", 443)] ∧ s1.client_socket_.tx = [] := by
  refine ⟨by decide, _, rfl, ?_, ?_⟩ <;> decide

/-- Claim C7, amended. For every configuration whose allowed-host list begins
with "all" and whose blocked-host list contains a host h, the blocked-host list
is not consulted: for every port that the port rule permits, the policy check
of `handle_socks_request`, entered with h and that port as the decoded target,
dials h and sends no failure reply; and so does `handle_socks_request` for
every CONNECT request, read without error, whose target the address switch
decodes to h and that port. -/
theorem C7_wildcard_bypasses_blocked_hosts (env : Env) (s : ProxySession)
    (h : String) (port : Nat) (sites : List String)
    (hs : s.proxyConfig_.allowedIPs = "all" :: sites)
    (hblocked : h ∈ s.proxyConfig_.blockedIPs)
    (hport : port_rule_permits s.proxyConfig_ port) :
    h ∈ s.proxyConfig_.blockedIPs ∧
    (∃ s1, ProxySession.gate_and_dial env s h port = Except.ok s1 ∧
      s1.dials = s.dials ++ [(h, port)] ∧
      s1.client_socket_.tx = s.client_socket_.tx) ∧
    ∀ n ats, bufGet s.client_data_ 0 % 256 = 5 → bufGet s.client_data_ 1 % 256 = 1 →
      ProxySession.decode_target env s.client_data_ (bufGet s.client_data_ 3 % 256) n =
        Except.ok (some (h, port, ats)) →
      ∃ s1, ProxySession.handle_socks_request env s error_code.success n = Except.ok s1 ∧
        s1.dials = s.dials ++ [(h, port)] ∧
        s1.client_socket_.tx = s.client_socket_.tx :=
  ⟨hblocked, wildcard_first_gate env s h port sites hs hport,
    fun n ats hver hcmd hdec =>
      wildcard_first_dials env s n h port ats sites hver hcmd hdec hs hport⟩

/-- Witness for C7: allowed hosts ["all"], blocked hosts ["example.com"], every
port allowed, request for the domain example.com, port 443. -/
theorem C7_wildcard_bypasses_blocked_hosts_witness :
    ∃ s1, ProxySession.handle_socks_request Env.reachable
        (ProxySession.awaiting_request
          { allowedIPs := ["all"], blockedIPs := ["example.com"],
            allowedPorts := [-1], blockedPorts := [],
            username := "", password := "", authenticationMethod := 0 }
          0 "192.0.2.7"
          [5, 1, 0, 3, 11, 101, 120, 97, 109, 112, 108, 101, 46, 99, 111, 109, 1, 187])
        error_code.success 18 = Except.ok s1 ∧
      s1.dials = [("example.com", 443)] ∧ s1.client_socket_.tx = [] :=
  (C7_wildcard_bypasses_blocked_hosts Env.reachable
    (ProxySession.awaiting_request
      { allowedIPs := ["all"], blockedIPs := ["example.com"],
        allowedPorts := [-1], blockedPorts := [],
        username := "", password := "", authenticationMethod := 0 }
      0 "192.0.2.7"
      [5, 1, 0, 3, 11, 101, 120, 97, 109, 112, 108, 101, 46, 99, 111, 109, 1, 187])
    "example.com" 443 [] rfl (by decide) (Or.inl rfl)).2.2
    18 "domain name" (by decide) (by decide) rfl

/-- Claim C8, evaluated where the code departs from it. With allowed hosts
["10.0.0.2"], blocked hosts ["10.0.0.1"] and allowed ports [80], the request
05 01 00 01 0A 00 00 01 00 50 for the blocked host opens no connection and is
answered with reply code 7, not 2. -/
theorem C8_denied_target_gets_reply_code_7 (env : Env) :
    ∃ s1, ProxySession.handle_socks_request env
        (ProxySession.awaiting_request
          { allowedIPs := ["10.0.0.2"], blockedIPs := ["10.0.0.1"],
            allowedPorts := [80], blockedPorts := [],
            username := "", password := "", authenticationMethod := 0 }
          0 "192.0.2.7" [5, 1, 0, 1, 10, 0, 0, 1, 0, 80])
        error_code.success 10 = Except.ok s1 ∧
      s1.dials = [] ∧ s1.client_socket_.tx = [5, 7, 0, 1, 0, 0, 0, 0, 0, 0] := by
  refine ⟨_, rfl, ?_, ?_⟩ <;> decide

/-- Claim C9, evaluated where the code departs from it. The BIND request 05 02
00 01 7F 00 00 01 00 50 leaves the session as it was: no reply is written, no
connection is opened and nothing is closed, because `if (command == 1)` has no
`else`. -/
theorem C9_bind_request_gets_no_reply (env : Env) (config : ProxyConfiguration)
    (logging_method : Int) (peer : String) :
    ProxySession.handle_socks_request env
        (ProxySession.awaiting_request config logging_method peer
          [5, 2, 0, 1, 0x7F, 0, 0, 1, 0, 0x50])
        error_code.success 10 =
      Except.ok (ProxySession.awaiting_request config logging_method peer
        [5, 2, 0, 1, 0x7F, 0, 0, 1, 0, 0x50]) ∧
    (ProxySession.awaiting_request config logging_method peer
      [5, 2, 0, 1, 0x7F, 0, 0, 1, 0, 0x50]).client_socket_.tx = [] := by
  constructor
  · simp [ProxySession.handle_socks_request, ProxySession.awaiting_request, bufGet,
      SOCKS_VERSION]
  · rfl

/-- Claim C10. For every CONNECT request (VER = 5, CMD = 1) read without error
whose ATYP byte is not 1, 3 or 4, whatever the number of bytes received and the
configuration, `handle_socks_request` sends a reply with code 8 and opens no
outbound connection. -/
theorem C10_unknown_address_type_reply_8 (env : Env) (s : ProxySession) (n : Nat)
    (hver : bufGet s.client_data_ 0 % 256 = 5) (hcmd : bufGet s.client_data_ 1 % 256 = 1)
    (h1 : bufGet s.client_data_ 3 % 256 ≠ 1) (h3 : bufGet s.client_data_ 3 % 256 ≠ 3)
    (h4 : bufGet s.client_data_ 3 % 256 ≠ 4) :
    ∃ s1, ProxySession.handle_socks_request env s error_code.success n = Except.ok s1 ∧
      s1.client_socket_.tx =
        s.client_socket_.tx ++ ([5, 8, 0, 1] ++ bufSlice s.server_data_ 4 6) ∧
      s1.dials = s.dials ∧ s1.pending = s.pending ++ [AsyncOp.reply_write] := by
  have hdec : ProxySession.decode_target env s.client_data_ (bufGet s.client_data_ 3 % 256) n =
      Except.ok none := by
    simp [ProxySession.decode_target, h1, h3, h4]
  refine ⟨_, handle_socks_request_undecoded env s n hver hcmd hdec, ?_, ?_, ?_⟩
  · rw [send_socks_reply_tx, reply_frame_eq]
  · simp
  · simp

/-- Witness for C10: ATYP = 2 in a 10-byte frame, under a configuration that
lists one host and one port. -/
theorem C10_unknown_address_type_reply_8_witness :
    ∃ s1, ProxySession.handle_socks_request Env.reachable
        (ProxySession.awaiting_request
          { allowedIPs := ["10.0.0.1"], blockedIPs := [],
            allowedPorts := [80], blockedPorts := [],
            username := "", password := "", authenticationMethod := 0 }
          0 "192.0.2.7" [5, 1, 0, 2, 10, 0, 0, 1, 0, 80])
        error_code.success 10 = Except.ok s1 ∧
      s1.client_socket_.tx = [5, 8, 0, 1, 0, 0, 0, 0, 0, 0] ∧
      s1.dials = [] ∧ s1.pending = [AsyncOp.reply_write] :=
  C10_unknown_address_type_reply_8 Env.reachable
    (ProxySession.awaiting_request
      { allowedIPs := ["10.0.0.1"], blockedIPs := [],
        allowedPorts := [80], blockedPorts := [],
        username := "", password := "", authenticationMethod := 0 }
      0 "192.0.2.7" [5, 1, 0, 2, 10, 0, 0, 1, 0, 80])
    10 (by decide) (by decide) (by decide) (by decide) (by decide)

/-- A CONNECT request on which the address switch throws: the exception leaves
the handler. -/
theorem handle_socks_request_fault (env : Env) (s : ProxySession) (n : Nat) (f : Fault)
    (hver : bufGet s.client_data_ 0 % 256 = 5) (hcmd : bufGet s.client_data_ 1 % 256 = 1)
    (hdec : ProxySession.decode_target env s.client_data_ (bufGet s.client_data_ 3 % 256) n =
      Except.error f) :
    ProxySession.handle_socks_request env s error_code.success n = Except.error f := by
  unfold ProxySession.handle_socks_request
  simp only [hver, hcmd, hdec, SOCKS_VERSION, if_true]

/-- Reply 8 on a session whose `server_data_` is still zeroed. -/
theorem undecoded_reply_8 (env : Env) (s : ProxySession) (n : Nat)
    (hver : bufGet s.client_data_ 0 % 256 = 5) (hcmd : bufGet s.client_data_ 1 % 256 = 1)
    (hdec : ProxySession.decode_target env s.client_data_ (bufGet s.client_data_ 3 % 256) n =
      Except.ok none) (hzero : s.server_data_ = []) :
    ∃ s1, ProxySession.handle_socks_request env s error_code.success n = Except.ok s1 ∧
      s1.client_socket_.tx = s.client_socket_.tx ++ [5, 8, 0, 1, 0, 0, 0, 0, 0, 0] ∧
      s1.dials = s.dials := by
  refine ⟨_, handle_socks_request_undecoded env s n hver hcmd hdec, ?_, ?_⟩
  · rw [send_socks_reply_tx, reply_frame_eq, hzero]
    rfl
  · simp

/-- Claim C11, evaluated where the code departs from it. The claim's own
witness holds: ATYP = 1 with 9 bytes delivered gets reply code 8 and no
connection. But for ATYP = 3 with length octet FF and 6 bytes delivered (a
frame 256 bytes short) the length is read as a signed `char`, -1, the length
test passes, and building the host string throws `std::length_error`: no
reply is sent. -/
theorem C11_short_domain_frame_throws (env : Env) (config : ProxyConfiguration)
    (logging_method : Int) (peer : String) :
    (∃ s1, ProxySession.handle_socks_request env
        (ProxySession.awaiting_request config logging_method peer
          [5, 1, 0, 1, 0x7F, 0, 0, 1, 0]) error_code.success 9 = Except.ok s1 ∧
      s1.client_socket_.tx = [] ++ [5, 8, 0, 1, 0, 0, 0, 0, 0, 0] ∧ s1.dials = []) ∧
    ProxySession.handle_socks_request env
        (ProxySession.awaiting_request config logging_method peer
          [5, 1, 0, 3, 0xFF, 0x41]) error_code.success 6 =
      Except.error Fault.length_error :=
  ⟨undecoded_reply_8 env _ 9 rfl rfl rfl rfl,
    handle_socks_request_fault env _ 6 Fault.length_error rfl rfl rfl⟩

/-- Claim C13, evaluated where the code departs from it, on the claim's own
witness. For ATYP = 3 with length octet C8 (200), a 200-byte name and a port,
207 bytes in all, the length is read as a signed `char`, -56; converted to
`size_t` the required length exceeds every frame, so no host is decoded: the
request gets reply code 8 and no connection is opened. -/
theorem C13_long_domain_name_not_decoded (env : Env) (config : ProxyConfiguration)
    (logging_method : Int) (peer : String) :
    charToInt 200 = -56 ∧
    ProxySession.decode_target env ([5, 1, 0, 3, 200] ++ List.replicate 200 97 ++ [0, 80]) 3 207 =
      Except.ok none ∧
    ∃ s1, ProxySession.handle_socks_request env
        (ProxySession.awaiting_request config logging_method peer
          ([5, 1, 0, 3, 200] ++ List.replicate 200 97 ++ [0, 80])) error_code.success 207 =
        Except.ok s1 ∧
      s1.client_socket_.tx = [] ++ [5, 8, 0, 1, 0, 0, 0, 0, 0, 0] ∧ s1.dials = [] :=
  ⟨by decide, rfl, undecoded_reply_8 env _ 207 rfl rfl rfl rfl⟩

/-- Claim C14. For every CONNECT request with ATYP = 1 and at least 10 bytes
received, the address switch decodes the host as the dotted-decimal text
"b4.b5.b6.b7" of bytes 4..7 in wire order and the port as 256*b8 + b9: the
little-endian loads followed by `network_to_host_long` and
`network_to_host_short` restore the wire order. Every port value 0..65535 is
decoded from its two bytes. -/
theorem C14_ipv4_target_decoded (env : Env) (h0 h1 h2 h3 b4 b5 b6 b7 b8 b9 : Nat)
    (rest : List Nat) (n : Nat) (hn : 10 ≤ n)
    (hb4 : b4 < 256) (hb5 : b5 < 256) (hb6 : b6 < 256) (hb7 : b7 < 256)
    (hb8 : b8 < 256) (hb9 : b9 < 256) :
    ProxySession.decode_target env
        (h0 :: h1 :: h2 :: h3 :: b4 :: b5 :: b6 :: b7 :: b8 :: b9 :: rest) 1 n =
      Except.ok (some (toString b4 ++ "." ++ toString b5 ++ "." ++ toString b6 ++ "." ++
        toString b7, 256 * b8 + b9, "IPv4")) ∧
    ∀ p, p < 65536 →
      ProxySession.decode_target env
          (h0 :: h1 :: h2 :: h3 :: b4 :: b5 :: b6 :: b7 :: (p / 256) :: (p % 256) :: rest) 1 n =
        Except.ok (some (toString b4 ++ "." ++ toString b5 ++ "." ++ toString b6 ++ "." ++
          toString b7, p, "IPv4")) := by
  constructor
  · have hp : b8 * 256 + b9 = 256 * b8 + b9 := by omega
    simp [ProxySession.decode_target, hn, ipv4At_eq, portAt_eq, bufGet, Nat.mod_eq_of_lt hb4,
      Nat.mod_eq_of_lt hb5, Nat.mod_eq_of_lt hb6, Nat.mod_eq_of_lt hb7, Nat.mod_eq_of_lt hb8,
      Nat.mod_eq_of_lt hb9, hp]
  · intro p hp
    have hq : p / 256 < 256 := by omega
    have hr : p / 256 * 256 + p % 256 = p := by omega
    simp [ProxySession.decode_target, hn, ipv4At_eq, portAt_eq, bufGet, Nat.mod_eq_of_lt hb4,
      Nat.mod_eq_of_lt hb5, Nat.mod_eq_of_lt hb6, Nat.mod_eq_of_lt hb7, Nat.mod_eq_of_lt hq, hr]

/-- Witness for C14: the frame 05 01 00 01 C0 00 02 21 1F 90 decodes to
192.0.2.33, port 8080, and bytes FF FF decode to port 65535. -/
theorem C14_ipv4_target_decoded_witness :
    ProxySession.decode_target Env.reachable [5, 1, 0, 1, 0xC0, 0, 2, 0x21, 0x1F, 0x90] 1 10 =
      Except.ok (some ("192.0.2.33", 8080, "IPv4")) ∧
    ProxySession.decode_target Env.reachable [5, 1, 0, 1, 0xC0, 0, 2, 0x21, 0xFF, 0xFF] 1 10 =
      Except.ok (some ("192.0.2.33", 65535, "IPv4")) :=
  ⟨(C14_ipv4_target_decoded Env.reachable 5 1 0 1 0xC0 0 2 0x21 0x1F 0x90 [] 10 (by decide)
      (by decide) (by decide) (by decide) (by decide) (by decide) (by decide)).1,
    (C14_ipv4_target_decoded Env.reachable 5 1 0 1 0xC0 0 2 0x21 0x1F 0x90 [] 10 (by decide)
      (by decide) (by decide) (by decide) (by decide) (by decide) (by decide)).2 65535
      (by decide)⟩

/-- Claim C16, evaluated where the code departs from it. Under a configuration
that allows every host and port, when the name does not resolve the handler
logs the exception and sends no reply at all (the claim says reply code 5); no
connect is initiated and no relay started. When the name resolves and the
connect is refused the reply code is 5, as the claim says. -/
theorem C16_resolve_failure_gets_no_reply :
    (∃ s1, ProxySession.handle_socks_request Env.unresolvable
        (ProxySession.awaiting_request (ProxyConfiguration.allow_all 0 "" "") 0 "192.0.2.7"
          [5, 1, 0, 3, 11, 101, 120, 97, 109, 112, 108, 101, 46, 111, 114, 103, 0, 80])
        error_code.success 18 = Except.ok s1 ∧
      s1.dials = [("example.org", 80)] ∧ s1.client_socket_.tx = [] ∧ s1.pending = [] ∧
      s1.trace.getLast? = some (Event.file_enqueue Level.err "192.0.2.7"
        "Exception: resolve: Host not found (authoritative)")) ∧
    (∃ s1, ProxySession.handle_socks_request Env.refusing
        (ProxySession.awaiting_request (ProxyConfiguration.allow_all 0 "" "") 0 "192.0.2.7"
          [5, 1, 0, 3, 11, 101, 120, 97, 109, 112, 108, 101, 46, 111, 114, 103, 0, 80])
        error_code.success 18 = Except.ok s1 ∧
      s1.pending = [AsyncOp.connect "example.org" 80] ∧
      (s1.complete_connect Env.refusing "example.org" 80).client_socket_.tx =
        [5, 5, 0, 1, 0, 0, 0, 0, 0, 0] ∧
      (s1.complete_connect Env.refusing "example.org" 80).pending = [AsyncOp.reply_write]) := by
  constructor
  · refine ⟨_, rfl, ?_, ?_, ?_, ?_⟩ <;> decide
  · refine ⟨_, rfl, ?_, ?_, ?_⟩ <;> decide

/-- The dispatcher reads the greeting and decides on the first offered method
alone. -/
theorem handle_authentication_first_method (cfg : ProxyConfiguration) (socket : Socket)
    (m : Nat) (ms more : List Nat) (hlen : (m :: ms).length < 256) (hm : m < 256)
    (hrx : socket.rx.flatten = (m :: ms).length :: ((m :: ms) ++ more)) :
    ∃ s2 : Socket, s2.tx = socket.tx ∧ s2.peer = socket.peer ∧ s2.is_open = socket.is_open ∧
      s2.rx.flatten = more ∧
      Handle_Authentication.handle_authentication cfg socket =
        if (m = 0x00 ∧ cfg.authenticationMethod = 0) ∨
            (m = 0x00 ∧ cfg.authenticationMethod = -1) then
          No_Authentication.authenticate s2
        else if (m = 0x01 ∧ cfg.authenticationMethod = 1) ∨
            (m = 0x01 ∧ cfg.authenticationMethod = -1) then
          GSSAPI.authenticate s2
        else if (m = 0x02 ∧ cfg.authenticationMethod = 2) ∨
            (m = 0x02 ∧ cfg.authenticationMethod = -1) then
          Username_Password.authenticate cfg.username cfg.password s2
        else
          Except.ok { authenticated := false, socket := s2, authentication_method := -1,
                      error := "Unsupported authentication method." } := by
  obtain ⟨s1, h1, hrx1, htx1, hp1, ho1⟩ :=
    Socket.read_of_flatten socket [(m :: ms).length] ((m :: ms) ++ more) hrx
  obtain ⟨s2, h2, hrx2, htx2, hp2, ho2⟩ := Socket.read_of_flatten s1 (m :: ms) more hrx1
  have h1a : socket.read 1 = (error_code.success, [(m :: ms).length], s1) := h1
  have hmod : (ms.length + 1) % 256 = ms.length + 1 := Nat.mod_eq_of_lt (by simpa using hlen)
  have h2a : s1.read (ms.length + 1) = (error_code.success, m :: ms, s2) := h2
  refine ⟨s2, htx2.trans htx1, hp2.trans hp1, ho2.trans ho1, hrx2, ?_⟩
  unfold Handle_Authentication.handle_authentication
  simp [h1a, hmod, h2a, Nat.mod_eq_of_lt hm]

/-- Claim C18 as stated fails: with preference Any (-1) and the greeting
05 02 01 00 the dispatcher selects GSSAPI, which writes 05 01 and refuses;
`read_socks_request` then returns with nothing outstanding and the client
socket still open: the session has not ended. -/
theorem C18_gssapi_session_left_open :
    ∃ s1, (ProxySession.accepted (ProxyConfiguration.allow_all (-1) "" "") 0 "192.0.2.7"
        [[5, 2, 1, 0]]).read_socks_request = Except.ok s1 ∧
      s1.client_socket_.tx = [5, 1] ∧ s1.pending = [] ∧ s1.dials = [] ∧
      s1.client_socket_.is_open = true := by
  refine ⟨_, rfl, ?_, ?_, ?_, ?_⟩ <;> decide

/-- Claim C18, amended. `GSSAPI::authenticate` writes exactly the two bytes
[5,1] and returns (accepted = false, method = 1, diagnostic = ""); and
whenever the dispatcher selects it (the first offered method is 1 and the
preference is 1 or Any) the session goes no further but is not closed:
`read_socks_request` writes nothing but these two bytes, so no reply, initiates
no request read and no outbound connection, and returns with the client socket
as open as it was and the server socket untouched. -/
theorem C18_gssapi_refuses_without_close (s : ProxySession) (ms more : List Nat)
    (hlen : (1 :: ms).length < 256)
    (hpref : s.proxyConfig_.authenticationMethod = 1 ∨ s.proxyConfig_.authenticationMethod = -1)
    (hrx : s.client_socket_.rx.flatten = 5 :: (1 :: ms).length :: ((1 :: ms) ++ more)) :
    (∀ socket : Socket, ∃ r, GSSAPI.authenticate socket = Except.ok r ∧
      r.socket.tx = socket.tx ++ [5, 1] ∧ r.authenticated = false ∧
      r.authentication_method = 1 ∧ r.error = "") ∧
    ∃ s1, s.read_socks_request = Except.ok s1 ∧
      s1.client_socket_.tx = s.client_socket_.tx ++ [5, 1] ∧ s1.pending = s.pending ∧
      s1.dials = s.dials ∧
      s1.client_socket_.is_open = s.client_socket_.is_open ∧
      s1.server_socket_ = s.server_socket_ := by
  constructor
  · intro socket
    exact ⟨_, rfl, rfl, rfl, rfl, rfl⟩
  · obtain ⟨c1, h1, hrx1, htx1, -, ho1⟩ :=
      Socket.read_of_flatten s.client_socket_ [5] ((1 :: ms).length :: ((1 :: ms) ++ more)) hrx
    have h1a : s.client_socket_.read 1 = (error_code.success, [5], c1) := h1
    obtain ⟨s2, htx2, -, ho2, -, hauth⟩ := handle_authentication_first_method s.proxyConfig_ c1 1
      ms more hlen (by decide) hrx1
    have hsel : Handle_Authentication.handle_authentication s.proxyConfig_ c1 =
        GSSAPI.authenticate s2 := by
      rw [hauth]
      rcases hpref with h | h <;> simp [h]
    unfold ProxySession.read_socks_request
    simp [h1a, bufStore, bufGet, hsel, GSSAPI.authenticate, Socket.write, bind, Except.bind, pure,
      Except.pure, htx2, htx1, ho2, ho1]
    simp [ProxySession.dials, List.filterMap_append]

/-- Witness for C18: preference 1 and greeting 05 01 01. -/
theorem C18_gssapi_refuses_without_close_witness :
    ∃ s1, (ProxySession.accepted (ProxyConfiguration.allow_all 1 "" "") 0 "192.0.2.7"
        [[5, 1, 1]]).read_socks_request = Except.ok s1 ∧
      s1.client_socket_.tx = [] ++ [5, 1] ∧ s1.pending = [] ∧ s1.dials = [] ∧
      s1.client_socket_.is_open = true ∧
      s1.server_socket_ = { rx := [], tx := [], is_open := false, peer := "" } :=
  (C18_gssapi_refuses_without_close
    (ProxySession.accepted (ProxyConfiguration.allow_all 1 "" "") 0 "192.0.2.7" [[5, 1, 1]])
    [] [] (by decide) (Or.inl rfl) rfl).2

/-- Claim C19. For every sub-negotiation header [VER, ULEN] whose VER byte is
not 1, and every ULEN, `Username_Password::authenticate` (having written
[5,2]) returns accepted = false, method 2 and the diagnostic "Invalid
authentication request header.", and writes no status byte. -/
theorem C19_invalid_subnegotiation_header (username password : String) (socket : Socket)
    (ver ulen : Nat) (more : List Nat) (hver : ver < 256) (hne : ver ≠ 1)
    (hrx : socket.rx.flatten = [ver, ulen] ++ more) :
    ∃ r, Username_Password.authenticate username password socket = Except.ok r ∧
      r.authenticated = false ∧ r.authentication_method = 2 ∧
      r.error = "Invalid authentication request header." ∧
      r.socket.tx = socket.tx ++ [5, 2] := by
  obtain ⟨s1, h1, -, t1, -, -⟩ := Socket.read_or_throw_of_flatten (socket.write [5, 2])
    [ver, ulen] more hrx
  have h1a : (socket.write [5, 2]).read_or_throw 2 = Except.ok ([ver, ulen], s1) := h1
  unfold Username_Password.authenticate
  simp [h1a, Nat.mod_eq_of_lt hver, hne, bind, Except.bind, pure, Except.pure, t1]
  rfl

/-- Witness for C19: header 05 01, the SOCKS version in place of 1. -/
theorem C19_invalid_subnegotiation_header_witness :
    ∃ r, Username_Password.authenticate "u" "p" (Socket.fresh "192.0.2.7" [[5, 1, 0x75]]) =
        Except.ok r ∧
      r.authenticated = false ∧ r.authentication_method = 2 ∧
      r.error = "Invalid authentication request header." ∧
      r.socket.tx = [] ++ [5, 2] :=
  C19_invalid_subnegotiation_header "u" "p" (Socket.fresh "192.0.2.7" [[5, 1, 0x75]]) 5 1 [0x75]
    (by decide) (by decide) rfl

/-! ## Sessions that end without a relay -/

theorem Socket.read_is_open (s : Socket) (n : Nat) : (s.read n).2.2.is_open = s.is_open := by
  unfold Socket.read
  split <;> rfl

theorem Socket.read_or_throw_is_open (s : Socket) (n : Nat) (d : List Nat) (s1 : Socket)
    (h : s.read_or_throw n = Except.ok (d, s1)) : s1.is_open = s.is_open := by
  unfold Socket.read_or_throw at h
  split at h
  · cases h
    rfl
  · cases h

/-- No strategy closes the socket it is given. -/
theorem Username_Password.authenticate_is_open (username password : String) (socket : Socket)
    (r : Authentication_Result)
    (h : Username_Password.authenticate username password socket = Except.ok r) :
    r.socket.is_open = socket.is_open := by
  unfold Username_Password.authenticate at h
  simp only [bind, Except.bind, pure, Except.pure] at h
  split at h
  · cases h
  · rename_i v1 h1
    have o1 := Socket.read_or_throw_is_open _ _ v1.1 v1.2 h1
    split at h
    · cases h
      simp [o1, Socket.write]
    · split at h
      · cases h
      · rename_i v2 h2
        have o2 := Socket.read_or_throw_is_open _ _ v2.1 v2.2 h2
        split at h
        · cases h
        · rename_i v3 h3
          have o3 := Socket.read_or_throw_is_open _ _ v3.1 v3.2 h3
          split at h
          · cases h
          · rename_i v4 h4
            have o4 := Socket.read_or_throw_is_open _ _ v4.1 v4.2 h4
            split at h <;> cases h <;> simp [Socket.write, o4, o3, o2, o1]

/-- The dispatcher hands back the socket as open as it got it. -/
theorem handle_authentication_is_open (cfg : ProxyConfiguration) (socket : Socket)
    (r : Authentication_Result)
    (h : Handle_Authentication.handle_authentication cfg socket = Except.ok r) :
    r.socket.is_open = socket.is_open := by
  have o1 := Socket.read_is_open socket 1
  unfold Handle_Authentication.handle_authentication at h
  split at h
  · rename_i d0 c1 h1
    rw [h1] at o1
    have o2 := Socket.read_is_open c1 (d0.getD 0 0 % 256)
    simp only at h
    split at h
    · rename_i d1 c2 h2
      rw [h2] at o2
      simp only at o1 o2
      split at h
      · split at h
        · cases h
          simp [Socket.write, o2, o1]
        · split at h
          · cases h
            simp [Socket.write, o2, o1]
          · split at h
            · rw [Username_Password.authenticate_is_open _ _ _ _ h, o2, o1]
            · cases h
              simp [o2, o1]
      · cases h
        simp [o2, o1]
    · rename_i e d1 c2 hne h2
      rw [h2] at o2
      cases h
      simp only at o1 o2
      simp [o2, o1]
  · rename_i e d0 c1 hne h1
    rw [h1] at o1
    cases h
    simpa using o1

/-- What a completed reply write does to the sockets of a session whose client
socket is open: nothing when the write succeeded, `close()` when it failed. -/
theorem complete_reply_write_sockets (s : ProxySession) (hopen : s.client_socket_.is_open = true) :
    (s.complete_reply_write error_code.success).client_socket_ = s.client_socket_ ∧
    (s.complete_reply_write error_code.success).server_socket_ = s.server_socket_ ∧
    (s.complete_reply_write error_code.success).dials = s.dials ∧
    ∀ e, e ≠ error_code.success →
      (s.complete_reply_write e).client_socket_.is_open = false ∧
      (s.complete_reply_write e).server_socket_.is_open = false := by
  refine ⟨?_, ?_, ?_, ?_⟩
  · simp [ProxySession.complete_reply_write, Socket.write_result, hopen, ProxySession.handle_write]
  · simp [ProxySession.complete_reply_write, Socket.write_result, hopen, ProxySession.handle_write]
  · simp [ProxySession.complete_reply_write, Socket.write_result, hopen, ProxySession.handle_write,
      ProxySession.dials]
  · intro e he
    simp [ProxySession.complete_reply_write, Socket.write_result, hopen, ProxySession.handle_write,
      he, ProxySession.close, Socket.close]

/-- Claim C12 as stated fails: after the greeting 04 01 00 the handler sends
reply code 5, and once that write has completed the client socket is still
open: the session is not closed. -/
theorem C12_bad_version_session_left_open :
    ∃ s1, (ProxySession.accepted (ProxyConfiguration.allow_all 0 "" "") 0 "192.0.2.7"
        [[4, 1, 0]]).start = Except.ok s1 ∧
      s1.client_socket_.tx = [5, 5, 0, 1, 0, 0, 0, 0, 0, 0] ∧
      (s1.complete_reply_write error_code.success).pending = [] ∧
      (s1.complete_reply_write error_code.success).client_socket_.is_open = true := by
  refine ⟨_, rfl, ?_, ?_, ?_⟩ <;> decide

/-- Claim C12, amended. For every session whose greeting version byte is not 5,
and for every request frame whose version byte is not 5, no outbound connection
is attempted and a reply is sent (code 5 for the greeting, code 1 for the
request); the session is not closed: once the handler and its reply write
have run without a write error, the client socket is open and the server
socket is as it was. Only a failed reply write closes both sockets. -/
theorem C12_bad_version_reply_without_close (env : Env) (s t : ProxySession) (v : Nat)
    (more : List Nat) (n : Nat)
    (hs : s.client_socket_.is_open = true) (hv : v % 256 ≠ 5)
    (hrx : s.client_socket_.rx.flatten = v :: more)
    (ht : t.client_socket_.is_open = true) (htv : bufGet t.client_data_ 0 % 256 ≠ 5) :
    (∃ s1, s.read_socks_request = Except.ok s1 ∧ s1.dials = s.dials ∧
      s1.client_socket_.tx = s.client_socket_.tx ++ ([5, 5, 0, 1] ++ bufSlice s.server_data_ 4 6) ∧
      s1.pending = s.pending ++ [AsyncOp.reply_write] ∧
      (s1.complete_reply_write error_code.success).client_socket_.is_open = true ∧
      (s1.complete_reply_write error_code.success).server_socket_ = s.server_socket_ ∧
      (s1.complete_reply_write error_code.success).dials = s.dials ∧
      ∀ e, e ≠ error_code.success →
        (s1.complete_reply_write e).client_socket_.is_open = false ∧
        (s1.complete_reply_write e).server_socket_.is_open = false) ∧
    (∃ t1, ProxySession.handle_socks_request env t error_code.success n = Except.ok t1 ∧
      t1.dials = t.dials ∧
      t1.client_socket_.tx = t.client_socket_.tx ++ ([5, 1, 0, 1] ++ bufSlice t.server_data_ 4 6) ∧
      t1.pending = t.pending ++ [AsyncOp.reply_write] ∧
      (t1.complete_reply_write error_code.success).client_socket_.is_open = true ∧
      (t1.complete_reply_write error_code.success).server_socket_ = t.server_socket_ ∧
      (t1.complete_reply_write error_code.success).dials = t.dials ∧
      ∀ e, e ≠ error_code.success →
        (t1.complete_reply_write e).client_socket_.is_open = false ∧
        (t1.complete_reply_write e).server_socket_.is_open = false) := by
  constructor
  · obtain ⟨c1, h1, -, htx1, -, ho1⟩ := Socket.read_of_flatten s.client_socket_ [v] more hrx
    have h1a : s.client_socket_.read 1 = (error_code.success, [v], c1) := h1
    have hstep : s.read_socks_request = Except.ok
        (ProxySession.send_socks_reply
          { s with client_socket_ := c1, client_data_ := bufStore s.client_data_ [v] } 5) := by
      unfold ProxySession.read_socks_request
      simp [h1a, bufStore, bufGet, hv]
    have hopen1 : (ProxySession.send_socks_reply
        { s with client_socket_ := c1, client_data_ := bufStore s.client_data_ [v] }
        5).client_socket_.is_open = true := by
      simp [ProxySession.send_socks_reply, Socket.write, ho1, hs]
    obtain ⟨w1, w2, w3, w4⟩ := complete_reply_write_sockets _ hopen1
    refine ⟨_, hstep, ?_, ?_, ?_, ?_, ?_, ?_, w4⟩
    · rw [send_socks_reply_dials]
      rfl
    · rw [send_socks_reply_tx, reply_frame_eq]
      simp [htx1]
    · simp
    · rw [w1]
      exact hopen1
    · rw [w2]
      simp
    · rw [w3, send_socks_reply_dials]
      rfl
  · have hstep : ProxySession.handle_socks_request env t error_code.success n =
        Except.ok (t.send_socks_reply 1) := by
      unfold ProxySession.handle_socks_request
      simp [htv, SOCKS_VERSION]
    have hopen1 : (t.send_socks_reply 1).client_socket_.is_open = true := by
      simp [ProxySession.send_socks_reply, Socket.write, ht]
    obtain ⟨w1, w2, w3, w4⟩ := complete_reply_write_sockets _ hopen1
    refine ⟨_, hstep, ?_, ?_, ?_, ?_, ?_, ?_, w4⟩
    · simp
    · rw [send_socks_reply_tx, reply_frame_eq]
    · simp
    · rw [w1]
      exact hopen1
    · rw [w2]
      simp
    · rw [w3]
      simp

/-- Witness for C12: greeting 04 01 00 and request frame 04 01 00 01 7F 00 00
01 00 50. -/
theorem C12_bad_version_reply_without_close_witness :
    (∃ s1, (ProxySession.accepted (ProxyConfiguration.allow_all 0 "" "") 0 "192.0.2.7"
        [[4, 1, 0]]).read_socks_request = Except.ok s1 ∧
      s1.dials = [] ∧ s1.client_socket_.tx = [5, 5, 0, 1, 0, 0, 0, 0, 0, 0] ∧
      (s1.complete_reply_write error_code.success).client_socket_.is_open = true) ∧
    (∃ t1, ProxySession.handle_socks_request Env.reachable
        (ProxySession.awaiting_request (ProxyConfiguration.allow_all 0 "" "") 0 "192.0.2.7"
          [4, 1, 0, 1, 0x7F, 0, 0, 1, 0, 0x50]) error_code.success 10 = Except.ok t1 ∧
      t1.dials = [] ∧ t1.client_socket_.tx = [5, 1, 0, 1, 0, 0, 0, 0, 0, 0] ∧
      (t1.complete_reply_write error_code.success).client_socket_.is_open = true) := by
  obtain ⟨⟨s1, a1, a2, a3, -, a5, -⟩, ⟨t1, b1, b2, b3, -, b5, -⟩⟩ :=
    C12_bad_version_reply_without_close Env.reachable
      (ProxySession.accepted (ProxyConfiguration.allow_all 0 "" "") 0 "192.0.2.7" [[4, 1, 0]])
      (ProxySession.awaiting_request (ProxyConfiguration.allow_all 0 "" "") 0 "192.0.2.7"
        [4, 1, 0, 1, 0x7F, 0, 0, 1, 0, 0x50])
      4 [1, 0] 10 rfl (by decide) rfl rfl (by decide)
  exact ⟨⟨s1, a1, a2, a3, a5⟩, ⟨t1, b1, b2, b3, b5⟩⟩

/-- Claim C20 as stated fails: with preference 1 and greeting 05 01 01 the
GSSAPI strategy refuses, and `read_socks_request` returns with the client
socket still open: the session is not closed. -/
theorem C20_refused_session_left_open :
    ∃ s1, (ProxySession.accepted (ProxyConfiguration.allow_all 1 "" "") 0 "192.0.2.7"
        [[5, 1, 1]]).read_socks_request = Except.ok s1 ∧
      s1.client_socket_.tx = [5, 1] ∧ s1.pending = [] ∧
      s1.client_socket_.is_open = true := by
  refine ⟨_, rfl, ?_, ?_, ?_⟩ <;> decide

/-- Claim C20, amended. For every authentication outcome with accepted = false
(whatever the strategy and the diagnostic), `read_socks_request` returns
without sending any SOCKS request-reply frame and without closing the session:
the client socket is the one the dispatcher handed back, as open as before, so
nothing was written after the strategy; no reply write and no request read
are initiated; no outbound connection is attempted. -/
theorem C20_refused_authentication_no_reply_no_close (s : ProxySession) (v : Nat)
    (c1 : Socket) (r : Authentication_Result) (hv : v % 256 = 5)
    (hread : s.client_socket_.read 1 = (error_code.success, [v], c1))
    (hauth : Handle_Authentication.handle_authentication s.proxyConfig_ c1 = Except.ok r)
    (hrefused : r.authenticated = false) :
    ∃ s1, s.read_socks_request = Except.ok s1 ∧
      s1.client_socket_ = r.socket ∧
      s1.client_socket_.is_open = s.client_socket_.is_open ∧
      s1.server_socket_ = s.server_socket_ ∧
      s1.pending = s.pending ∧ s1.dials = s.dials := by
  have hopen : r.socket.is_open = s.client_socket_.is_open := by
    rw [handle_authentication_is_open _ _ _ hauth]
    have h := Socket.read_is_open s.client_socket_ 1
    rw [hread] at h
    exact h
  unfold ProxySession.read_socks_request
  by_cases herr : r.error = ""
  · simp [hread, bufStore, bufGet, hv, hauth, herr, hrefused, hopen, bind, Except.bind, pure,
      Except.pure]
    simp [ProxySession.dials, List.filterMap_append]
  · simp [hread, bufStore, bufGet, hv, hauth, herr, hopen, bind, Except.bind, pure, Except.pure]
    simp [ProxySession.dials, List.filterMap_append]

/-- Witness for C20: credentials ("u","p"), greeting 05 01 02 and the
sub-negotiation 01 01 75 01 71 with the wrong password q. -/
theorem C20_refused_authentication_no_reply_no_close_witness :
    ∃ s1, (ProxySession.accepted (ProxyConfiguration.allow_all 2 "u" "p") 0 "192.0.2.7"
        [[5, 1, 2], [1, 1, 0x75, 1, 0x71]]).read_socks_request = Except.ok s1 ∧
      s1.client_socket_.tx = [5, 2, 1, 1] ∧ s1.client_socket_.is_open = true ∧
      s1.pending = [] ∧ s1.dials = [] := by
  obtain ⟨s1, h1, h2, h3, -, h5, h6⟩ := C20_refused_authentication_no_reply_no_close
    (ProxySession.accepted (ProxyConfiguration.allow_all 2 "u" "p") 0 "192.0.2.7"
      [[5, 1, 2], [1, 1, 0x75, 1, 0x71]])
    5 { rx := [[1, 2], [1, 1, 0x75, 1, 0x71]], tx := [], is_open := true, peer := "192.0.2.7" }
    { authenticated := false,
      socket := { rx := [[]], tx := [5, 2, 1, 1], is_open := true, peer := "192.0.2.7" },
      authentication_method := 2, error := "" }
    (by decide) rfl rfl rfl
  exact ⟨s1, h1, by rw [h2], h3, h5, h6⟩

/-! ## Stages of a session -/

/-- What the gate does to the client stream and to the outstanding operations:
nothing written and at most a connect initiated, or exactly one reply frame
with code 5 or 7. -/
theorem gate_and_dial_effect (env : Env) (s : ProxySession) (address : String) (port : Nat)
    (s1 : ProxySession) (h : ProxySession.gate_and_dial env s address port = Except.ok s1) :
    (s1.client_socket_.tx = s.client_socket_.tx ∧ s1.server_data_ = s.server_data_ ∧
      (s1.pending = s.pending ∨ s1.pending = s.pending ++ [AsyncOp.connect address port])) ∨
    ∃ status, (status = 5 ∨ status = 7) ∧
      s1.client_socket_.tx = s.client_socket_.tx ++ s.reply_frame status ∧
      s1.pending = s.pending ++ [AsyncOp.reply_write] := by
  cases hs : s.proxyConfig_.allowedIPs with
  | nil => simp [ProxySession.gate_and_dial, hs] at h
  | cons fs sites =>
    cases hp : s.proxyConfig_.allowedPorts with
    | nil => simp [ProxySession.gate_and_dial, hs, hp] at h
    | cons fp ports =>
      unfold ProxySession.gate_and_dial at h
      simp only [hs, hp] at h
      cases hB : ((if fs = "all" then false else decide (address ∈ s.proxyConfig_.blockedIPs)) ||
          (if fp = -1 then false else decide ((port : Int) ∈ s.proxyConfig_.blockedPorts)))
      · cases hA : ((if fs = "all" then true else decide (address ∈ fs :: sites)) &&
            (if fp = -1 then true else decide ((port : Int) ∈ fp :: ports)))
        · simp only [hB, hA, Bool.false_eq_true, if_false] at h
          cases h
          exact Or.inr ⟨5, Or.inl rfl, by simp [send_socks_reply_tx, reply_frame_log], by simp⟩
        · simp only [hB, hA, Bool.false_eq_true, if_false, if_true] at h
          cases hres : env.resolve address port with
          | error what =>
            simp only [hres] at h
            cases h
            exact Or.inl ⟨rfl, rfl, Or.inl rfl⟩
          | ok u =>
            simp only [hres] at h
            cases h
            exact Or.inl ⟨rfl, rfl, Or.inr rfl⟩
      · simp only [hB, if_true] at h
        cases h
        exact Or.inr ⟨7, Or.inr rfl, by simp [send_socks_reply_tx, reply_frame_log], by simp⟩

/-- What one run of `handle_socks_request` does to the client stream and to
the outstanding operations: nothing written and at most a connect initiated,
or exactly one reply frame with code 1, 5, 7 or 8. -/
theorem handle_socks_request_effect (env : Env) (s : ProxySession) (error : error_code)
    (n : Nat) (s1 : ProxySession)
    (h : ProxySession.handle_socks_request env s error n = Except.ok s1) :
    (s1.client_socket_.tx = s.client_socket_.tx ∧ s1.server_data_ = s.server_data_ ∧
      (s1.pending = s.pending ∨
        ∃ address port, s1.pending = s.pending ++ [AsyncOp.connect address port])) ∨
    ∃ status, (status = 1 ∨ status = 5 ∨ status = 7 ∨ status = 8) ∧
      s1.client_socket_.tx = s.client_socket_.tx ++ s.reply_frame status ∧
      s1.pending = s.pending ++ [AsyncOp.reply_write] := by
  by_cases herr : error = error_code.success
  · subst herr
    by_cases hver : bufGet s.client_data_ 0 % 256 = 5
    · by_cases hcmd : bufGet s.client_data_ 1 % 256 = 1
      · cases hdec : ProxySession.decode_target env s.client_data_
            (bufGet s.client_data_ 3 % 256) n with
        | error f =>
          rw [handle_socks_request_fault env s n f hver hcmd hdec] at h
          cases h
        | ok dec =>
          cases dec with
          | none =>
            rw [handle_socks_request_undecoded env s n hver hcmd hdec] at h
            cases h
            exact Or.inr ⟨8, by simp, send_socks_reply_tx s 8, rfl⟩
          | some target =>
            obtain ⟨address, port, ats⟩ := target
            obtain ⟨message, hm⟩ :=
              handle_socks_request_decoded env s n address port ats hver hcmd hdec
            rw [hm] at h
            rcases gate_and_dial_effect env _ address port s1 h with ⟨h1, h2, h3⟩ | ⟨st, h1, h2, h3⟩
            · refine Or.inl ⟨h1, h2, ?_⟩
              rcases h3 with h3 | h3
              · exact Or.inl h3
              · exact Or.inr ⟨address, port, h3⟩
            · refine Or.inr ⟨st, ?_, h2, h3⟩
              rcases h1 with h1 | h1
              · exact Or.inr (Or.inl h1)
              · exact Or.inr (Or.inr (Or.inl h1))
      · have : ProxySession.handle_socks_request env s error_code.success n = Except.ok s := by
          unfold ProxySession.handle_socks_request
          simp [hver, hcmd, SOCKS_VERSION]
        rw [this] at h
        cases h
        exact Or.inl ⟨rfl, rfl, Or.inl rfl⟩
    · have : ProxySession.handle_socks_request env s error_code.success n =
          Except.ok (s.send_socks_reply 1) := by
        unfold ProxySession.handle_socks_request
        simp [hver, SOCKS_VERSION]
      rw [this] at h
      cases h
      exact Or.inr ⟨1, by simp, send_socks_reply_tx s 1, rfl⟩
  · have : ProxySession.handle_socks_request env s error n = Except.ok s.close := by
      unfold ProxySession.handle_socks_request
      simp [herr]
    rw [this] at h
    cases h
    exact Or.inl ⟨rfl, rfl, Or.inl rfl⟩

/-- What `read_socks_request` leaves outstanding on a session with nothing
outstanding and a zeroed `server_data_`: nothing, or the write of the reply
05 05 00 01 00 00 00 00 00 00, or the request read with `server_data_` zeroed. -/
theorem read_socks_request_effect (s0 s : ProxySession) (hp : s0.pending = [])
    (hz : s0.server_data_ = []) (h : s0.read_socks_request = Except.ok s) :
    s.pending = [] ∨
    (s.pending = [AsyncOp.reply_write] ∧
      s.client_socket_.tx = s0.client_socket_.tx ++ [5, 5, 0, 1, 0, 0, 0, 0, 0, 0]) ∨
    (s.pending = [AsyncOp.request_read] ∧ s.server_data_ = []) := by
  unfold ProxySession.read_socks_request at h
  split at h
  · rename_i data socket hread
    have htx : socket.tx = s0.client_socket_.tx := by
      have := congrArg (fun x => x.2.2.tx) hread
      simp only at this
      rw [← this]
      unfold Socket.read
      split <;> rfl
    simp only at h
    split at h
    · cases h
      refine Or.inr (Or.inl ⟨by simp [hp], ?_⟩)
      rw [send_socks_reply_tx, reply_frame_eq]
      simp [hz, htx, bufSlice, bufGet, List.range, List.range.loop]
    · cases hauth : Handle_Authentication.handle_authentication s0.proxyConfig_ socket with
      | error f =>
        simp [hauth, bind, Except.bind] at h
      | ok r =>
        simp only [hauth, bind, Except.bind, pure, Except.pure] at h
        split at h
        · cases h
          exact Or.inl (by simp [hp])
        · split at h
          · cases h
            exact Or.inr (Or.inr ⟨by simp [hp], rfl⟩)
          · cases h
            exact Or.inl (by simp [hp])
  · cases h
    exact Or.inl (by simp [hp])

theorem reply_possible_erase (s s1 : ProxySession) (op : AsyncOp)
    (h : s1.pending = s.pending.erase op) (hn : ¬ s.reply_possible) : ¬ s1.reply_possible := by
  unfold ProxySession.reply_possible at hn ⊢
  rw [h]
  rintro (h1 | ⟨a, p, h1⟩)
  · exact hn (Or.inl (List.mem_of_mem_erase h1))
  · exact hn (Or.inr ⟨a, p, List.mem_of_mem_erase h1⟩)

theorem reply_possible_erase_append (s s1 : ProxySession) (op x : AsyncOp)
    (h : s1.pending = s.pending.erase op ++ [x]) (hx : x ≠ AsyncOp.request_read)
    (hc : ∀ a p, x ≠ AsyncOp.connect a p) (hn : ¬ s.reply_possible) :
    ¬ s1.reply_possible := by
  unfold ProxySession.reply_possible at hn ⊢
  rw [h]
  rintro (h1 | ⟨a, p, h1⟩)
  · rcases List.mem_append.mp h1 with h2 | h2
    · exact hn (Or.inl (List.mem_of_mem_erase h2))
    · exact hx (List.mem_singleton.mp h2).symm
  · rcases List.mem_append.mp h1 with h2 | h2
    · exact hn (Or.inr ⟨a, p, List.mem_of_mem_erase h2⟩)
    · exact hc a p (List.mem_singleton.mp h2).symm

theorem complete_reply_write_pending (s : ProxySession) (e : error_code) :
    (s.complete_reply_write e).pending = s.pending.erase AsyncOp.reply_write := by
  unfold ProxySession.complete_reply_write ProxySession.handle_write
  split <;> rfl

theorem complete_client_read_pending (s : ProxySession) :
    s.complete_client_read.pending = s.pending.erase AsyncOp.client_read ∨
    s.complete_client_read.pending = s.pending.erase AsyncOp.client_read ++
      [AsyncOp.server_write] := by
  unfold ProxySession.complete_client_read ProxySession.handle_client_read
  simp only
  split
  · exact Or.inr rfl
  · exact Or.inl rfl

theorem complete_server_read_pending (s : ProxySession) :
    s.complete_server_read.pending = s.pending.erase AsyncOp.server_read ∨
    s.complete_server_read.pending = s.pending.erase AsyncOp.server_read ++
      [AsyncOp.client_write] := by
  unfold ProxySession.complete_server_read ProxySession.handle_server_read
  simp only
  split
  · exact Or.inr rfl
  · exact Or.inl rfl

theorem complete_server_write_pending (s : ProxySession) (e : error_code) :
    (s.complete_server_write e).pending = s.pending.erase AsyncOp.server_write ∨
    (s.complete_server_write e).pending = s.pending.erase AsyncOp.server_write ++
      [AsyncOp.client_read] := by
  unfold ProxySession.complete_server_write ProxySession.handle_client_read_written
  split
  · exact Or.inr rfl
  · exact Or.inl rfl

theorem complete_client_write_pending (s : ProxySession) (e : error_code) :
    (s.complete_client_write e).pending = s.pending.erase AsyncOp.client_write ∨
    (s.complete_client_write e).pending = s.pending.erase AsyncOp.client_write ++
      [AsyncOp.server_read] := by
  unfold ProxySession.complete_client_write ProxySession.handle_server_read_written
  split
  · exact Or.inr rfl
  · exact Or.inl rfl

/-- An operation other than the request read and a connect is outstanding only
in the last stage. -/
theorem staged_not_reply_possible (s : ProxySession) (op : AsyncOp) (hst : s.staged)
    (hop : op ∈ s.pending) (h1 : op ≠ AsyncOp.request_read)
    (h2 : ∀ a p, op ≠ AsyncOp.connect a p) : ¬ s.reply_possible := by
  rcases hst with ⟨hp, -⟩ | ⟨a, p, hp, -⟩ | hn
  · rw [hp] at hop
    exact absurd (List.mem_singleton.mp hop) h1
  · rw [hp] at hop
    exact absurd (List.mem_singleton.mp hop) (h2 a p)
  · exact hn

/-- The state `start()` leaves an accepted session in is staged. -/
theorem staged_start (config : ProxyConfiguration) (logging_method : Int) (peer : String)
    (rx : List (List Nat)) (s : ProxySession)
    (h : (ProxySession.accepted config logging_method peer rx).start = Except.ok s) :
    s.staged := by
  rcases read_socks_request_effect _ s rfl rfl h with hp | ⟨hp, -⟩ | ⟨hp, hz⟩
  · right
    right
    simp [ProxySession.reply_possible, hp]
  · right
    right
    simp [ProxySession.reply_possible, hp]
  · exact Or.inl ⟨hp, hz⟩

/-- On a session whose client socket is open the connect completes as the
environment decides and `handle_connect` returns. -/
theorem complete_connect_or_throw_open (env : Env) (s : ProxySession) (address : String)
    (port : Nat) (hopen : s.client_socket_.is_open = true) :
    s.complete_connect_or_throw env address port =
      Except.ok (s.complete_connect env address port) := by
  unfold ProxySession.complete_connect_or_throw ProxySession.complete_connect
    ProxySession.handle_connect_or_throw ProxySession.handle_connect
    ProxySession.send_socks_reply_or_throw
  by_cases hc : env.connect address port = error_code.success <;>
    simp [hopen, hc, Socket.remote_endpoint, bind, Except.bind, pure, Except.pure]

/-- On a session that `close()` has run on, the connect completes with
`operation_aborted` and `handle_connect` throws from `send_socks_reply(5)`. -/
theorem complete_connect_or_throw_closed (env : Env) (s : ProxySession) (address : String)
    (port : Nat) (hclosed : s.client_socket_.is_open = false) :
    s.complete_connect_or_throw env address port =
      Except.error (Fault.system_error error_code.bad_descriptor) := by
  unfold ProxySession.complete_connect_or_throw ProxySession.handle_connect_or_throw
    ProxySession.send_socks_reply_or_throw
  simp [hclosed, Socket.remote_endpoint, bind, Except.bind]

/-- A completed connect that returns has run on an open client socket. -/
theorem complete_connect_or_throw_ok (env : Env) (s s1 : ProxySession) (address : String)
    (port : Nat) (h : s.complete_connect_or_throw env address port = Except.ok s1) :
    s.client_socket_.is_open = true ∧ s1 = s.complete_connect env address port := by
  cases hopen : s.client_socket_.is_open with
  | false =>
    rw [complete_connect_or_throw_closed env s address port hopen] at h
    cases h
  | true =>
    rw [complete_connect_or_throw_open env s address port hopen] at h
    exact ⟨rfl, (Except.ok.inj h).symm⟩

/-- The stage of a session is not changed by `close()`. -/
theorem staged_close (s : ProxySession) (h : s.staged) : s.close.staged := h

/-- A turn of the executor leads from a staged state to a staged state. -/
theorem staged_step (env : Env) (s s1 : ProxySession) (op : AsyncOp) (error : error_code)
    (hst : s.staged) (h : s.step env op error = some (Except.ok s1)) : s1.staged := by
  unfold ProxySession.step at h
  split at h
  · rename_i hop
    cases op with
    | request_read =>
      simp only [Option.some.injEq] at h
      rcases hst with ⟨hp, hz⟩ | ⟨a, p, hp, -⟩ | hn
      · unfold ProxySession.complete_request_read at h
        simp only at h
        rcases handle_socks_request_effect env _ _ _ s1 h with
          ⟨-, h2, h3 | ⟨a, p, h3⟩⟩ | ⟨st, -, -, h3⟩
        · right
          right
          simp [ProxySession.reply_possible, h3, hp]
        · exact Or.inr (Or.inl ⟨a, p, by simp [h3, hp], by simp [h2, hz]⟩)
        · right
          right
          simp [ProxySession.reply_possible, h3, hp]
      · rw [hp] at hop
        simp at hop
      · exact absurd (Or.inl hop) hn
    | connect address port =>
      simp only [Option.some.injEq] at h
      obtain ⟨-, h⟩ := complete_connect_or_throw_ok env s s1 address port h
      subst h
      rcases hst with ⟨hp, -⟩ | ⟨a, p, hp, -⟩ | hn
      · rw [hp] at hop
        simp at hop
      · rw [hp] at hop
        have hap : AsyncOp.connect address port = AsyncOp.connect a p := List.mem_singleton.mp hop
        right
        right
        unfold ProxySession.complete_connect ProxySession.handle_connect
        simp only
        split
        · simp [ProxySession.reply_possible, ProxySession.forward_data, hp, hap]
        · simp [ProxySession.reply_possible, hp, hap]
      · exact absurd (Or.inr ⟨address, port, hop⟩) hn
    | reply_write =>
      simp only [Option.some.injEq, Except.ok.injEq] at h
      subst h
      have hn := staged_not_reply_possible s _ hst hop (by simp) (by simp)
      exact Or.inr (Or.inr (reply_possible_erase s _ _ (complete_reply_write_pending s error) hn))
    | client_read =>
      simp only [Option.some.injEq, Except.ok.injEq] at h
      subst h
      have hn := staged_not_reply_possible s _ hst hop (by simp) (by simp)
      rcases complete_client_read_pending s with hp | hp
      · exact Or.inr (Or.inr (reply_possible_erase s _ _ hp hn))
      · exact Or.inr (Or.inr (reply_possible_erase_append s _ _ _ hp (by simp) (by simp) hn))
    | server_read =>
      simp only [Option.some.injEq, Except.ok.injEq] at h
      subst h
      have hn := staged_not_reply_possible s _ hst hop (by simp) (by simp)
      rcases complete_server_read_pending s with hp | hp
      · exact Or.inr (Or.inr (reply_possible_erase s _ _ hp hn))
      · exact Or.inr (Or.inr (reply_possible_erase_append s _ _ _ hp (by simp) (by simp) hn))
    | server_write =>
      simp only [Option.some.injEq, Except.ok.injEq] at h
      subst h
      have hn := staged_not_reply_possible s _ hst hop (by simp) (by simp)
      rcases complete_server_write_pending s error with hp | hp
      · exact Or.inr (Or.inr (reply_possible_erase s _ _ hp hn))
      · exact Or.inr (Or.inr (reply_possible_erase_append s _ _ _ hp (by simp) (by simp) hn))
    | client_write =>
      simp only [Option.some.injEq, Except.ok.injEq] at h
      subst h
      have hn := staged_not_reply_possible s _ hst hop (by simp) (by simp)
      rcases complete_client_write_pending s error with hp | hp
      · exact Or.inr (Or.inr (reply_possible_erase s _ _ hp hn))
      · exact Or.inr (Or.inr (reply_possible_erase_append s _ _ _ hp (by simp) (by simp) hn))
  · cases h

/-- Every reachable state is staged. -/
theorem reachable_staged (env : Env) (s : ProxySession) (h : ProxySession.Reachable env s) :
    s.staged := by
  induction h with
  | start config logging_method peer rx s hs => exact staged_start config logging_method peer rx s hs
  | step s op error s1 _ hstep ih => exact staged_step env s s1 op error ih hstep
  | stop s _ ih => exact staged_close s ih

theorem reply_frame_zeroed (s : ProxySession) (status : Nat) (hz : s.server_data_ = []) :
    s.reply_frame status = [5, status % 256, 0, 1, 0, 0, 0, 0, 0, 0] := by
  rw [reply_frame_eq, hz]
  rfl

theorem Socket.read_some_tx (s : Socket) (cap : Nat) : (s.read_some cap).2.2.tx = s.tx := by
  unfold Socket.read_some
  split <;> rfl

theorem Socket.async_read_some_tx (s : Socket) (cap : Nat) :
    (s.async_read_some cap).2.2.tx = s.tx := by
  unfold Socket.async_read_some
  split
  · exact Socket.read_some_tx s cap
  · rfl

/-- The reply frame in the reachable states, `stop()` included. In a state from
which a handler that replies can still run (the request read or a connect is
outstanding), a call of `send_socks_reply(status)` on an open client socket
hands to the client write exactly the ten bytes
[5, status, 0, 1, 0, 0, 0, 0, 0, 0], and on a client socket that `stop()` has
closed it throws before anything is handed over. Every turn that runs
`handle_socks_request` or `handle_connect` and returns writes either nothing or
exactly one such frame, with status 0, 1, 5, 7 or 8; and the reply that
`read_socks_request` sends from `start()` is 05 05 00 01 00 00 00 00 00 00. In
the other reachable states no handler calls `send_socks_reply`. -/
theorem reachable_reply_frame (env : Env) (s : ProxySession)
    (hreach : ProxySession.Reachable env s) :
    (s.reply_possible → ∀ status, status < 256 →
      (s.client_socket_.is_open = true →
        ∃ s1, s.send_socks_reply_or_throw status = Except.ok s1 ∧
          s1.client_socket_.tx = s.client_socket_.tx ++ [5, status, 0, 1, 0, 0, 0, 0, 0, 0]) ∧
      (s.client_socket_.is_open = false →
        s.send_socks_reply_or_throw status =
          Except.error (Fault.system_error error_code.bad_descriptor))) ∧
    (∀ op error s1, s.step env op error = some (Except.ok s1) →
      (op = AsyncOp.request_read ∨ ∃ address port, op = AsyncOp.connect address port) →
      s1.client_socket_.tx = s.client_socket_.tx ∨
        ∃ status, (status = 0 ∨ status = 1 ∨ status = 5 ∨ status = 7 ∨ status = 8) ∧
          s1.client_socket_.tx = s.client_socket_.tx ++ [5, status, 0, 1, 0, 0, 0, 0, 0, 0]) ∧
    (∀ config logging_method peer rx s1,
      (ProxySession.accepted config logging_method peer rx).start = Except.ok s1 →
      AsyncOp.reply_write ∈ s1.pending →
      s1.client_socket_.tx = [5, 5, 0, 1, 0, 0, 0, 0, 0, 0]) := by
  have hst := reachable_staged env s hreach
  have hzero : s.reply_possible → s.server_data_ = [] := by
    intro hrp
    rcases hst with ⟨-, hz⟩ | ⟨_, _, -, hz⟩ | hn
    · exact hz
    · exact hz
    · exact absurd hrp hn
  refine ⟨?_, ?_, ?_⟩
  · intro hrp status hlt
    constructor
    · intro hopen
      refine ⟨s.send_socks_reply status, ?_, ?_⟩
      · simp [ProxySession.send_socks_reply_or_throw, Socket.remote_endpoint, hopen, bind,
          Except.bind, pure, Except.pure]
      · rw [send_socks_reply_tx, reply_frame_zeroed s status (hzero hrp), Nat.mod_eq_of_lt hlt]
    · intro hclosed
      simp [ProxySession.send_socks_reply_or_throw, Socket.remote_endpoint, hclosed, bind,
        Except.bind]
  · intro op error s1 hstep hop
    unfold ProxySession.step at hstep
    split at hstep
    · rename_i hmem
      rcases hop with rfl | ⟨address, port, rfl⟩
      · have hz := hzero (Or.inl hmem)
        simp only [Option.some.injEq] at hstep
        unfold ProxySession.complete_request_read at hstep
        simp only at hstep
        have htx := Socket.async_read_some_tx s.client_socket_ BUFFER_SIZE
        rcases handle_socks_request_effect env _ _ _ s1 hstep with
          ⟨h1, -, -⟩ | ⟨st, hst1, h1, -⟩
        · left
          rw [h1]
          exact htx
        · right
          refine ⟨st, ?_, ?_⟩
          · rcases hst1 with h | h | h | h <;> simp [h]
          · rw [h1]
            rcases hst1 with h | h | h | h <;>
              simp [h, reply_frame_eq, hz, htx, bufSlice, bufGet, List.range, List.range.loop]
      · have hz := hzero (Or.inr ⟨address, port, hmem⟩)
        simp only [Option.some.injEq] at hstep
        obtain ⟨-, hstep⟩ := complete_connect_or_throw_ok env s s1 address port hstep
        subst hstep
        right
        unfold ProxySession.complete_connect ProxySession.handle_connect
        simp only
        split
        · refine ⟨0, by simp, ?_⟩
          simp [ProxySession.forward_data, send_socks_reply_tx, reply_frame_eq, hz, bufSlice,
            bufGet, List.range, List.range.loop]
        · refine ⟨5, by simp, ?_⟩
          simp [send_socks_reply_tx, reply_frame_eq, hz, bufSlice, bufGet, List.range,
            List.range.loop]
    · cases hstep
  · intro config logging_method peer rx s1 hstart hmem
    rcases read_socks_request_effect _ s1 rfl rfl hstart with hp | ⟨-, htx⟩ | ⟨hp, -⟩
    · rw [hp] at hmem
      simp at hmem
    · simpa [ProxySession.accepted] using htx
    · rw [hp] at hmem
      simp at hmem

/-! ## Relay -/

theorem recvSome_flatten (cap : Nat) (rx : List (List Nat)) :
    (∀ d rx1, recvSome cap rx = some (d, rx1) → rx.flatten = d ++ rx1.flatten) ∧
    (recvSome cap rx = none → rx.flatten = []) := by
  induction rx with
  | nil =>
    constructor
    · intro d rx1 h
      simp [recvSome] at h
    · intro _
      rfl
  | cons seg rest ih =>
    by_cases hseg : seg = []
    · subst hseg
      simpa [recvSome] using ih
    · constructor
      · intro d rx1 h
        simp only [recvSome, hseg, if_false, Option.some.injEq, Prod.mk.injEq] at h
        obtain ⟨rfl, rfl⟩ := h
        by_cases hlen : seg.length ≤ cap
        · simp [hlen, List.take_of_length_le hlen]
        · simp [hlen]
          rw [← List.append_assoc, List.take_append_drop]
      · intro h
        simp [recvSome, hseg] at h

theorem bufSlice_bufStore (buf d : List Nat) : bufSlice (bufStore buf d) 0 d.length = d := by
  apply List.ext_getElem
  · simp [bufSlice]
  · intro i h1 h2
    simp [bufSlice, bufStore, bufGet, List.getElem?_append_left h2, List.getElem?_eq_getElem h2]

/-- A completed client read, on a session whose sockets are both open or both
closed: either the bytes delivered were handed to the server socket and the
write to the server is outstanding, or nothing was read or written. -/
theorem complete_client_read_effect (s : ProxySession)
    (hsock : s.client_socket_.is_open = s.server_socket_.is_open) :
    s.complete_client_read.client_socket_.is_open = s.complete_client_read.server_socket_.is_open ∧
    s.complete_client_read.server_socket_.rx = s.server_socket_.rx ∧
    s.complete_client_read.client_socket_.tx = s.client_socket_.tx ∧
    ((∃ d, s.client_socket_.rx.flatten = d ++ s.complete_client_read.client_socket_.rx.flatten ∧
        s.complete_client_read.server_socket_.tx = s.server_socket_.tx ++ d ∧
        s.complete_client_read.pending =
          s.pending.erase AsyncOp.client_read ++ [AsyncOp.server_write]) ∨
      (s.client_socket_.rx.flatten = s.complete_client_read.client_socket_.rx.flatten ∧
        s.complete_client_read.server_socket_.tx = s.server_socket_.tx ∧
        s.complete_client_read.pending = s.pending.erase AsyncOp.client_read)) := by
  unfold ProxySession.complete_client_read Socket.async_read_some
  by_cases hopen : s.client_socket_.is_open = true
  · have hsrv : s.server_socket_.is_open = true := hsock ▸ hopen
    cases hrecv : recvSome BUFFER_SIZE s.client_socket_.rx with
    | none =>
      have hfl := (recvSome_flatten BUFFER_SIZE s.client_socket_.rx).2 hrecv
      simp [hopen, Socket.read_some, hrecv, ProxySession.handle_client_read, ProxySession.close,
        Socket.close, hfl]
    | some v =>
      obtain ⟨d, rx1⟩ := v
      have hfl := (recvSome_flatten BUFFER_SIZE s.client_socket_.rx).1 d rx1 hrecv
      simp [hopen, Socket.read_some, hrecv, ProxySession.handle_client_read,
        Socket.async_write, hsrv, Socket.write, bufSlice_bufStore, hfl]
  · have hc : s.client_socket_.is_open = false := by simpa using hopen
    simp [hc, ProxySession.handle_client_read, ProxySession.close, Socket.close]

/-- A completed server read, on a session whose sockets are both open or both
closed: either the bytes delivered were handed to the client socket and the
write to the client is outstanding, or nothing was read or written. -/
theorem complete_server_read_effect (s : ProxySession)
    (hsock : s.client_socket_.is_open = s.server_socket_.is_open) :
    s.complete_server_read.client_socket_.is_open = s.complete_server_read.server_socket_.is_open ∧
    s.complete_server_read.client_socket_.rx = s.client_socket_.rx ∧
    s.complete_server_read.server_socket_.tx = s.server_socket_.tx ∧
    ((∃ d, s.server_socket_.rx.flatten = d ++ s.complete_server_read.server_socket_.rx.flatten ∧
        s.complete_server_read.client_socket_.tx = s.client_socket_.tx ++ d ∧
        s.complete_server_read.pending =
          s.pending.erase AsyncOp.server_read ++ [AsyncOp.client_write]) ∨
      (s.server_socket_.rx.flatten = s.complete_server_read.server_socket_.rx.flatten ∧
        s.complete_server_read.client_socket_.tx = s.client_socket_.tx ∧
        s.complete_server_read.pending = s.pending.erase AsyncOp.server_read)) := by
  unfold ProxySession.complete_server_read Socket.async_read_some
  by_cases hopen : s.server_socket_.is_open = true
  · have hcl : s.client_socket_.is_open = true := hsock ▸ hopen
    cases hrecv : recvSome BUFFER_SIZE s.server_socket_.rx with
    | none =>
      have hfl := (recvSome_flatten BUFFER_SIZE s.server_socket_.rx).2 hrecv
      simp [hopen, Socket.read_some, hrecv, ProxySession.handle_server_read, ProxySession.close,
        Socket.close, hfl]
    | some v =>
      obtain ⟨d, rx1⟩ := v
      have hfl := (recvSome_flatten BUFFER_SIZE s.server_socket_.rx).1 d rx1 hrecv
      simp [hopen, Socket.read_some, hrecv, ProxySession.handle_server_read,
        Socket.async_write, hcl, Socket.write, bufSlice_bufStore, hfl]
  · have hc : s.server_socket_.is_open = false := by simpa using hopen
    simp [hc, ProxySession.handle_server_read, ProxySession.close, Socket.close]

theorem relayed_refl (a b : Socket) : relayed a a b b :=
  ⟨[], by simp, by simp⟩

theorem relayed_of_eq (a a1 b b1 : Socket) (hrx : a.rx.flatten = a1.rx.flatten)
    (htx : b1.tx = b.tx) : relayed a a1 b b1 :=
  ⟨[], by simp [hrx], by simp [htx]⟩

theorem relayed_trans (a a1 a2 b b1 b2 : Socket) (h1 : relayed a a1 b b1)
    (h2 : relayed a1 a2 b1 b2) : relayed a a2 b b2 := by
  obtain ⟨x, hx1, hx2⟩ := h1
  obtain ⟨y, hy1, hy2⟩ := h2
  exact ⟨x ++ y, by rw [hx1, hy1, List.append_assoc], by rw [hy2, hx2, List.append_assoc]⟩

theorem complete_reply_write_effect (s : ProxySession) (e : error_code)
    (hsock : s.client_socket_.is_open = s.server_socket_.is_open) :
    (s.complete_reply_write e).client_socket_.is_open =
      (s.complete_reply_write e).server_socket_.is_open ∧
    (s.complete_reply_write e).client_socket_.rx = s.client_socket_.rx ∧
    (s.complete_reply_write e).client_socket_.tx = s.client_socket_.tx ∧
    (s.complete_reply_write e).server_socket_.rx = s.server_socket_.rx ∧
    (s.complete_reply_write e).server_socket_.tx = s.server_socket_.tx := by
  unfold ProxySession.complete_reply_write ProxySession.handle_write
  split <;> simp [ProxySession.close, Socket.close, hsock]

theorem complete_server_write_effect (s : ProxySession) (e : error_code)
    (hsock : s.client_socket_.is_open = s.server_socket_.is_open) :
    (s.complete_server_write e).client_socket_.is_open =
      (s.complete_server_write e).server_socket_.is_open ∧
    (s.complete_server_write e).client_socket_.rx = s.client_socket_.rx ∧
    (s.complete_server_write e).client_socket_.tx = s.client_socket_.tx ∧
    (s.complete_server_write e).server_socket_.rx = s.server_socket_.rx ∧
    (s.complete_server_write e).server_socket_.tx = s.server_socket_.tx := by
  unfold ProxySession.complete_server_write ProxySession.handle_client_read_written
  split <;> simp [ProxySession.close, Socket.close, hsock]

theorem complete_client_write_effect (s : ProxySession) (e : error_code)
    (hsock : s.client_socket_.is_open = s.server_socket_.is_open) :
    (s.complete_client_write e).client_socket_.is_open =
      (s.complete_client_write e).server_socket_.is_open ∧
    (s.complete_client_write e).client_socket_.rx = s.client_socket_.rx ∧
    (s.complete_client_write e).client_socket_.tx = s.client_socket_.tx ∧
    (s.complete_client_write e).server_socket_.rx = s.server_socket_.rx ∧
    (s.complete_client_write e).server_socket_.tx = s.server_socket_.tx := by
  unfold ProxySession.complete_client_write ProxySession.handle_server_read_written
  split <;> simp [ProxySession.close, Socket.close, hsock]

/-- One turn of the executor in the relay stage keeps the stage and moves bytes
from each socket to the other unaltered. -/
theorem relay_step (env : Env) (s s1 : ProxySession) (op : AsyncOp) (error : error_code)
    (hrel : s.relaying) (h : s.step env op error = some (Except.ok s1)) :
    s1.relaying ∧
    relayed s.client_socket_ s1.client_socket_ s.server_socket_ s1.server_socket_ ∧
    relayed s.server_socket_ s1.server_socket_ s.client_socket_ s1.client_socket_ := by
  obtain ⟨hn, hsock, hc, hsv⟩ := hrel
  unfold ProxySession.step at h
  split at h
  · rename_i hop
    have hpos := List.count_pos_iff.mpr hop
    cases op with
    | request_read => exact absurd (Or.inl hop) hn
    | connect address port => exact absurd (Or.inr ⟨address, port, hop⟩) hn
    | reply_write =>
      simp only [Option.some.injEq, Except.ok.injEq] at h
      subst h
      obtain ⟨e1, e2, e3, e4, e5⟩ := complete_reply_write_effect s error hsock
      have hp := complete_reply_write_pending s error
      refine ⟨⟨reply_possible_erase s _ _ hp hn, e1, ?_, ?_⟩,
        relayed_of_eq _ _ _ _ (by rw [e2]) e5, relayed_of_eq _ _ _ _ (by rw [e4]) e3⟩
      · rw [hp]
        simpa using hc
      · rw [hp]
        simpa using hsv
    | client_read =>
      simp only [Option.some.injEq, Except.ok.injEq] at h
      subst h
      obtain ⟨e1, e2, e3, e4⟩ := complete_client_read_effect s hsock
      rcases e4 with ⟨d, f1, f2, hp⟩ | ⟨f1, f2, hp⟩
      · refine ⟨⟨reply_possible_erase_append s _ _ _ hp (by simp) (by simp) hn, e1, ?_, ?_⟩,
          ⟨d, f1, f2⟩, relayed_of_eq _ _ _ _ (by rw [e2]) e3⟩
        · rw [hp]
          simp
          omega
        · rw [hp]
          simpa using hsv
      · refine ⟨⟨reply_possible_erase s _ _ hp hn, e1, ?_, ?_⟩,
          relayed_of_eq _ _ _ _ f1 f2, relayed_of_eq _ _ _ _ (by rw [e2]) e3⟩
        · rw [hp]
          simp
          omega
        · rw [hp]
          simpa using hsv
    | server_read =>
      simp only [Option.some.injEq, Except.ok.injEq] at h
      subst h
      obtain ⟨e1, e2, e3, e4⟩ := complete_server_read_effect s hsock
      rcases e4 with ⟨d, f1, f2, hp⟩ | ⟨f1, f2, hp⟩
      · refine ⟨⟨reply_possible_erase_append s _ _ _ hp (by simp) (by simp) hn, e1, ?_, ?_⟩,
          relayed_of_eq _ _ _ _ (by rw [e2]) e3, ⟨d, f1, f2⟩⟩
        · rw [hp]
          simpa using hc
        · rw [hp]
          simp
          omega
      · refine ⟨⟨reply_possible_erase s _ _ hp hn, e1, ?_, ?_⟩,
          relayed_of_eq _ _ _ _ (by rw [e2]) e3, relayed_of_eq _ _ _ _ f1 f2⟩
        · rw [hp]
          simpa using hc
        · rw [hp]
          simp
          omega
    | server_write =>
      simp only [Option.some.injEq, Except.ok.injEq] at h
      subst h
      obtain ⟨e1, e2, e3, e4, e5⟩ := complete_server_write_effect s error hsock
      rcases complete_server_write_pending s error with hp | hp
      · refine ⟨⟨reply_possible_erase s _ _ hp hn, e1, ?_, ?_⟩,
          relayed_of_eq _ _ _ _ (by rw [e2]) e5, relayed_of_eq _ _ _ _ (by rw [e4]) e3⟩
        · rw [hp]
          simp
          omega
        · rw [hp]
          simpa using hsv
      · refine ⟨⟨reply_possible_erase_append s _ _ _ hp (by simp) (by simp) hn, e1, ?_, ?_⟩,
          relayed_of_eq _ _ _ _ (by rw [e2]) e5, relayed_of_eq _ _ _ _ (by rw [e4]) e3⟩
        · rw [hp]
          simp
          omega
        · rw [hp]
          simpa using hsv
    | client_write =>
      simp only [Option.some.injEq, Except.ok.injEq] at h
      subst h
      obtain ⟨e1, e2, e3, e4, e5⟩ := complete_client_write_effect s error hsock
      rcases complete_client_write_pending s error with hp | hp
      · refine ⟨⟨reply_possible_erase s _ _ hp hn, e1, ?_, ?_⟩,
          relayed_of_eq _ _ _ _ (by rw [e2]) e5, relayed_of_eq _ _ _ _ (by rw [e4]) e3⟩
        · rw [hp]
          simpa using hc
        · rw [hp]
          simp
          omega
      · refine ⟨⟨reply_possible_erase_append s _ _ _ hp (by simp) (by simp) hn, e1, ?_, ?_⟩,
          relayed_of_eq _ _ _ _ (by rw [e2]) e5, relayed_of_eq _ _ _ _ (by rw [e4]) e3⟩
        · rw [hp]
          simpa using hc
        · rw [hp]
          simp
          omega
  · cases h

theorem recvSome_size (cap : Nat) (hcap : 0 < cap) (rx : List (List Nat)) (d : List Nat)
    (rx1 : List (List Nat)) (h : recvSome cap rx = some (d, rx1)) :
    1 ≤ d.length ∧ d.length ≤ cap := by
  induction rx with
  | nil => simp [recvSome] at h
  | cons seg rest ih =>
    by_cases hseg : seg = []
    · subst hseg
      exact ih (by simpa [recvSome] using h)
    · simp only [recvSome, hseg, if_false, Option.some.injEq, Prod.mk.injEq] at h
      obtain ⟨rfl, -⟩ := h
      have hpos : 0 < seg.length := List.length_pos.mpr hseg
      simp only [List.length_take]
      omega

/-- Several turns of the executor in the relay stage. -/
theorem relay_exec (env : Env) (ops : List (AsyncOp × error_code)) :
    ∀ s s1 : ProxySession, s.relaying → ProxySession.exec env ops s = some (Except.ok s1) →
      s1.relaying ∧
      relayed s.client_socket_ s1.client_socket_ s.server_socket_ s1.server_socket_ ∧
      relayed s.server_socket_ s1.server_socket_ s.client_socket_ s1.client_socket_ := by
  induction ops with
  | nil =>
    intro s s1 hrel h
    simp only [ProxySession.exec, Option.some.injEq, Except.ok.injEq] at h
    subst h
    exact ⟨hrel, relayed_refl _ _, relayed_refl _ _⟩
  | cons o rest ih =>
    intro s s1 hrel h
    obtain ⟨op, error⟩ := o
    simp only [ProxySession.exec] at h
    cases hstep : s.step env op error with
    | none => simp [hstep] at h
    | some r =>
      cases r with
      | error f => simp [hstep] at h
      | ok s2 =>
        simp only [hstep] at h
        obtain ⟨hrel2, hc2, hs2⟩ := relay_step env s s2 op error hrel hstep
        obtain ⟨hrel1, hc1, hs1⟩ := ih s2 s1 hrel2 h
        exact ⟨hrel1, relayed_trans _ _ _ _ _ _ hc2 hc1, relayed_trans _ _ _ _ _ _ hs2 hs1⟩

/-- Claim C17. During relaying, every successful read of n bytes (1 <= n <=
4096) from one peer hands exactly those bytes, in order, to the write on the
other peer, and leaves the write outstanding in place of the read; in each
direction at most one operation is outstanding at any time, so the next read
is issued only after the write has completed. Over every sequence of turns of
the executor, whatever the interleaving of the two directions, the bytes
handed to the target are the bytes that left the client stream, and the bytes
handed to the client are the bytes that left the target stream. -/
theorem C17_relay_copies_bytes (env : Env) (ops : List (AsyncOp × error_code))
    (s s1 : ProxySession) (hrel : s.relaying)
    (hexec : ProxySession.exec env ops s = some (Except.ok s1)) :
    (s1.relaying ∧
      relayed s.client_socket_ s1.client_socket_ s.server_socket_ s1.server_socket_ ∧
      relayed s.server_socket_ s1.server_socket_ s.client_socket_ s1.client_socket_) ∧
    (∀ d rx1, s.client_socket_.is_open = true →
      recvSome BUFFER_SIZE s.client_socket_.rx = some (d, rx1) →
      1 ≤ d.length ∧ d.length ≤ 4096 ∧
        s.complete_client_read.server_socket_.tx = s.server_socket_.tx ++ d ∧
        s.complete_client_read.pending =
          s.pending.erase AsyncOp.client_read ++ [AsyncOp.server_write]) ∧
    (∀ d rx1, s.server_socket_.is_open = true →
      recvSome BUFFER_SIZE s.server_socket_.rx = some (d, rx1) →
      1 ≤ d.length ∧ d.length ≤ 4096 ∧
        s.complete_server_read.client_socket_.tx = s.client_socket_.tx ++ d ∧
        s.complete_server_read.pending =
          s.pending.erase AsyncOp.server_read ++ [AsyncOp.client_write]) := by
  obtain ⟨-, hsock, -, -⟩ := id hrel
  refine ⟨relay_exec env ops s s1 hrel hexec, ?_, ?_⟩
  · intro d rx1 hopen hrecv
    have hsrv : s.server_socket_.is_open = true := hsock ▸ hopen
    obtain ⟨hlo, hhi⟩ := recvSome_size BUFFER_SIZE (by decide) _ d rx1 hrecv
    refine ⟨hlo, hhi, ?_, ?_⟩ <;>
      simp [ProxySession.complete_client_read, Socket.async_read_some, hopen, Socket.read_some,
        hrecv, ProxySession.handle_client_read, Socket.async_write, hsrv, Socket.write,
        bufSlice_bufStore]
  · intro d rx1 hopen hrecv
    have hcl : s.client_socket_.is_open = true := hsock.trans hopen
    obtain ⟨hlo, hhi⟩ := recvSome_size BUFFER_SIZE (by decide) _ d rx1 hrecv
    refine ⟨hlo, hhi, ?_, ?_⟩ <;>
      simp [ProxySession.complete_server_read, Socket.async_read_some, hopen, Socket.read_some,
        hrecv, ProxySession.handle_server_read, Socket.async_write, hcl, Socket.write,
        bufSlice_bufStore]

/-- Witness for C17: two client segments and one target segment relayed in an
interleaved order. -/
theorem C17_relay_copies_bytes_witness :
    ∃ s1, ProxySession.exec Env.reachable
        [(AsyncOp.client_read, error_code.success), (AsyncOp.server_read, error_code.success),
          (AsyncOp.server_write, error_code.success), (AsyncOp.client_read, error_code.success),
          (AsyncOp.client_write, error_code.success)]
        ProxySession.relay_example = some (Except.ok s1) ∧
      s1.relaying ∧
      s1.server_socket_.tx = [1, 2, 3, 4, 5] ∧ s1.client_socket_.tx = [9, 8] ∧
      s1.pending = [AsyncOp.server_write, AsyncOp.server_read] := by
  have hrel : ProxySession.relay_example.relaying := by
    refine ⟨?_, rfl, by decide, by decide⟩
    rintro (h | ⟨a, p, h⟩)
    · simp [ProxySession.relay_example] at h
    · simp [ProxySession.relay_example] at h
  refine ⟨_, rfl, ?_, ?_, ?_, ?_⟩
  · exact (C17_relay_copies_bytes Env.reachable
      [(AsyncOp.client_read, error_code.success), (AsyncOp.server_read, error_code.success),
        (AsyncOp.server_write, error_code.success), (AsyncOp.client_read, error_code.success),
        (AsyncOp.client_write, error_code.success)]
      ProxySession.relay_example _ hrel rfl).1.1
  · decide
  · decide
  · decide

/-! ## Replies and the end of a session -/

/-- Claim C21 as stated fails: a CONNECT request with the unknown address type
9 gets reply code 8, and once that write has completed without a write error
`handle_write` has changed nothing: the client socket is still open. -/
theorem C21_reply_written_session_left_open :
    ∃ s1, ProxySession.handle_socks_request Env.reachable
        (ProxySession.awaiting_request (ProxyConfiguration.allow_all 0 "" "") 0 "192.0.2.7"
          [5, 1, 0, 9, 0, 0, 0, 0, 0, 0]) error_code.success 10 = Except.ok s1 ∧
      s1.client_socket_.tx = [5, 8, 0, 1, 0, 0, 0, 0, 0, 0] ∧
      s1.pending = [AsyncOp.reply_write] ∧
      ProxySession.handle_write s1 error_code.success = s1 ∧
      (s1.complete_reply_write error_code.success).client_socket_.is_open = true := by
  refine ⟨_, rfl, ?_, ?_, rfl, ?_⟩ <;> decide

/-- Claim C21, amended. For every reply code (1, 5, 7 and 8 among them) and
every session whose client socket is open, once `send_socks_reply` and its
completion handler `handle_write` have run without a write error the session
is not closed: `handle_write` leaves the session as it is, the client socket
is still open and the server socket is as it was before the reply. Both
sockets are closed only when the write completes with an error. -/
theorem C21_reply_written_without_close (s : ProxySession) (status : Nat)
    (hs : s.client_socket_.is_open = true) :
    ProxySession.handle_write (s.send_socks_reply status) error_code.success =
      s.send_socks_reply status ∧
    ((s.send_socks_reply status).complete_reply_write
      error_code.success).client_socket_.is_open = true ∧
    ((s.send_socks_reply status).complete_reply_write
      error_code.success).server_socket_ = s.server_socket_ ∧
    ∀ e, e ≠ error_code.success →
      ((s.send_socks_reply status).complete_reply_write e).client_socket_.is_open = false ∧
      ((s.send_socks_reply status).complete_reply_write e).server_socket_.is_open = false := by
  have hopen1 : (s.send_socks_reply status).client_socket_.is_open = true := by
    simp [ProxySession.send_socks_reply, Socket.write, hs]
  obtain ⟨w1, w2, -, w4⟩ := complete_reply_write_sockets _ hopen1
  refine ⟨?_, ?_, ?_, w4⟩
  · simp [ProxySession.handle_write]
  · rw [w1]
    exact hopen1
  · rw [w2]
    simp

/-- Witness for C21: reply code 7 on a session that awaits its request. -/
theorem C21_reply_written_without_close_witness :
    (((ProxySession.awaiting_request (ProxyConfiguration.allow_all 0 "" "") 0 "192.0.2.7"
        [5, 1, 0, 1, 10, 0, 0, 1, 0, 80]).send_socks_reply 7).complete_reply_write
      error_code.success).client_socket_.is_open = true ∧
    (((ProxySession.awaiting_request (ProxyConfiguration.allow_all 0 "" "") 0 "192.0.2.7"
        [5, 1, 0, 1, 10, 0, 0, 1, 0, 80]).send_socks_reply 7).complete_reply_write
      error_code.eof).client_socket_.is_open = false :=
  ⟨(C21_reply_written_without_close
      (ProxySession.awaiting_request (ProxyConfiguration.allow_all 0 "" "") 0 "192.0.2.7"
        [5, 1, 0, 1, 10, 0, 0, 1, 0, 80]) 7 rfl).2.1,
    ((C21_reply_written_without_close
      (ProxySession.awaiting_request (ProxyConfiguration.allow_all 0 "" "") 0 "192.0.2.7"
        [5, 1, 0, 1, 10, 0, 0, 1, 0, 80]) 7 rfl).2.2.2 error_code.eof (by decide)).1⟩

/-! ## Logging sinks -/

/-- Claim C25. For every log record (level, IP, message), `log_to_file` makes
exactly these sink calls, in this order, and changes nothing else in the
session: one enqueue to the database sink when `logging_method_` is 1; one
enqueue to the database sink and one to the file sink when it is 2; one
enqueue to the file sink for every other value. -/
theorem C25_log_to_file_sinks (s : ProxySession) (log_level : Level) (IP message : String) :
    (s.logging_method_ = 1 →
      s.log_to_file log_level IP message =
        { s with trace := s.trace ++ [Event.db_enqueue log_level IP message] }) ∧
    (s.logging_method_ = 2 →
      s.log_to_file log_level IP message =
        { s with trace := s.trace ++ [Event.db_enqueue log_level IP message,
                                       Event.file_enqueue log_level IP message] }) ∧
    (s.logging_method_ ≠ 1 → s.logging_method_ ≠ 2 →
      s.log_to_file log_level IP message =
        { s with trace := s.trace ++ [Event.file_enqueue log_level IP message] }) := by
  refine ⟨?_, ?_, ?_⟩
  · intro h
    simp [ProxySession.log_to_file, log_to_file_calls, h]
  · intro h
    simp [ProxySession.log_to_file, log_to_file_calls, h]
  · intro h1 h2
    simp [ProxySession.log_to_file, log_to_file_calls, h1, h2]

/-- Witness for C25: one record logged by sessions with logging methods 1, 2
and 0. -/
theorem C25_log_to_file_sinks_witness :
    ((ProxySession.accepted (ProxyConfiguration.allow_all 0 "" "") 1 "192.0.2.7" []).log_to_file
        Level.info "192.0.2.7" "m").trace = [Event.db_enqueue Level.info "192.0.2.7" "m"] ∧
    ((ProxySession.accepted (ProxyConfiguration.allow_all 0 "" "") 2 "192.0.2.7" []).log_to_file
        Level.info "192.0.2.7" "m").trace =
      [Event.db_enqueue Level.info "192.0.2.7" "m",
        Event.file_enqueue Level.info "192.0.2.7" "m"] ∧
    ((ProxySession.accepted (ProxyConfiguration.allow_all 0 "" "") 0 "192.0.2.7" []).log_to_file
        Level.info "192.0.2.7" "m").trace = [Event.file_enqueue Level.info "192.0.2.7" "m"] :=
  ⟨congrArg ProxySession.trace
      ((C25_log_to_file_sinks
        (ProxySession.accepted (ProxyConfiguration.allow_all 0 "" "") 1 "192.0.2.7" [])
        Level.info "192.0.2.7" "m").1 rfl),
    congrArg ProxySession.trace
      ((C25_log_to_file_sinks
        (ProxySession.accepted (ProxyConfiguration.allow_all 0 "" "") 2 "192.0.2.7" [])
        Level.info "192.0.2.7" "m").2.1 rfl),
    congrArg ProxySession.trace
      ((C25_log_to_file_sinks
        (ProxySession.accepted (ProxyConfiguration.allow_all 0 "" "") 0 "192.0.2.7" [])
        Level.info "192.0.2.7" "m").2.2 (by decide) (by decide))⟩

/-! ## Order of the success reply and the relay -/

/-- Claim C26, evaluated where the code departs from it. After the greeting
05 01 00 and the request 05 01 00 01 0A 00 00 01 00 50, with a target that
connects and sends "SSH-" at once, `handle_connect` calls `send_socks_reply(0)`
and then `forward_data()` without waiting for `handle_write`: in the reachable
state it leaves, the reply write and the read into `server_data_` are both
outstanding. When the read completes first, the reply write is still
outstanding and the first four of the ten bytes it took from `server_data_`
have been overwritten by the target's data. -/
theorem C26_relay_read_started_before_reply_flushed :
    ∃ s3 s4, (ProxySession.accepted (ProxyConfiguration.allow_all 0 "" "") 0 "192.0.2.7"
        [[5, 1, 0], [5, 1, 0, 1, 10, 0, 0, 1, 0, 80]]).run Env.greeting_target = Except.ok s3 ∧
      ProxySession.Reachable Env.greeting_target s3 ∧
      s3.pending = [AsyncOp.reply_write, AsyncOp.client_read, AsyncOp.server_read] ∧
      bufSlice s3.server_data_ 0 10 = [5, 0, 0, 1, 0, 0, 0, 0, 0, 0] ∧
      s3.step Env.greeting_target AsyncOp.server_read error_code.success =
        some (Except.ok s4) ∧
      AsyncOp.reply_write ∈ s4.pending ∧
      bufSlice s4.server_data_ 0 10 = [0x53, 0x53, 0x48, 0x2D, 0, 0, 0, 0, 0, 0] := by
  refine ⟨_, _, rfl, ?_, ?_, ?_, rfl, ?_, ?_⟩
  · exact ProxySession.Reachable.step _ (AsyncOp.connect "10.0.0.1" 80) error_code.success _
      (ProxySession.Reachable.step _ AsyncOp.request_read error_code.success _
        (ProxySession.Reachable.start (ProxyConfiguration.allow_all 0 "" "") 0 "192.0.2.7"
          [[5, 1, 0], [5, 1, 0, 1, 10, 0, 0, 1, 0, 80]] _ rfl) rfl) rfl
  · decide
  · decide
  · decide
  · decide

/-! ## Empty policy lists -/

/-- Claim C30, evaluated where the code departs from it. With an empty
allowed-host list, and with an empty allowed-port list behind a non-empty
allowed-host list, the gate evaluates `allowed_sites[0]` or `allowed_ports[0]`
on an empty vector, for every session and every decoded target; the CONNECT
request 05 01 00 01 0A 00 00 01 00 50 under a configuration without allowed
lists ends in that access instead of a dial or a failure reply. -/
theorem C30_empty_allowed_list_indexed (env : Env) (s : ProxySession) (address : String)
    (port : Nat) :
    ProxySession.gate_and_dial env
      { s with proxyConfig_ := { s.proxyConfig_ with allowedIPs := [] } } address port =
        Except.error Fault.out_of_range ∧
    ProxySession.gate_and_dial env
      { s with proxyConfig_ := { s.proxyConfig_ with allowedIPs := ["all"], allowedPorts := [] } }
      address port = Except.error Fault.out_of_range ∧
    ProxySession.handle_socks_request Env.reachable
      (ProxySession.awaiting_request
        { allowedIPs := [], blockedIPs := [], allowedPorts := [], blockedPorts := [],
          username := "", password := "", authenticationMethod := 0 }
        0 "192.0.2.7" [5, 1, 0, 1, 10, 0, 0, 1, 0, 80]) error_code.success 10 =
      Except.error Fault.out_of_range :=
  ⟨rfl, rfl, rfl⟩

/-! ## The acceptor -/

/-- The session built from a freshly accepted connection is the accepted
session of the session-level statements. -/
theorem make_shared_fresh (config : ProxyConfiguration) (logging_method : Int) (peer : String)
    (rx : List (List Nat)) :
    ProxySession.make_shared (Socket.fresh peer rx) config logging_method =
      ProxySession.accepted config logging_method peer rx := rfl

/-- A completed accept on a closed acceptor leaves a server with an outstanding
accept as it was: no session is created and one accept is outstanding again. -/
theorem complete_accept_closed (srv : ProxyServer) (error : error_code) (peer : String)
    (rx : List (List Nat)) (hclosed : srv.acceptor_.is_open = false) (h : 0 < srv.accepts) :
    srv.complete_accept error peer rx = some (Except.ok srv) := by
  obtain ⟨acceptor, socket, config, lm, sessions, accepts⟩ := srv
  simp only at hclosed h
  have hacc : accepts - 1 + 1 = accepts := by omega
  simp [ProxyServer.complete_accept, h, Acceptor.accept_result, hclosed,
    ProxyServer.handle_accept, ProxyServer.start_accept, pure, Except.pure, hacc]

@[simp] theorem stop_acceptor (srv : ProxyServer) : srv.stop.acceptor_.is_open = false := by
  unfold ProxyServer.stop
  cases ha : srv.acceptor_.is_open <;> cases hs : srv.socket_.is_open <;>
    simp [ha, hs, Acceptor.close]

@[simp] theorem stop_accepts (srv : ProxyServer) : srv.stop.accepts = srv.accepts := by
  unfold ProxyServer.stop
  cases ha : srv.acceptor_.is_open <;> cases hs : srv.socket_.is_open <;> simp [ha, hs]

@[simp] theorem stop_active_sessions (srv : ProxyServer) :
    srv.stop.active_sessions_ = srv.active_sessions_.map ProxySession.close := by
  unfold ProxyServer.stop
  cases ha : srv.acceptor_.is_open <;> cases hs : srv.socket_.is_open <;> simp [ha, hs]

/-- Accept completions on a closed acceptor, one after the other, leave the
server as it was. -/
theorem run_accepts_closed (env : Env) (completions : List (error_code × String × List (List Nat)))
    (srv : ProxyServer) (hclosed : srv.acceptor_.is_open = false) (h : 0 < srv.accepts) :
    ProxyServer.run env
      (completions.map fun c => ProxyServer.Action.accept c.1 c.2.1 c.2.2) srv =
      some (Except.ok srv) := by
  induction completions with
  | nil => rfl
  | cons c rest ih =>
    simp only [List.map_cons, ProxyServer.run, ProxyServer.step,
      complete_accept_closed srv c.1 c.2.1 c.2.2 hclosed h]
    exact ih

/-- Claim C23. For every server state, after `stop()` the acceptor is closed
and every session of `active_sessions_` has its client socket and its server
socket closed; and when an accept is outstanding, each later accept completion
(whatever the transport reports, one or many in a row) runs the handler with
an error, which creates no session: the server is left exactly as `stop()`
left it. -/
theorem C23_stop_closes_acceptor_and_sessions (env : Env) (srv : ProxyServer) :
    srv.stop.acceptor_.is_open = false ∧
    (∀ s ∈ srv.stop.active_sessions_,
      s.client_socket_.is_open = false ∧ s.server_socket_.is_open = false) ∧
    srv.stop.active_sessions_.length = srv.active_sessions_.length ∧
    (0 < srv.accepts →
      (∀ error peer rx, srv.stop.complete_accept error peer rx = some (Except.ok srv.stop)) ∧
      ∀ completions : List (error_code × String × List (List Nat)),
        ProxyServer.run env
          (completions.map fun c => ProxyServer.Action.accept c.1 c.2.1 c.2.2) srv.stop =
          some (Except.ok srv.stop)) := by
  refine ⟨stop_acceptor srv, ?_, by simp, ?_⟩
  · intro s hs
    rw [stop_active_sessions] at hs
    obtain ⟨s0, -, rfl⟩ := List.mem_map.mp hs
    exact ⟨rfl, rfl⟩
  · intro h
    have h1 : 0 < srv.stop.accepts := by simpa using h
    exact ⟨fun error peer rx => complete_accept_closed _ error peer rx (stop_acceptor srv) h1,
      fun completions => run_accepts_closed env completions _ (stop_acceptor srv) h1⟩

/-- Witness for C23: a server with one accepted session that awaits its
request is stopped; the session's client socket is closed and a later accept
completion that the transport reports as successful creates no session. -/
theorem C23_stop_closes_acceptor_and_sessions_witness :
    ∃ srv, ProxyServer.run Env.reachable
        [ProxyServer.Action.accept error_code.success "192.0.2.7" [[5, 1, 0]]]
        (ProxyServer.listening (ProxyConfiguration.allow_all 0 "" "") 0) =
        some (Except.ok srv) ∧
      srv.active_sessions_.length = 1 ∧ srv.accepts = 1 ∧
      (∀ s ∈ srv.stop.active_sessions_,
        s.client_socket_.is_open = false ∧ s.server_socket_.is_open = false) ∧
      srv.stop.complete_accept error_code.success "192.0.2.8" [[5, 1, 0]] =
        some (Except.ok srv.stop) :=
  ⟨_, rfl, rfl, rfl,
    (C23_stop_closes_acceptor_and_sessions Env.reachable _).2.1,
    ((C23_stop_closes_acceptor_and_sessions Env.reachable _).2.2.2 (by decide)).1
      error_code.success "192.0.2.8" [[5, 1, 0]]⟩

/-- Claim C24. For every server state, a second `stop()` changes nothing: the
acceptor, the pending accept socket, the collection of sessions with the
sockets of every session, and every other member are the same after
`stop()` twice as after `stop()` once. -/
theorem C24_stop_idempotent (srv : ProxyServer) : srv.stop.stop = srv.stop := by
  obtain ⟨acceptor, socket, config, lm, sessions, accepts⟩ := srv
  have hclose : ∀ s : ProxySession, s.close.close = s.close := fun s => rfl
  have hmap : List.map (ProxySession.close ∘ ProxySession.close) sessions =
      List.map ProxySession.close sessions :=
    List.map_congr_left fun s _ => hclose s
  unfold ProxyServer.stop
  cases ha : acceptor.is_open <;> cases hs : socket.is_open <;>
    simp [ha, hs, Acceptor.close, Socket.close, List.map_map, hmap]

/-- Claim C28, evaluated where the code departs from it. The completion handler
of `start_accept` calls `start_accept(socket)` outside its `if (!error)`: run
with an error on any server it creates no session but initiates the next
accept. So on a server that was stopped right after its construction, the
accept completion (an error, whatever the transport reports) leaves the
collection empty and one accept outstanding on the closed acceptor: the accept
loop has not ended. -/
theorem C28_accept_rearmed_after_stop (srv : ProxyServer) (config : ProxyConfiguration)
    (logging_method : Int) (error : error_code) (peer : String) (rx : List (List Nat)) :
    ProxyServer.handle_accept srv error_code.operation_aborted = Except.ok srv.start_accept ∧
    srv.start_accept.active_sessions_ = srv.active_sessions_ ∧
    srv.start_accept.accepts = srv.accepts + 1 ∧
    (ProxyServer.listening config logging_method).stop.acceptor_.is_open = false ∧
    ∃ srv1, (ProxyServer.listening config logging_method).stop.complete_accept error peer rx =
        some (Except.ok srv1) ∧
      srv1.acceptor_.is_open = false ∧ srv1.active_sessions_ = [] ∧ srv1.accepts = 1 :=
  ⟨rfl, rfl, rfl, rfl, _, rfl, rfl, rfl, rfl⟩

/-! ## Failures inside a session -/

/-- Claim C22, evaluated where the code departs from it. With
authenticationMethod = 2 a client sends the greeting 05 01 02 and the
sub-negotiation 01 04 75 and then closes (three of the four user name bytes
are missing). The read in `Username_Password::authenticate` is the throwing
overload: the exception leaves `start()`, leaves the accept handler before it
calls `start_accept`, and leaves `run()`, so the connection that follows is
never accepted. A failure on a read that takes an error code (a client that
closes before sending anything) stays inside the session, and the next accept
is initiated. -/
theorem C22_read_failure_leaves_session_and_executor :
    (ProxySession.accepted (ProxyConfiguration.allow_all 2 "user" "pass") 0 "192.0.2.7"
        [[5, 1, 2], [1, 4, 0x75]]).start = Except.error (Fault.system_error error_code.eof) ∧
    (ProxyServer.listening (ProxyConfiguration.allow_all 2 "user" "pass") 0).complete_accept
        error_code.success "192.0.2.7" [[5, 1, 2], [1, 4, 0x75]] =
      some (Except.error (Fault.system_error error_code.eof)) ∧
    ProxyServer.run Env.reachable
        [ProxyServer.Action.accept error_code.success "192.0.2.7" [[5, 1, 2], [1, 4, 0x75]],
          ProxyServer.Action.accept error_code.success "192.0.2.8" [[5, 1, 0]]]
        (ProxyServer.listening (ProxyConfiguration.allow_all 2 "user" "pass") 0) =
      some (Except.error (Fault.system_error error_code.eof)) ∧
    ∃ srv1, (ProxyServer.listening (ProxyConfiguration.allow_all 2 "user" "pass")
          0).complete_accept error_code.success "192.0.2.7" [] = some (Except.ok srv1) ∧
      srv1.active_sessions_.length = 1 ∧ srv1.accepts = 1 :=
  ⟨rfl, rfl, rfl, _, rfl, rfl, rfl⟩

/-! ## Service start -/

/-- Claim C29, evaluated where the code departs from it. When
`loadConfigFromIni`, the logger constructor, the database constructor or the
listener set-up in the `ProxyServer` constructor throws, the handle `server`
is still null, and the first statement of the handler in `service_main` is
`server->stop()`: a member call through the null handle, before the
"Exception: ..." line is written and before SERVICE_STOPPED is reported. Only
when the exception comes out of `io_context.run()`, with the handle assigned,
does the handler stop the server, write the line and go on to report
SERVICE_STOPPED. -/
theorem C29_startup_failure_stops_null_server (env : Startup) (handle : Nat) (what : String)
    (config : ProxyConfiguration) (logging_method : Int) :
    service_main { env with RegisterServiceCtrlHandler := some handle,
                            loadConfigFromIni := Except.error what }
      (Service.initial true) = Except.error Fault.null_pointer ∧
    service_main { env with RegisterServiceCtrlHandler := some handle,
                            loadConfigFromIni := Except.ok (config, logging_method),
                            logger := Except.error what }
      (Service.initial true) = Except.error Fault.null_pointer ∧
    service_main { env with RegisterServiceCtrlHandler := some handle,
                            loadConfigFromIni := Except.ok (config, logging_method),
                            logger := Except.ok (), database := Except.error what }
      (Service.initial true) = Except.error Fault.null_pointer ∧
    service_main { env with RegisterServiceCtrlHandler := some handle,
                            loadConfigFromIni := Except.ok (config, logging_method),
                            logger := Except.ok (), database := Except.ok (),
                            listen := Except.error what }
      (Service.initial true) = Except.error Fault.null_pointer ∧
    service_main { env with RegisterServiceCtrlHandler := some handle,
                            loadConfigFromIni := Except.ok (config, logging_method),
                            logger := Except.ok (), database := Except.ok (),
                            listen := Except.ok (), run := fun srv => (srv, some what) }
      (Service.initial true) =
      Except.ok { server := some (ProxyServer.listening config logging_method).stop,
                  log_file := ["Service started.", "Exception: " ++ what, "Service stoped."],
                  log_file_is_open := false, handle_status := some handle,
                  reports := [(ServiceState.running, 0, 0), (ServiceState.stopped, 0, 0)] } :=
  ⟨rfl, rfl, rfl, rfl, rfl⟩

/-! ## The collection of sessions -/

/-- Claim C15, evaluated where the code departs from it. After the greeting
05 01 00 and the request 05 01 00 01 0A 00 00 01 00 50 the connect to
10.0.0.1:80 is outstanding. On the open session `send_socks_reply(5)` hands
the ten bytes 05 05 00 01 00 00 00 00 00 00 to the client write. When
`ProxyServer::stop` calls `close()` on the session in this state, the state
is reachable, the connect completes with `operation_aborted`, and
`handle_connect` calls `send_socks_reply(5)` on the closed client socket:
`remote_endpoint()` throws, nothing is handed to the client write, and the
exception leaves the handler. -/
theorem C15_reply_on_closed_session_throws :
    ∃ s1 s2, (ProxySession.accepted (ProxyConfiguration.allow_all 0 "" "") 0 "192.0.2.7"
        [[5, 1, 0], [5, 1, 0, 1, 10, 0, 0, 1, 0, 80]]).start = Except.ok s1 ∧
      s1.step Env.reachable AsyncOp.request_read error_code.success = some (Except.ok s2) ∧
      s2.pending = [AsyncOp.connect "10.0.0.1" 80] ∧
      (∃ s3, s2.send_socks_reply_or_throw 5 = Except.ok s3 ∧
        s3.client_socket_.tx = [5, 0] ++ [5, 5, 0, 1, 0, 0, 0, 0, 0, 0]) ∧
      ProxySession.Reachable Env.reachable s2.close ∧
      s2.close.pending = [AsyncOp.connect "10.0.0.1" 80] ∧
      s2.close.client_socket_.tx = [5, 0] ∧
      s2.close.send_socks_reply_or_throw 5 =
        Except.error (Fault.system_error error_code.bad_descriptor) ∧
      s2.close.step Env.reachable (AsyncOp.connect "10.0.0.1" 80) error_code.success =
        some (Except.error (Fault.system_error error_code.bad_descriptor)) := by
  refine ⟨_, _, rfl, rfl, ?_, ⟨_, rfl, ?_⟩, ?_, ?_, ?_, rfl, rfl⟩
  · decide
  · decide
  · exact ProxySession.Reachable.stop _
      (ProxySession.Reachable.step _ AsyncOp.request_read error_code.success _
        (ProxySession.Reachable.start (ProxyConfiguration.allow_all 0 "" "") 0 "192.0.2.7"
          [[5, 1, 0], [5, 1, 0, 1, 10, 0, 0, 1, 0, 80]] _ rfl) rfl)
  · decide
  · decide
